import Mathlib

/-!
Verification development for the API code generator repository.

The repository normalizes API documentation (OpenAPI/Swagger, Postman
collections, free-form HTML) into a canonical model and generates client
libraries for four targets (Node.js, Java, PHP, Go).  This file gives a
shallow embedding of the parsers (`server/parsers/*.js`), the per-target
generators (`server/generators/*.js` and the Java/PHP generator files), and
the retry loop of the emitted request modules, together with theorems about
the claims of the specification.

JavaScript-platform primitives used by the sources (string methods, the
WHATWG `URL` constructor, regular-expression matching) are modelled by
executable Lean functions over `List Char`; each model is documented at its
definition.
-/

/-! ## JavaScript string and value helpers -/

/-- JS `a || b` for an optional string `a`: `undefined`/`null` and the empty
string are falsy, any other string is returned unchanged. -/
def jsOrS (a : Option String) (b : String) : String :=
  match a with
  | some s => if s = "" then b else s
  | none => b

/-- JS `a || b` for two optional strings, keeping the result optional
(used for chains such as `param.example || param.schema?.example`). -/
def jsOrOpt (a b : Option String) : Option String :=
  match a with
  | some s => if s = "" then b else some s
  | none => b

/-- ASCII lower-casing of one character, as JS `toLowerCase` acts on the
ASCII range (all inputs in this development are ASCII). -/
def jsLowerChar : Char → Char
  | 'A' => 'a'
  | 'B' => 'b'
  | 'C' => 'c'
  | 'D' => 'd'
  | 'E' => 'e'
  | 'F' => 'f'
  | 'G' => 'g'
  | 'H' => 'h'
  | 'I' => 'i'
  | 'J' => 'j'
  | 'K' => 'k'
  | 'L' => 'l'
  | 'M' => 'm'
  | 'N' => 'n'
  | 'O' => 'o'
  | 'P' => 'p'
  | 'Q' => 'q'
  | 'R' => 'r'
  | 'S' => 's'
  | 'T' => 't'
  | 'U' => 'u'
  | 'V' => 'v'
  | 'W' => 'w'
  | 'X' => 'x'
  | 'Y' => 'y'
  | 'Z' => 'z'
  | c => c

/-- ASCII upper-casing of one character (JS `toUpperCase` on ASCII). -/
def jsUpperChar : Char → Char
  | 'a' => 'A'
  | 'b' => 'B'
  | 'c' => 'C'
  | 'd' => 'D'
  | 'e' => 'E'
  | 'f' => 'F'
  | 'g' => 'G'
  | 'h' => 'H'
  | 'i' => 'I'
  | 'j' => 'J'
  | 'k' => 'K'
  | 'l' => 'L'
  | 'm' => 'M'
  | 'n' => 'N'
  | 'o' => 'O'
  | 'p' => 'P'
  | 'q' => 'Q'
  | 'r' => 'R'
  | 's' => 'S'
  | 't' => 'T'
  | 'u' => 'U'
  | 'v' => 'V'
  | 'w' => 'W'
  | 'x' => 'X'
  | 'y' => 'Y'
  | 'z' => 'Z'
  | c => c

/-- JS `String.prototype.toLowerCase` (ASCII fragment). -/
def jsLower (s : String) : String := ⟨s.data.map jsLowerChar⟩

/-- JS `String.prototype.toUpperCase` (ASCII fragment). -/
def jsUpper (s : String) : String := ⟨s.data.map jsUpperChar⟩

/-- Is `pre` a prefix of `l` (on characters)? -/
def listPrefixOf : List Char → List Char → Bool
  | [], _ => true
  | _ :: _, [] => false
  | a :: as, b :: bs => a = b && listPrefixOf as bs

/-- Is `sub` a contiguous substring of `l`? -/
def listInfixOf (sub : List Char) : List Char → Bool
  | [] => listPrefixOf sub []
  | c :: cs => listPrefixOf sub (c :: cs) || listInfixOf sub cs

/-- JS `String.prototype.includes`. -/
def jsIncludes (s sub : String) : Bool := listInfixOf sub.data s.data

/-- JS `String.prototype.startsWith`. -/
def jsStartsWith (s p : String) : Bool := listPrefixOf p.data s.data

/-- Case-insensitive prefix test (both sides ASCII-lowercased), used to model
`i`-flagged regular expressions. -/
def listPrefixOfCI (p l : List Char) : Bool :=
  listPrefixOf (p.map jsLowerChar) (l.map jsLowerChar)

/-- JS whitespace class `\s` (ASCII fragment: space, tab, LF, CR, VT, FF). -/
def jsIsSpace (c : Char) : Bool :=
  c = ' ' || c = '\t' || c = '\n' || c = '\r' || c = '\x0b' || c = '\x0c'

/-- JS word-character class `\w` = `[A-Za-z0-9_]`. -/
def jsIsWord (c : Char) : Bool :=
  ('a' ≤ c && c ≤ 'z') || ('A' ≤ c && c ≤ 'Z') || ('0' ≤ c && c ≤ '9') || c = '_'

/-- `[a-z0-9]` test, for `replace(/[^a-z0-9]/g, '-')`. -/
def isLowerDigit (c : Char) : Bool :=
  ('a' ≤ c && c ≤ 'z') || ('0' ≤ c && c ≤ '9')

/-- `[a-zA-Z0-9]` test, for `replace(/[^a-zA-Z0-9]/g, '_')`. -/
def isAlnumAscii (c : Char) : Bool :=
  ('a' ≤ c && c ≤ 'z') || ('A' ≤ c && c ≤ 'Z') || ('0' ≤ c && c ≤ '9')

/-- `s.replace(/[^a-zA-Z0-9]/g, '_')`: every non-alphanumeric character
becomes an underscore. -/
def sanitizeUnderscore (s : String) : String :=
  ⟨s.data.map (fun c => if isAlnumAscii c then c else '_')⟩

/-- `s.toLowerCase().replace(/[^a-z0-9]/g, '-')` as used for package names. -/
def sanitizeDash (s : String) : String :=
  ⟨(jsLower s).data.map (fun c => if isLowerDigit c then c else '-')⟩

/-- JS `String.prototype.trim` (ASCII whitespace fragment). -/
def jsTrim (s : String) : String :=
  ⟨(s.data.dropWhile (jsIsSpace ·)).reverse.dropWhile (jsIsSpace ·) |>.reverse⟩

/-- JS `String.prototype.split('\n')`. -/
def splitLines (s : String) : List String :=
  (s.data.splitOn '\n').map (fun l => ⟨l⟩)

/-- JS `str.replace(sub, rep)` with a plain-string pattern: replaces the
first occurrence only. -/
def jsReplaceFirstAux (sub rep : List Char) : List Char → List Char
  | [] => []
  | c :: cs =>
    if listPrefixOf sub (c :: cs) then rep ++ (c :: cs).drop sub.length
    else c :: jsReplaceFirstAux sub rep cs

/-- JS `String.prototype.replace` with a string pattern (first occurrence;
a pattern that does not occur leaves the string unchanged). -/
def jsReplaceFirst (s sub rep : String) : String :=
  if sub.data = [] then rep ++ s else ⟨jsReplaceFirstAux sub.data rep.data s.data⟩

/-- Generic JSON value, used for payloads the pipeline carries through
without inspecting them (schema property maps, examples, security entries). -/
inductive Json where
  | null
  | bool (b : Bool)
  | num (n : Int)
  | str (s : String)
  | arr (l : List Json)
  | obj (l : List (String × Json))

/-- Insertion into a JS object modelled as an association list: an existing
key is overwritten in place, a new key is appended (JS property order). -/
def jsObjSet {α : Type} (l : List (String × α)) (k : String) (v : α) :
    List (String × α) :=
  match l with
  | [] => [(k, v)]
  | (k', v') :: rest =>
    if k' = k then (k, v) :: rest else (k', v') :: jsObjSet rest k v

/-- Lookup in a JS object modelled as an association list. -/
def jsObjGet {α : Type} (l : List (String × α)) (k : String) : Option α :=
  match l with
  | [] => none
  | (k', v) :: rest => if k' = k then some v else jsObjGet rest k

/-! ## Canonical model (§3 of the spec)

The record shapes below follow the object literals constructed by the three
parsers.  Fields that a parser may leave `undefined` are `Option`s. -/

/-- One entry of `Endpoint.parameters`. -/
structure Param where
  name : String
  loc : String          -- the `in` field: "path" | "query" | "header" | ...
  required : Bool
  type : String
  description : String
  example_ : Option Json
  format : Option String
  enum : Option Json

/-- Shallow schema sketch carried by a request body. -/
structure SchemaSketch where
  type : Option String
  properties : Json
  required : Option Json
  example_ : Option Json

/-- `Endpoint.requestBody` descriptor. -/
structure ReqBody where
  required : Bool
  mediaType : String
  schema : SchemaSketch

/-- One response descriptor (used as documentation only). -/
structure RespInfo where
  description : String
  mediaType : String
  schema : Option Json

/-- `authMethod` of the canonical model: a type tag plus the optional
header name, location and description the parsers attach. -/
structure AuthMethod where
  type : String
  name : Option String
  loc : Option String
  description : Option String
  deriving DecidableEq

/-- The `{ type: 'none' }` authentication value. -/
def noAuth : AuthMethod := ⟨"none", none, none, none⟩

/-- Canonical endpoint, as built by all three parsers. -/
structure Endpoint where
  method : String
  path : String
  fullUrl : String
  summary : String
  description : String
  operationId : String
  parameters : List Param
  requestBody : Option ReqBody
  responses : List (String × RespInfo)
  security : List Json
  tags : List String

/-- Canonical API description (root object returned by every parser). -/
structure ApiData where
  baseUrl : String
  authMethod : AuthMethod
  endpoints : List Endpoint
  title : String
  version : String
  description : String

/-! ## Structured normalizer: OpenAPI/Swagger (`server/parsers/swaggerParser.js`)

The input type mirrors the resolved document object handed to the extract
functions after `SwaggerParser.parse` (an external library) succeeded.
JS objects are association lists in declaration order. -/

/-- A declared security scheme (`components.securitySchemes` entry). -/
structure SwScheme where
  type : String
  scheme : Option String
  name : Option String
  loc : Option String       -- the `in` field of an apiKey scheme
  description : Option String

/-- An OpenAPI parameter object as read by `extractParameters`. -/
structure SwParamSchema where
  type : Option String
  example_ : Option Json
  format : Option String
  enum : Option Json

/-- A declared operation parameter. -/
structure SwParam where
  name : String
  loc : String
  required : Option Bool
  schema : Option SwParamSchema
  description : Option String
  example_ : Option Json

/-- Schema object fragment read from request/response bodies. -/
structure SwSchemaIn where
  type : Option String
  properties : Option Json
  required : Option Json

/-- A media-type object under `content`. -/
structure SwMediaObj where
  schema : Option SwSchemaIn
  example_ : Option Json

/-- A declared request body. -/
structure SwRequestBody where
  required : Option Bool
  content : Option (List (String × SwMediaObj))

/-- A declared response. -/
structure SwResponse where
  description : Option String
  content : Option (List (String × SwMediaObj))

/-- One operation (the value under a path+verb key). -/
structure SwOperation where
  summary : Option String
  description : Option String
  operationId : Option String
  parameters : Option (List SwParam)
  requestBody : Option SwRequestBody
  responses : Option (List (String × SwResponse))
  security : Option (List Json)
  tags : Option (List String)

/-- A server entry (OpenAPI 3). -/
structure SwServer where
  url : String

/-- `info` object. -/
structure SwInfo where
  title : Option String
  version : Option String
  description : Option String

/-- The resolved Swagger/OpenAPI document, restricted to the fields the
parser reads. -/
structure SwDoc where
  servers : Option (List SwServer)
  host : Option String
  securitySchemes : Option (List (String × SwScheme))  -- components?.securitySchemes
  paths : Option (List (String × List (String × SwOperation)))
  security : Option (List Json)
  info : Option SwInfo

namespace Swagger

/-- The recognized-scheme rendering of the `switch` inside
`extractAuthMethod`: `http`+`bearer`, `http`+`basic`, `apiKey` and `oauth2`
produce a value, everything else falls through. -/
def renderScheme (s : SwScheme) : Option AuthMethod :=
  match s.type with
  | "http" =>
    if s.scheme = some "bearer" then
      some ⟨"bearer", some "Authorization", none, s.description⟩
    else if s.scheme = some "basic" then
      some ⟨"basic", some "Authorization", none, s.description⟩
    else none
  | "apiKey" => some ⟨"apiKey", s.name, some (jsOrS s.loc "header"), s.description⟩
  | "oauth2" => some ⟨"oauth2", some "Authorization", none, s.description⟩
  | _ => none

/-- Loop of `extractAuthMethod`: walk the declared schemes in declaration
order and return the rendering of the first one the `switch` recognizes. -/
def authLoop : List (String × SwScheme) → AuthMethod
  | [] => noAuth
  | (_, s) :: rest =>
    match renderScheme s with
    | some a => a
    | none => authLoop rest

/-- `extractAuthMethod(api)` (swaggerParser.js:33-58). -/
def extractAuthMethod (api : SwDoc) : AuthMethod :=
  authLoop (api.securitySchemes.getD [])

/-- `extractParameters(parameters)` (swaggerParser.js:95-106). -/
def extractParameters (parameters : List SwParam) : List Param :=
  parameters.map fun p =>
    { name := p.name
      loc := p.loc
      required := p.required.getD false
      type := jsOrS (p.schema.bind (·.type)) "string"
      description := jsOrS p.description ""
      example_ :=
        match p.example_ with
        | some e => some e
        | none => p.schema.bind (·.example_)
      format := p.schema.bind (·.format)
      enum := p.schema.bind (·.enum) }

/-- `extractRequestBody(requestBody)` (swaggerParser.js:111-130): `null` when
no body is declared, and also when the first listed media type carries no
schema. -/
def extractRequestBody (requestBody : Option SwRequestBody) : Option ReqBody :=
  match requestBody with
  | none => none
  | some rb =>
    let content := rb.content.getD []
    let mediaType := jsOrS (content.head?.map (·.1)) "application/json"
    let schema := (jsObjGet content mediaType).bind (·.schema)
    match schema with
    | none => none
    | some sc =>
      some { required := rb.required.getD false
             mediaType := mediaType
             schema :=
               { type := sc.type
                 properties := (sc.properties.getD (Json.obj []))
                 required := some (sc.required.getD (Json.arr []))
                 example_ := (jsObjGet content mediaType).bind (·.example_) } }

/-- `extractResponses(responses)` (swaggerParser.js:135-155). -/
def extractResponses (responses : List (String × SwResponse)) :
    List (String × RespInfo) :=
  responses.foldl
    (fun acc (p : String × SwResponse) =>
      let content := p.2.content.getD []
      let mediaType := jsOrS (content.head?.map (·.1)) "application/json"
      let schema := (jsObjGet content mediaType).bind (·.schema)
      jsObjSet acc p.1
        { description := jsOrS p.2.description ""
          mediaType := mediaType
          schema :=
            match schema with
            | some sc => some (Json.obj
                [("type", match sc.type with | some t => Json.str t | none => Json.null),
                 ("properties", sc.properties.getD (Json.obj [])),
                 ("example",
                   match (jsObjGet content mediaType).bind (·.example_) with
                   | some e => e
                   | none => Json.null)])
            | none => none })
    []

/-- The seven verbs recognized as HTTP methods by `extractEndpoints`. -/
def httpMethods : List String :=
  ["get", "post", "put", "delete", "patch", "head", "options"]

/-- `extractEndpoints(api)` (swaggerParser.js:63-90): one endpoint per
path+verb combination; the path key is used verbatim. -/
def extractEndpoints (api : SwDoc) : List Endpoint :=
  (api.paths.getD []).flatMap fun (pitem : String × List (String × SwOperation)) =>
    pitem.2.filterMap fun (mop : String × SwOperation) =>
      if httpMethods.contains mop.1 then
        some
          { method := jsUpper mop.1
            path := pitem.1
            fullUrl := jsOrS ((api.servers.getD []).head?.map (·.url)) "" ++ pitem.1
            summary := jsOrS mop.2.summary ""
            description := jsOrS mop.2.description ""
            operationId :=
              jsOrS mop.2.operationId (mop.1 ++ "_" ++ sanitizeUnderscore pitem.1)
            parameters := extractParameters (mop.2.parameters.getD [])
            requestBody := extractRequestBody mop.2.requestBody
            responses := extractResponses (mop.2.responses.getD [])
            security :=
              match mop.2.security with
              | some l => l
              | none => api.security.getD []
            tags := mop.2.tags.getD [] }
      else none

/-- Body of `parseSwagger` after the external `SwaggerParser.parse`
validation succeeded (swaggerParser.js:11-24). -/
def parseSwaggerResolved (api : SwDoc) : ApiData :=
  { baseUrl :=
      jsOrS ((api.servers.getD []).head?.map (·.url)) (jsOrS api.host "")
    authMethod := extractAuthMethod api
    endpoints := extractEndpoints api
    title := jsOrS (api.info.bind (·.title)) "API"
    version := jsOrS (api.info.bind (·.version)) "1.0.0"
    description := jsOrS (api.info.bind (·.description)) "" }

end Swagger

/-! ## WHATWG URL constructor model

`new URL(s)` (a Node platform API) is modelled for absolute URL strings as
they occur in this code base: scheme parsing, authority splitting, host
validation (forbidden host code points, bracketed IPv6 forms, numeric
ports) and pathname extraction.  Percent-encoding and dot-segment
normalization of pathnames are not modelled; no input in this development
exercises them.  An invalid URL (the constructor throwing `Invalid URL`)
is `none`. -/

/-- Result of a successful `new URL(s)`: the fields the repository reads. -/
structure UrlRec where
  protocol : String   -- scheme with trailing colon, e.g. "http:"
  host : String       -- hostname (lower-cased) plus non-default port
  pathname : String

/-- Leading scheme of a URL string: a letter followed by
letters/digits/`+`/`-`/`.`, terminated by `:`.  Returns the scheme and the
characters after the colon. -/
def parseScheme (cs : List Char) : Option (String × List Char) :=
  match cs with
  | [] => none
  | c :: rest =>
    if c.isAlpha then
      let run := rest.takeWhile (fun d => d.isAlphanum || d = '+' || d = '-' || d = '.')
      match rest.drop run.length with
      | ':' :: after => some (⟨c :: run⟩, after)
      | _ => none
    else none

/-- Forbidden host code points (WHATWG URL; `%` is additionally rejected by
domain validation). -/
def forbiddenHostChar (c : Char) : Bool :=
  c = '\x00' || c = '\t' || c = '\n' || c = '\r' || c = ' ' || c = '#' ||
  c = '%' || c = '/' || c = ':' || c = '<' || c = '>' || c = '?' ||
  c = '@' || c = '[' || c = '\\' || c = ']' || c = '^' || c = '|'

/-- Default port of a special scheme. -/
def defaultPort (scheme : String) : Option Nat :=
  if scheme = "http" then some 80
  else if scheme = "https" then some 443
  else none

/-- Validate the host[:port] part of an http(s) URL; returns the normalized
`host` property (hostname lower-cased, default port dropped). -/
def parseHostPort (scheme : String) (hp : List Char) : Option String :=
  match hp with
  | '[' :: inside =>
    -- bracketed IPv6 literal: requires a closing bracket with a non-empty,
    -- hex/colon/dot body, optionally followed by :port
    let body := inside.takeWhile (· ≠ ']')
    (match inside.drop body.length with
     | ']' :: after =>
       if body = [] then none
       else if body.all (fun c => c.isDigit || ('a' ≤ c.toLower && c.toLower ≤ 'f') || c = ':' || c = '.') then
         match after with
         | [] => some ⟨'[' :: body ++ [']']⟩
         | ':' :: port => parsePort scheme ⟨'[' :: body ++ [']']⟩ port
         | _ => none
       else none
     | _ => none)
  | _ =>
    let hostname := hp.takeWhile (· ≠ ':')
    if hostname = [] then none
    else if hostname.any forbiddenHostChar then none
    else
      let norm : String := ⟨hostname.map jsLowerChar⟩
      match hp.drop hostname.length with
      | [] => some norm
      | ':' :: port => parsePort scheme norm port
      | _ => none
where
  /-- Validate a port character run and append the non-default port. -/
  parsePort (scheme : String) (hostn : String) (port : List Char) : Option String :=
    if port = [] then some hostn
    else if port.all (·.isDigit) then
      let n := (String.mk port).toNat!
      if n > 65535 then none
      else if defaultPort scheme = some n then some hostn
      else some (hostn ++ ":" ++ toString n)
    else none

/-- `new URL(s)` model (see section comment). -/
def jsURL (s : String) : Option UrlRec :=
  match parseScheme s.data with
  | none => none
  | some (scheme, after) =>
    let low := jsLower scheme
    if low = "http" ∨ low = "https" then
      let body := after.dropWhile (fun c => c = '/' || c = '\\')
      let authority := body.takeWhile (fun c => c ≠ '/' && c ≠ '?' && c ≠ '#' && c ≠ '\\')
      let rest := body.drop authority.length
      let hostPort := (authority.reverse.takeWhile (· ≠ '@')).reverse
      match parseHostPort low hostPort with
      | none => none
      | some host =>
        let path := rest.takeWhile (fun c => c ≠ '?' && c ≠ '#')
        let pathname : String :=
          match path with
          | [] => "/"
          | _ => ⟨path.map (fun c => if c = '\\' then '/' else c)⟩
        some { protocol := low ++ ":", host := host, pathname := pathname }
    else
      -- non-special scheme: opaque path, empty host
      some { protocol := low ++ ":"
             host := ""
             pathname := ⟨after.takeWhile (fun c => c ≠ '?' && c ≠ '#')⟩ }

/-! ## Structured normalizer: Postman (`server/parsers/postmanParser.js`)

Input types mirror the parsed collection JSON, restricted to the fields the
parser reads; `Option` marks fields the collection may omit. -/

/-- A `{key, value, type}` element (auth parameters, urlencoded/formdata). -/
structure PMKV where
  key : Option String
  value : Option String
  type : Option String

/-- A request header entry. -/
structure PMHeader where
  key : String
  value : Option String
  description : Option String
  disabled : Option Bool

/-- A URL query entry. -/
structure PMQuery where
  key : String
  value : Option String
  description : Option String
  disabled : Option Bool

/-- A request/collection `auth` object. -/
structure PMAuth where
  type : Option String
  apikey : Option (List PMKV)

/-- A request `body` object (`options?.raw?.language` flattened). -/
structure PMBody where
  mode : Option String
  raw : Option String
  optionsRawLanguage : Option String
  urlencoded : Option (List PMKV)
  formdata : Option (List PMKV)

/-- A request `url`: either a plain string or an object with `raw`,
`path` and `query`. -/
inductive PMUrl where
  | str (s : String)
  | obj (raw : Option String) (path : Option (List String))
        (query : Option (List PMQuery))

/-- A `request` object. -/
structure PMRequest where
  url : Option PMUrl
  method : Option String
  header : Option (List PMHeader)
  body : Option PMBody
  auth : Option PMAuth

/-- A saved response attached to a request item. -/
structure PMResponse where
  name : Option String
  code : Option Nat
  header : Option (List PMHeader)
  body : Option String

/-- A collection item: a request leaf and/or a folder with nested items.
`none` entries model `null` items, which the walker skips. -/
inductive PMItem where
  | mk (name : Option String) (request : Option PMRequest)
       (children : Option (List (Option PMItem)))
       (description : Option String)
       (response : Option (List PMResponse))

/-- A collection-level variable. -/
structure PMVar where
  key : Option String
  value : Option String

/-- Collection `info`. -/
structure PMInfo where
  name : Option String
  schema : Option String
  description : Option String

/-- A Postman collection, restricted to the fields the parser reads. -/
structure PMCollection where
  info : Option PMInfo
  variable_ : Option (List PMVar)   -- the `variable` array
  auth : Option PMAuth
  item : Option (List (Option PMItem))

/-- Field accessors of `PMItem`. -/
def PMItem.name : PMItem → Option String
  | .mk n _ _ _ _ => n

/-- Request object of an item. -/
def PMItem.request : PMItem → Option PMRequest
  | .mk _ r _ _ _ => r

/-- Nested items of a folder item. -/
def PMItem.children : PMItem → Option (List (Option PMItem))
  | .mk _ _ c _ _ => c

/-- Item description. -/
def PMItem.description : PMItem → Option String
  | .mk _ _ _ d _ => d

/-- Saved responses of an item. -/
def PMItem.response : PMItem → Option (List PMResponse)
  | .mk _ _ _ _ r => r

namespace Postman

/-- `extractBaseUrl(collection)` (postmanParser.js:38-51). -/
def extractBaseUrl (c : PMCollection) : String :=
  let vars := c.variable_.getD []
  let baseUrlVar := vars.find? fun v =>
    v.key = some "baseUrl" ∨ v.key = some "BASE_URL" ∨ v.key = some "url"
  match baseUrlVar with
  | some v => jsOrS v.value ""
  | none => ""

/-- `extractAuthMethod(collection)` (postmanParser.js:56-96). -/
def extractAuthMethod (c : PMCollection) : AuthMethod :=
  match c.auth with
  | none => noAuth
  | some auth =>
    match auth.type with
    | some "bearer" =>
      ⟨"bearer", some "Authorization", none, some "Bearer token authentication"⟩
    | some "apikey" =>
      ⟨"apiKey",
       some (jsOrS ((auth.apikey.getD []).head?.bind (·.key)) "X-API-Key"),
       some "header", some "API Key authentication"⟩
    | some "basic" =>
      ⟨"basic", some "Authorization", none, some "Basic authentication"⟩
    | some "oauth2" =>
      ⟨"oauth2", some "Authorization", none, some "OAuth 2.0 authentication"⟩
    | _ => noAuth

/-- Intermediate record produced by `extractHeaders` (postmanParser.js:199-206). -/
structure HeaderRec where
  key : String
  value : Option String
  description : String
  disabled : Bool

/-- `extractHeaders(headers)`. -/
def extractHeaders (headers : List PMHeader) : List HeaderRec :=
  headers.map fun h =>
    { key := h.key, value := h.value
      description := jsOrS h.description ""
      disabled := h.disabled.getD false }

/-- Intermediate record produced by `extractQueryParams`
(postmanParser.js:211-219); the caller spreads it and adds `in: 'query'`. -/
structure QueryRec where
  name : String
  required : Bool
  type : String
  description : String
  example_ : Option String

/-- `extractQueryParams(queryParams)`. -/
def extractQueryParams (queryParams : List PMQuery) : List QueryRec :=
  queryParams.map fun p =>
    { name := p.key
      required := p.disabled ≠ some true
      type := "string"
      description := jsOrS p.description ""
      example_ := p.value }

/-- JSON rendering of a possibly-absent string (a JS object field holding
`undefined`). -/
def jsonOf (o : Option String) : Json :=
  match o with
  | some s => Json.str s
  | none => Json.null

/-- `extractRequestBody(body)` (postmanParser.js:224-271): classification by
`mode`; unrecognized modes yield no descriptor. -/
def extractRequestBody (body : Option PMBody) : Option ReqBody :=
  match body with
  | none => none
  | some b =>
    match b.mode with
    | some "raw" =>
      some { required := true
             mediaType := jsOrS b.optionsRawLanguage "application/json"
             schema := { type := some "object", properties := Json.obj []
                         required := none
                         example_ := b.raw.map Json.str } }
    | some "urlencoded" =>
      some { required := true
             mediaType := "application/x-www-form-urlencoded"
             schema := { type := some "object", properties := Json.obj []
                         required := none
                         example_ := b.urlencoded.map fun l =>
                           Json.arr (l.map fun i =>
                             Json.obj [("key", jsonOf i.key), ("value", jsonOf i.value)]) } }
    | some "formdata" =>
      some { required := true
             mediaType := "multipart/form-data"
             schema := { type := some "object", properties := Json.obj []
                         required := none
                         example_ := b.formdata.map fun l =>
                           Json.arr (l.map fun i =>
                             Json.obj [("key", jsonOf i.key), ("value", jsonOf i.value),
                                       ("type", jsonOf i.type)]) } }
    | _ => none

/-- `extractRequestAuth(auth)` (postmanParser.js:276-302), as the JSON
object pushed into `security`. -/
def extractRequestAuth (auth : Option PMAuth) : Option Json :=
  match auth with
  | none => none
  | some a =>
    match a.type with
    | some "bearer" =>
      some (Json.obj [("type", Json.str "bearer"), ("name", Json.str "Authorization")])
    | some "apikey" =>
      some (Json.obj [("type", Json.str "apiKey"),
        ("name", Json.str (jsOrS ((a.apikey.getD []).head?.bind (·.key)) "X-API-Key")),
        ("in", Json.str "header")])
    | some "basic" =>
      some (Json.obj [("type", Json.str "basic"), ("name", Json.str "Authorization")])
    | _ => none

/-- Loop body of `extractPostmanResponses` (postmanParser.js:307-324). -/
def responsesLoop (acc : List (String × RespInfo)) (idx : Nat) :
    List PMResponse → List (String × RespInfo)
  | [] => acc
  | r :: rest =>
    let code : String :=
      match r.code with
      | some n => if n = 0 then "200" else toString n
      | none => "200"
    let acc' := jsObjSet acc code
      { description := jsOrS r.name ("Response " ++ toString (idx + 1))
        mediaType :=
          jsOrS ((r.header.getD []).find? (fun h => h.key = "Content-Type") |>.bind (·.value))
            "application/json"
        schema := some (Json.obj [("type", Json.str "object"),
          ("properties", Json.obj []), ("example", jsonOf r.body)]) }
    responsesLoop acc' (idx + 1) rest

/-- `extractPostmanResponses(responses)`. -/
def extractPostmanResponses (responses : List PMResponse) :
    List (String × RespInfo) :=
  responsesLoop [] 0 responses

/-- `generateOperationId(method, path, name)` (postmanParser.js:329-338). -/
def generateOperationId (method path : String) (name : Option String) : String :=
  let cleanPath := sanitizeUnderscore path
  let cleanName :=
    match name with
    | some n => if n = "" then "" else sanitizeUnderscore n
    | none => ""
  if cleanName ≠ "" then jsLower method ++ "_" ++ cleanName
  else jsLower method ++ "_" ++ cleanPath

/-- `extractEndpointFromRequest(item, parentPath)` (postmanParser.js:133-194). -/
def extractEndpointFromRequest (item : PMItem) (parentPath : String) :
    Option Endpoint :=
  match item.request with
  | none => none
  | some request =>
    match request.url with
    | none => none
    | some url =>
      -- `if (!url) return null` : an empty string URL is falsy
      let parsed : Option (String × String) :=  -- (fullUrl, path)
        match url with
        | .str s =>
          if s = "" then none
          else some (s, match jsURL s with
                        | some u => u.pathname
                        | none => s)
        | .obj raw pathSegs _ =>
          match raw with
          | some r =>
            if r = "" then none
            else some (r, jsOrS (pathSegs.map (String.intercalate "/")) "")
          | none => none
      match parsed with
      | none => none
      | some (fullUrl, path) =>
        let method := jsUpper (jsOrS request.method "GET")
        let headers := extractHeaders (request.header.getD [])
        let urlQuery : List PMQuery :=
          match url with
          | .str _ => []
          | .obj _ _ q => q.getD []
        let queryParams := extractQueryParams urlQuery
        let body := extractRequestBody request.body
        let auth := extractRequestAuth request.auth
        some
          { method := method
            path := if jsStartsWith path "/" then path else "/" ++ path
            fullUrl := fullUrl
            summary := jsOrS item.name ""
            description := jsOrS item.description ""
            operationId := generateOperationId method path item.name
            parameters :=
              (queryParams.map fun q =>
                { name := q.name, loc := "query", required := q.required
                  type := q.type, description := q.description
                  example_ := q.example_.map Json.str
                  format := none, enum := none }) ++
              ((headers.filter fun h =>
                  h.key ≠ "" ∧ ¬ jsIncludes (jsLower h.key) "authorization").map fun h =>
                { name := h.key, loc := "header", required := false
                  type := "string", description := h.description
                  example_ := h.value.map Json.str
                  format := none, enum := none })
            requestBody := body
            responses := extractPostmanResponses (item.response.getD [])
            security := match auth with | some a => [a] | none => []
            tags := if parentPath ≠ "" then [parentPath] else [] }

/-- `processItems(items, parentPath)` — the recursive walk inside
`extractEndpoints` (postmanParser.js:108-124): request items become
endpoints, folder items recurse with an extended parent path, `null`
items are skipped. -/
def processItems : List (Option PMItem) → String → List Endpoint
  | [], _ => []
  | none :: rest, parentPath => processItems rest parentPath
  | some (.mk nm req kids desc resp) :: rest, parentPath =>
    match req with
    | some _ =>
      (match extractEndpointFromRequest (.mk nm req kids desc resp) parentPath with
       | some e => [e]
       | none => []) ++ processItems rest parentPath
    | none =>
      match kids with
      | some children =>
        let folderPath :=
          if parentPath ≠ "" then parentPath ++ "/" ++ jsOrS nm "unnamed"
          else jsOrS nm "unnamed"
        processItems children folderPath ++ processItems rest parentPath
      | none => processItems rest parentPath
termination_by items _ => sizeOf items

/-- `extractEndpoints(collection)` (postmanParser.js:101-128). -/
def extractEndpoints (c : PMCollection) : List Endpoint :=
  match c.item with
  | none => []
  | some items => processItems items ""

/-- Body of `parsePostman` after `JSON.parse` (an external call) produced
the collection object (postmanParser.js:18-29). -/
def parsePostmanResolved (c : PMCollection) : ApiData :=
  { baseUrl := extractBaseUrl c
    authMethod := extractAuthMethod c
    endpoints := extractEndpoints c
    title := jsOrS (c.info.bind (·.name)) "Postman Collection"
    version := jsOrS (c.info.bind (·.schema)) "1.0.0"
    description := jsOrS (c.info.bind (·.description)) "" }

end Postman

/-! ## Heuristic normalizer: HTML (`server/parsers/htmlParser.js`)

The cheerio document (an external library object) is modelled as the list
of its elements in document order; each element carries the data the parser
queries: tag name, `class` attribute, other attributes, `.text()`, the
texts of its siblings, and the text of its parent (if any).  The regular
expressions of the source are implemented as explicit left-to-right
scanners with JS semantics (leftmost match, ordered alternation, greedy
character classes, `i` flag as ASCII case folding). -/

/-- One element of the loaded document. -/
structure HtmlElement where
  tag : String
  className : String
  attrs : List (String × String)
  text : String
  siblingTexts : List String
  parentText : Option String

/-- The loaded document: `$('*')` in document order. -/
structure HtmlDoc where
  elements : List HtmlElement

namespace Html

/-- `https?:\/\/[^\s]+` anchored at the start of `cs` (case-insensitive);
returns the matched characters. -/
def urlAnchored (cs : List Char) : Option (List Char) :=
  let consumed : Option Nat :=
    if listPrefixOfCI "https://".data cs then some 8
    else if listPrefixOfCI "http://".data cs then some 7
    else none
  match consumed with
  | none => none
  | some n =>
    let run := (cs.drop n).takeWhile (fun c => ¬ jsIsSpace c)
    if run = [] then none else some (cs.take n ++ run)

/-- Leftmost match of `/(https?:\/\/[^\s]+)/i` in a character list. -/
def scanUrl : List Char → Option String
  | [] => none
  | c :: cs =>
    match urlAnchored (c :: cs) with
    | some m => some ⟨m⟩
    | none => scanUrl cs

/-- The verb alternation `(GET|POST|PUT|DELETE|PATCH|HEAD|OPTIONS)` in
source order. -/
def methodNames : List String :=
  ["GET", "POST", "PUT", "DELETE", "PATCH", "HEAD", "OPTIONS"]

/-- Match the verb alternation at the start of `cs` (case-insensitive);
returns the matched characters (original case) and the remainder. -/
def methodAt (cs : List Char) : Option (List Char × List Char) :=
  methodNames.findSome? fun m =>
    if listPrefixOfCI m.data cs then some (cs.take m.length, cs.drop m.length)
    else none

/-- Pattern 1 `/(METHODS)\s+([^\s]+)/i` anchored at `cs`: returns the two
capture groups. -/
def p1Anchored (cs : List Char) : Option (List Char × List Char) :=
  match methodAt cs with
  | none => none
  | some (m, rest) =>
    let ws := rest.takeWhile jsIsSpace
    if ws = [] then none
    else
      let run := (rest.drop ws.length).takeWhile (fun c => ¬ jsIsSpace c)
      if run = [] then none else some (m, run)

/-- Pattern 2 `/([^\s]+)\s+(METHODS)/i` anchored at `cs`. -/
def p2Anchored (cs : List Char) : Option (List Char × List Char) :=
  let run := cs.takeWhile (fun c => ¬ jsIsSpace c)
  if run = [] then none
  else
    let rest := cs.drop run.length
    let ws := rest.takeWhile jsIsSpace
    if ws = [] then none
    else
      match methodAt (rest.drop ws.length) with
      | some (m, _) => some (run, m)
      | none => none

/-- Pattern 3 `/(METHODS)\s*:\s*([^\s]+)/i` anchored at `cs`. -/
def p3Anchored (cs : List Char) : Option (List Char × List Char) :=
  match methodAt cs with
  | none => none
  | some (m, rest) =>
    match rest.dropWhile jsIsSpace with
    | ':' :: afterColon =>
      let run := (afterColon.dropWhile jsIsSpace).takeWhile (fun c => ¬ jsIsSpace c)
      if run = [] then none else some (m, run)
    | _ => none

/-- Leftmost match of an anchored pattern. -/
def scanFor (p : List Char → Option (List Char × List Char)) :
    List Char → Option (List Char × List Char)
  | [] => none
  | c :: cs =>
    match p (c :: cs) with
    | some r => some r
    | none => scanFor p cs

/-- The `for (const pattern of methodPatterns)` loop
(htmlParser.js:165-194): the three shapes are tried in order on the whole
text; the source reads `match[1]` as the verb and `match[2]` as the path
for all of them. -/
def tryMethodPatterns (cs : List Char) : Option (List Char × List Char) :=
  match scanFor p1Anchored cs with
  | some r => some r
  | none =>
    match scanFor p2Anchored cs with
    | some r => some r
    | none => scanFor p3Anchored cs

/-- Global matches of `/{(\w+)}/g`.  The `fuel` argument bounds the scan
(`scanBrace` supplies the text length, which the position never exceeds);
it makes the left-to-right scan structurally recursive. -/
def scanBraceAux : Nat → List Char → List String
  | 0, _ => []
  | _ + 1, [] => []
  | fuel + 1, c :: cs =>
    if c = '{' then
      let run := cs.takeWhile jsIsWord
      if run ≠ [] then
        match cs.drop run.length with
        | '}' :: rest => (⟨run⟩ : String) :: scanBraceAux fuel rest
        | _ => scanBraceAux fuel cs
      else scanBraceAux fuel cs
    else scanBraceAux fuel cs

/-- Global matches of `/{(\w+)}/g`. -/
def scanBrace (cs : List Char) : List String := scanBraceAux cs.length cs

/-- Global matches of `/[?&](\w+)=/g` (fuel-bounded scan as in
`scanBraceAux`). -/
def scanQueryKeysAux : Nat → List Char → List String
  | 0, _ => []
  | _ + 1, [] => []
  | fuel + 1, c :: cs =>
    if c = '?' ∨ c = '&' then
      let run := cs.takeWhile jsIsWord
      if run ≠ [] then
        match cs.drop run.length with
        | '=' :: rest => (⟨run⟩ : String) :: scanQueryKeysAux fuel rest
        | _ => scanQueryKeysAux fuel cs
      else scanQueryKeysAux fuel cs
    else scanQueryKeysAux fuel cs

/-- Global matches of `/[?&](\w+)=/g`. -/
def scanQueryKeys (cs : List Char) : List String := scanQueryKeysAux cs.length cs

/-- Global matches of `/(\w+):\s*([^\s,]+)/g` (first capture group only,
which is all the source uses; fuel-bounded scan as in `scanBraceAux`). -/
def scanKvKeysAux : Nat → List Char → List String
  | 0, _ => []
  | _ + 1, [] => []
  | fuel + 1, c :: cs =>
    let run := (c :: cs).takeWhile jsIsWord
    if run = [] then scanKvKeysAux fuel cs
    else
      match (c :: cs).drop run.length with
      | ':' :: afterColon =>
        let ws := afterColon.takeWhile jsIsSpace
        let val := (afterColon.drop ws.length).takeWhile
          (fun d => ¬ jsIsSpace d ∧ d ≠ ',')
        if val = [] then scanKvKeysAux fuel cs
        else (⟨run⟩ : String) ::
          scanKvKeysAux fuel ((afterColon.drop ws.length).drop val.length)
      | _ => scanKvKeysAux fuel cs

/-- Global matches of `/(\w+):\s*([^\s,]+)/g`. -/
def scanKvKeys (cs : List Char) : List String := scanKvKeysAux cs.length cs

/-- Split a class attribute into whitespace-separated tokens. -/
def classTokensAux (p : Char → Bool) : List Char → List Char → List String
  | [], acc => if acc = [] then [] else [⟨acc.reverse⟩]
  | c :: cs, acc =>
    if p c then
      if acc = [] then classTokensAux p cs []
      else (⟨acc.reverse⟩ : String) :: classTokensAux p cs []
    else classTokensAux p cs (c :: acc)

/-- The whitespace-separated tokens of an element's `class` attribute. -/
def classTokens (el : HtmlElement) : List String :=
  classTokensAux jsIsSpace el.className.data []

/-- CSS class selector `.name`. -/
def hasClassToken (el : HtmlElement) (t : String) : Bool :=
  (classTokens el).contains t

/-- The six heading tags matched by the first endpoint selector. -/
def headingTags : List String := ["h1", "h2", "h3", "h4", "h5", "h6"]

/-- `extractBaseUrl($)` label-pattern loop (htmlParser.js:43-52): for each
phrase, look at the first element whose text contains it and return its
first URL-shaped token if any. -/
def baseUrlPatternLoop (d : HtmlDoc) : List String → Option String
  | [] => none
  | pat :: rest =>
    match d.elements.find? (fun el => jsIncludes el.text pat) with
    | some el =>
      match scanUrl el.text.data with
      | some m => some m
      | none => baseUrlPatternLoop d rest
    | none => baseUrlPatternLoop d rest

/-- `extractBaseUrl($)` code-block loop (htmlParser.js:55-63): the first
URL found in a `code`/`pre` block is parsed with `new URL` — unguarded, so
an invalid URL-shaped token makes the parser throw (`Except.error`). -/
def baseUrlCodeLoop : List HtmlElement → Except String String
  | [] => .ok ""
  | el :: rest =>
    match scanUrl el.text.data with
    | some m =>
      match jsURL m with
      | some u => .ok (u.protocol ++ "//" ++ u.host)
      | none => .error "Invalid URL"
    | none => baseUrlCodeLoop rest

/-- The six label phrases scanned by `extractBaseUrl`. -/
def baseUrlPatterns : List String :=
  ["base url", "base url:", "api base", "endpoint base", "server url", "host url"]

/-- `extractBaseUrl($)` (htmlParser.js:32-66). -/
def extractBaseUrl (d : HtmlDoc) : Except String String :=
  match baseUrlPatternLoop d baseUrlPatterns with
  | some m => .ok m
  | none =>
    baseUrlCodeLoop (d.elements.filter fun el => el.tag = "code" ∨ el.tag = "pre")

/-- `$('*').text()`: concatenated text of every element in document order. -/
def docText (d : HtmlDoc) : String :=
  String.join (d.elements.map (·.text))

/-- `extractAuthMethod($)` (htmlParser.js:71-108): keyword table over the
lower-cased document text, first match wins. -/
def extractAuthMethod (d : HtmlDoc) : AuthMethod :=
  let authText := jsLower (docText d)
  if jsIncludes authText "bearer token" ∨ jsIncludes authText "bearer" then
    ⟨"bearer", some "Authorization", none, some "Bearer token authentication"⟩
  else if jsIncludes authText "api key" ∨ jsIncludes authText "apikey" then
    ⟨"apiKey", some "X-API-Key", some "header", some "API Key authentication"⟩
  else if jsIncludes authText "basic auth" ∨ jsIncludes authText "basic authentication" then
    ⟨"basic", some "Authorization", none, some "Basic authentication"⟩
  else if jsIncludes authText "oauth" ∨ jsIncludes authText "oauth2" then
    ⟨"oauth2", some "Authorization", none, some "OAuth 2.0 authentication"⟩
  else noAuth

/-- `extractDescriptionFromContext(element)` (htmlParser.js:232-256). -/
def extractDescriptionFromContext (el : HtmlElement) : String :=
  match el.siblingTexts.find? (fun t => t.length > 10 ∧ t.length < 200) with
  | some t => jsTrim t
  | none =>
    match el.parentText with
    | some ptext =>
      let lines := ((splitLines ptext).map jsTrim).filter (· ≠ "")
      match lines.find? (fun line =>
          line.length > 10 ∧ line.length < 200 ∧
          ¬ methodNames.any (fun m => listPrefixOfCI m.data line.data)) with
      | some line => line
      | none => ""
    | none => ""

/-- `inferMethodFromContext(text, element)` (htmlParser.js:261-286). -/
def inferMethodFromContext (text : String) : String :=
  let context := jsLower text
  if jsIncludes context "get" ∨ jsIncludes context "retrieve" ∨ jsIncludes context "fetch" then
    "GET"
  else if jsIncludes context "post" ∨ jsIncludes context "create" ∨ jsIncludes context "add" then
    "POST"
  else if jsIncludes context "put" ∨ jsIncludes context "update" ∨ jsIncludes context "modify" then
    "PUT"
  else if jsIncludes context "delete" ∨ jsIncludes context "remove" then
    "DELETE"
  else if jsIncludes context "patch" then
    "PATCH"
  else "GET"

/-- A single inferred parameter (htmlParser.js:308-315). -/
def mkTextParam (nm loc : String) : Param :=
  { name := nm, loc := loc, required := false, type := "string"
    description := "", example_ := some (Json.str ""), format := none, enum := none }

/-- Name-deduplicating accumulation loop of `extractParametersFromText`. -/
def addTextParams (acc : List Param) : List (String × String) → List Param
  | [] => acc
  | (nm, loc) :: rest =>
    if (acc.find? (fun p => p.name = nm)).isSome then addTextParams acc rest
    else addTextParams (acc ++ [mkTextParam nm loc]) rest

/-- `extractParametersFromText(text)` (htmlParser.js:291-321): the three
parameter patterns are processed in order with name deduplication; brace
matches are tagged `path`, the other two patterns `query`. -/
def extractParametersFromText (text : String) : List Param :=
  let cs := text.data
  addTextParams []
    ((scanBrace cs).map (·, "path") ++
     (scanQueryKeys cs).map (·, "query") ++
     (scanKvKeys cs).map (·, "query"))

/-- `generateOperationId(method, path)` (htmlParser.js:351-354). -/
def generateOperationId (method path : String) : String :=
  jsLower method ++ "_" ++ sanitizeUnderscore path

/-- `path.replace(/[^\w\/\-{}]/g, '')` — the path clean-up of pattern
matches. -/
def cleanPath (cs : List Char) : String :=
  ⟨cs.filter (fun c => jsIsWord c || c = '/' || c = '-' || c = '{' || c = '}')⟩

/-- `parseEndpointFromText(text, element)` (htmlParser.js:157-227). -/
def parseEndpointFromText (text : String) (el : HtmlElement) : Option Endpoint :=
  match tryMethodPatterns text.data with
  | some (c1, c2) =>
    let method := jsUpper ⟨c1⟩
    let path0 := cleanPath c2
    let path := if jsStartsWith path0 "/" then path0 else "/" ++ path0
    let desc := extractDescriptionFromContext el
    some
      { method := method
        path := path
        fullUrl := path
        summary := jsOrS (some desc) (method ++ " " ++ path)
        description := jsOrS (some desc) ""
        operationId := generateOperationId method path
        parameters := extractParametersFromText text
        requestBody := none
        responses := []
        security := []
        tags := [] }
  | none =>
    match scanUrl text.data with
    | some u =>
      match jsURL u with
      | some ur =>
        let path := ur.pathname
        let method := inferMethodFromContext text
        some
          { method := method
            path := path
            fullUrl := u
            summary := method ++ " " ++ path
            description := jsOrS (some (extractDescriptionFromContext el)) ""
            operationId := generateOperationId method path
            parameters := extractParametersFromText text
            requestBody := none
            responses := []
            security := []
            tags := [] }
      | none => none    -- `catch (e) { /* Invalid URL, skip */ }`
    | none => none

/-- The candidate elements visited by the selector loop of
`extractEndpoints` (htmlParser.js:117-137), in visiting order: each of the
five selectors is evaluated over the document in turn. -/
def candidateElements (d : HtmlDoc) : List HtmlElement :=
  d.elements.filter (fun el => headingTags.contains el.tag) ++
  d.elements.filter (fun el => el.tag = "code") ++
  d.elements.filter (fun el => el.tag = "pre") ++
  d.elements.filter (fun el =>
    hasClassToken el "endpoint" || hasClassToken el "api-endpoint" ||
    hasClassToken el "route") ++
  d.elements.filter (fun el =>
    jsIncludes el.className "endpoint" || jsIncludes el.className "api" ||
    jsIncludes el.className "route")

/-- The endpoints discovered before deduplication. -/
def discoveredEndpoints (d : HtmlDoc) : List Endpoint :=
  (candidateElements d).filterMap fun el =>
    parseEndpointFromText (jsTrim el.text) el

/-- The `method:path` deduplication key. -/
def dedupKey (e : Endpoint) : String := e.method ++ ":" ++ e.path

/-- The `seen`-set loop of `extractEndpoints` (htmlParser.js:140-149):
keep an endpoint only if its key was not seen before. -/
def dedupLoop : List Endpoint → List String → List Endpoint
  | [], _ => []
  | e :: rest, seen =>
    if seen.contains (dedupKey e) then dedupLoop rest seen
    else e :: dedupLoop rest (dedupKey e :: seen)

/-- `extractEndpoints($)` (htmlParser.js:113-152). -/
def extractEndpoints (d : HtmlDoc) : List Endpoint :=
  dedupLoop (discoveredEndpoints d) []

/-- `extractTitle($)` (htmlParser.js:326-329). -/
def extractTitle (d : HtmlDoc) : String :=
  let titleText := String.join ((d.elements.filter (fun el => el.tag = "title")).map (·.text))
  let h1Text := jsOrS ((d.elements.filter (fun el => el.tag = "h1")).head?.map (·.text)) ""
  jsTrim (jsOrS (some titleText) h1Text)

/-- `extractDescription($)` (htmlParser.js:334-346). -/
def extractDescription (d : HtmlDoc) : String :=
  let metaDesc := (d.elements.find? fun el =>
    el.tag = "meta" ∧ jsObjGet el.attrs "name" = some "description").bind
      fun el => jsObjGet el.attrs "content"
  match metaDesc with
  | some m => if m ≠ "" then m else descFromP d
  | none => descFromP d
where
  /-- Fallback: the first paragraph if its text is longer than 20. -/
  descFromP (d : HtmlDoc) : String :=
    let firstP := jsOrS ((d.elements.filter (fun el => el.tag = "p")).head?.map (·.text)) ""
    if firstP ≠ "" ∧ firstP.length > 20 then jsTrim firstP else ""

/-- `parseHtmlDocs(content)` (htmlParser.js:8-27): any exception thrown by
the helpers — in particular the unguarded `new URL` inside
`extractBaseUrl` — is re-thrown with the parser's diagnostic prefix. -/
def parseHtmlDocs (d : HtmlDoc) : Except String ApiData :=
  match extractBaseUrl d with
  | .error m => .error ("Failed to parse HTML documentation: " ++ m)
  | .ok baseUrl =>
    .ok { baseUrl := baseUrl
          authMethod := extractAuthMethod d
          endpoints := extractEndpoints d
          title := jsOrS (some (extractTitle d)) "HTML API Documentation"
          version := "1.0.0"
          description := jsOrS (some (extractDescription d)) "" }

end Html

/-! ## Retry loop of the emitted request modules

Every emitter writes a constant request module whose `makeRequest`
implements the same loop:

* Node (`nodeGenerator.js:303-331`, emitted `RequestHandler.makeRequest`),
* Go (`goGenerator.js`, emitted `RequestHandler.MakeRequest`),
* Java (the Java generator file, emitted `RequestHandler.makeRequest`),
* PHP (the PHP generator file, emitted `RequestHandler::makeRequest`):

`for (attempt = 1; attempt <= maxRetries; attempt++) { try request; on
failure: rethrow if status in [400,500) and not 429; rethrow if attempt ==
maxRetries; sleep a backoff delay } ; throw lastError`.

The control flow is shared, but the backoff delay is computed in each
emitter target language:

* Node: `Math.min(1000 * Math.pow(2, attempt - 1), 10000)`,
* PHP: `min(1000 * pow(2, $attempt - 1), 10000)`,
* Go: `min(1000*int64(1<<(attempt-1)), 10000)`,
* Java: `Math.min(1000L * (long) Math.pow(2, attempt - 1), 10000L)`.

Node and PHP work in IEEE doubles: `Math.pow(2, attempt-1)` is an exact
power of two (or infinity), and the product `1000 * 2^(attempt-1) =
125 * 2^(attempt+2)` has a 7-bit mantissa, so it is exactly representable
until it overflows to infinity, where `min` still yields `10000`; the
float computation therefore agrees with the unbounded integer formula at
every attempt.  Go and Java compute in wrapping signed 64-bit integers
(Go shifts an `int`, with shift counts ≥ 64 giving 0; Java's `(long)`
cast of the `Math.pow` double saturates at `2^63 - 1`, and the
multiplication by `1000L` wraps), which departs from the formula from
attempt 55 on.  `time.Sleep` of a negative Go duration returns
immediately, keeping the Go control flow intact; Java's `Thread.sleep`
throws `IllegalArgumentException` on a negative delay — the call sits
inside the `catch` block, outside any handler, so the exception escapes
`makeRequest` and aborts the loop (modelled by `retryFromJava`).

The loop is modelled over an oracle assigning each 1-based attempt its
outcome; the result records the attempts performed, the backoff delays
computed (in order, in milliseconds, as signed integers), and what is
surfaced to the caller. -/

/-- Two's-complement wrap of an integer into signed 64 bits. -/
def wrap64 (z : Int) : Int := (z + 2 ^ 63) % 2 ^ 64 - 2 ^ 63

/-- The backoff delay the emitted Node and PHP modules compute at a 1-based
attempt (exact, by the representability argument in the section comment). -/
def floatDelay (attempt : Nat) : Int :=
  min (1000 * 2 ^ (attempt - 1)) 10000

/-- The backoff delay the emitted Go module computes:
`min(1000*int64(1<<(attempt-1)), 10000)` in `int64` arithmetic (shift
counts of 64 and above give 0). -/
def goDelay (attempt : Nat) : Int :=
  min (wrap64 (1000 * (if attempt - 1 ≤ 63 then wrap64 (2 ^ (attempt - 1)) else 0)))
    10000

/-- The backoff delay the emitted Java module computes:
`Math.min(1000L * (long) Math.pow(2, attempt - 1), 10000L)` — the double
power is exact (or infinite), the `(long)` cast saturates at `2^63 - 1`,
and the product wraps in `long` arithmetic. -/
def javaDelay (attempt : Nat) : Int :=
  min (wrap64 (1000 * (if attempt - 1 ≤ 62 then 2 ^ (attempt - 1) else 2 ^ 63 - 1)))
    10000

/-- Outcome of one attempted request: a successful response body, or a
failure that carries an HTTP status when a response was received and no
status for a transport-level failure. -/
inductive AttemptOutcome where
  | success (data : String)
  | failure (status : Option Nat) (msg : String)

/-- The `4xx`-except-`429` guard of the emitted loop. -/
def nonRetryableStatus (st : Option Nat) : Bool :=
  match st with
  | some s => 400 ≤ s && s < 500 && s != 429
  | none => false

/-- What the caller of `makeRequest` observes: a successful body, a
surfaced failure, the escape of Java's `Thread.sleep` exception on a
negative delay (`sleepAbort`), or — only reachable when `maxRetries < 1`
— the post-loop `throw lastError` with `lastError` never assigned. -/
inductive RetryResult where
  | ok (data : String)
  | err (status : Option Nat) (msg : String)
  | noAttempt
  | sleepAbort
deriving DecidableEq

/-- Run record of one `makeRequest` call. -/
structure RunRecord where
  attempts : Nat
  delays : List Int
  result : RetryResult

/-- One iteration of the emitted retry loop at the 1-based `attempt`.  The
`fuel` argument is the number of loop iterations still allowed
(`maxRetries + 1 - attempt`, maintained by `makeRequest`); `fuel = 0` is
the loop condition `attempt <= maxRetries` failing, after which the
post-loop `throw lastError` runs (reachable only with `maxRetries < 1`,
when `lastError` was never assigned). -/
def retryFrom (maxRetries : Nat) (delayOf : Nat → Int)
    (outcome : Nat → AttemptOutcome) : Nat → Nat → RunRecord
  | 0, attempt => { attempts := attempt - 1, delays := [], result := .noAttempt }
  | fuel + 1, attempt =>
    match outcome attempt with
    | .success d => { attempts := attempt, delays := [], result := .ok d }
    | .failure st m =>
      if nonRetryableStatus st then
        { attempts := attempt, delays := [], result := .err st m }
      else if attempt = maxRetries then
        { attempts := attempt, delays := [], result := .err st m }
      else
        let delay := delayOf attempt
        let r := retryFrom maxRetries delayOf outcome fuel (attempt + 1)
        { attempts := r.attempts, delays := delay :: r.delays, result := r.result }

/-- The emitted `makeRequest` retry behaviour of the Node, PHP and Go
modules, with the module's delay arithmetic passed as `delayOf`
(`floatDelay` for Node and PHP, `goDelay` for Go: a negative Go duration
makes `time.Sleep` return immediately, leaving the control flow as
here). -/
def makeRequest (maxRetries : Nat) (delayOf : Nat → Int)
    (outcome : Nat → AttemptOutcome) : RunRecord :=
  retryFrom maxRetries delayOf outcome maxRetries 1

/-- The emitted Java `makeRequest` loop: as `retryFrom` with `javaDelay`,
except that a negative delay makes `Thread.sleep` throw
`IllegalArgumentException`, which escapes the method (`sleepAbort`). -/
def retryFromJava (maxRetries : Nat) (outcome : Nat → AttemptOutcome) :
    Nat → Nat → RunRecord
  | 0, attempt => { attempts := attempt - 1, delays := [], result := .noAttempt }
  | fuel + 1, attempt =>
    match outcome attempt with
    | .success d => { attempts := attempt, delays := [], result := .ok d }
    | .failure st m =>
      if nonRetryableStatus st then
        { attempts := attempt, delays := [], result := .err st m }
      else if attempt = maxRetries then
        { attempts := attempt, delays := [], result := .err st m }
      else
        let delay := javaDelay attempt
        if delay < 0 then
          { attempts := attempt, delays := [], result := .sleepAbort }
        else
          let r := retryFromJava maxRetries outcome fuel (attempt + 1)
          { attempts := r.attempts, delays := delay :: r.delays, result := r.result }

/-- The emitted Java `RequestHandler.makeRequest` retry behaviour. -/
def makeRequestJava (maxRetries : Nat) (outcome : Nat → AttemptOutcome) :
    RunRecord :=
  retryFromJava maxRetries outcome maxRetries 1

/-! ## Generation engine

Shared per-endpoint classification, identical lines in all four emitters:
`params = parameters.filter(p => p.in === 'path')`,
`queryParams = parameters.filter(p => p.in === 'query')`,
`hasBody = requestBody && method !== 'GET' && method !== 'DELETE'`. -/

/-- The endpoint's path parameters, in declaration order. -/
def pathParamsOf (e : Endpoint) : List Param :=
  e.parameters.filter (fun p => p.loc = "path")

/-- The endpoint's query parameters, in declaration order. -/
def queryParamsOf (e : Endpoint) : List Param :=
  e.parameters.filter (fun p => p.loc = "query")

/-- Whether a generated method takes a body parameter. -/
def hasBodyOf (e : Endpoint) : Bool :=
  e.requestBody.isSome && e.method != "GET" && e.method != "DELETE"

/-- JS `s.charAt(0).toUpperCase() + s.slice(1)`. -/
def jsCapFirst (s : String) : String :=
  match s.data with
  | [] => ""
  | c :: cs => ⟨jsUpperChar c :: cs⟩

/-! ### Node.js emitter (`server/generators/nodeGenerator.js`) -/

namespace NodeGen

/-- The declared parameter list of every generated Node client method: the
signature is `async ${operationId}(options = {}) {`
(nodeGenerator.js:134), so each method declares the single parameter
`options` and destructures path/query values from it in the body. -/
def declaredParams (_e : Endpoint) : List String :=
  ["options = \x7b\x7d"]

/-- `generateEndpointMethod(endpoint)` (nodeGenerator.js:122-183). -/
def generateEndpointMethod (e : Endpoint) : String :=
  let params := pathParamsOf e
  let queryParams := queryParamsOf e
  let hasBody := hasBodyOf e
  let methodSignature :=
    "  /**\n   * " ++
    jsOrS (some e.summary) (jsOrS (some e.description) (e.method ++ " " ++ e.path)) ++
    "\n   * @param \x7bObject\x7d options - Request options\n   * @returns \x7bPromise<Object>\x7d API response\n   */\n  async " ++
    e.operationId ++ "(options = \x7b\x7d) \x7b"
  let methodSignature := methodSignature ++
    (if params.length > 0 then
      "\n    const \x7b " ++ String.intercalate ", " (params.map (·.name)) ++
      ", ...restOptions \x7d = options;"
     else "")
  let methodSignature := methodSignature ++
    (if queryParams.length > 0 then
      "\n    const \x7b " ++ String.intercalate ", " (queryParams.map (·.name)) ++
      ", ...requestOptions \x7d = restOptions || options;"
     else if params.length > 0 then
      "\n    const requestOptions = restOptions;"
     else "")
  let urlBuilding :=
    "    let url = \x27" ++ e.path ++ "\x27;" ++
    String.join (params.map fun p =>
      "\n    url = url.replace(\x27\x7b" ++ p.name ++ "\x7d\x27, " ++ p.name ++ ");")
  let queryBuilding :=
    if queryParams.length > 0 then
      "\n    const queryParams = \x7b\x7d;" ++
      String.join (queryParams.map fun p =>
        "\n    if (" ++ p.name ++ " !== undefined) queryParams." ++ p.name ++
        " = " ++ p.name ++ ";")
    else ""
  let requestConfig :=
    "\n    const config = \x7b\n      method: \x27" ++ e.method ++
    "\x27,\n      url,\n      " ++
    (if queryParams.length > 0 then "params: queryParams," else "") ++
    "\n      ...requestOptions\n    \x7d;"
  let requestConfig := requestConfig ++
    (if hasBody then
      "\n    \n    if (options.body) \x7b\n      config.data = options.body;\n    \x7d"
     else "")
  methodSignature ++ "\n" ++ urlBuilding ++ queryBuilding ++ requestConfig ++
    "\n\n    return this.requestHandler.makeRequest(config);\n  \x7d"
/-- `generatePackageJson(title)` (nodeGenerator.js:45-64). -/
def generatePackageJson (title : String) : String :=
  "\x7b\n  \"name\": \"" ++
  (sanitizeDash title) ++
  "-integration\",\n  \"version\": \"1.0.0\",\n  \"description\": \"Auto-generated integration client for " ++
  (title) ++
  "\",\n  \"main\": \"src/ApiClient.js\",\n  \"scripts\": \x7b\n    \"start\": \"node examples/basic-usage.js\",\n    \"test\": \"jest\",\n    \"test:watch\": \"jest --watch\"\n  \x7d,\n  \"dependencies\": \x7b\n    \"axios\": \"^1.6.0\",\n    \"dotenv\": \"^16.3.1\"\n  \x7d,\n  \"devDependencies\": \x7b\n    \"jest\": \"^29.7.0\"\n  \x7d\n\x7d"

/-- `generateApiClient(parsedData)` (nodeGenerator.js:69-117). -/
def generateApiClient (m : ApiData) : String :=
  "const axios = require(\x27axios\x27);\nconst AuthHandler = require(\x27./auth/AuthHandler\x27);\nconst RequestHandler = require(\x27./utils/RequestHandler\x27);\nconst ErrorHandler = require(\x27./utils/ErrorHandler\x27);\nconst Config = require(\x27./config/Config\x27);\n\n/**\n * " ++
  (m.title) ++
  " API Client\n * Auto-generated integration client for " ++
  (m.title) ++
  "\n */\nclass ApiClient \x7b\n  constructor(config = \x7b\x7d) \x7b\n    this.config = new Config(config);\n    this.authHandler = new AuthHandler(this.config);\n    this.requestHandler = new RequestHandler(this.config);\n    this.errorHandler = new ErrorHandler();\n    \n    // Initialize axios instance\n    this.client = axios.create(\x7b\n      baseURL: this.config.baseUrl,\n      timeout: this.config.timeout,\n      headers: \x7b\n        \x27Content-Type\x27: \x27application/json\x27,\n        \x27User-Agent\x27: \x27" ++
  (m.title) ++
  "-Integration/1.0.0\x27\n      \x7d\n    \x7d);\n  \x7d\n\n" ++
  (String.intercalate "\n\n" (m.endpoints.map generateEndpointMethod)) ++
  "\n\n  /**\n   * Test connection to the API\n   * @returns \x7bPromise<boolean>\x7d Connection status\n   */\n  async testConnection() \x7b\n    try \x7b\n      await this.client.get(\x27/\x27);\n      return true;\n    \x7d catch (error) \x7b\n      return false;\n    \x7d\n  \x7d\n\x7d\n\nmodule.exports = ApiClient;"

/-- `generateAuthHandler(authMethod)` (nodeGenerator.js:188-283); the argument is unused by the template. -/
def generateAuthHandler (_authMethod : AuthMethod) : String :=
  "/**\n * Authentication Handler\n * Handles different types of authentication for API requests\n */\nclass AuthHandler \x7b\n  constructor(config) \x7b\n    this.config = config;\n  \x7d\n\n  /**\n   * Get authentication headers based on configured auth method\n   * @returns \x7bPromise<Object>\x7d Authentication headers\n   */\n  async getAuthHeaders() \x7b\n    const authType = this.config.authType;\n    \n    switch (authType) \x7b\n      case \x27bearer\x27:\n        return this.getBearerHeaders();\n      case \x27apiKey\x27:\n        return this.getApiKeyHeaders();\n      case \x27basic\x27:\n        return this.getBasicHeaders();\n      case \x27oauth2\x27:\n        return this.getOAuth2Headers();\n      default:\n        return \x7b\x7d;\n    \x7d\n  \x7d\n\n  /**\n   * Get Bearer token headers\n   * @returns \x7bObject\x7d Bearer token headers\n   */\n  getBearerHeaders() \x7b\n    const token = this.config.apiKey || this.config.bearerToken;\n    if (!token) \x7b\n      throw new Error(\x27Bearer token is required but not provided\x27);\n    \x7d\n    return \x7b\n      \x27Authorization\x27: `Bearer $\x7btoken\x7d`\n    \x7d;\n  \x7d\n\n  /**\n   * Get API Key headers\n   * @returns \x7bObject\x7d API Key headers\n   */\n  getApiKeyHeaders() \x7b\n    const apiKey = this.config.apiKey;\n    if (!apiKey) \x7b\n      throw new Error(\x27API Key is required but not provided\x27);\n    \x7d\n    \n    const headerName = this.config.authHeaderName || \x27X-API-Key\x27;\n    return \x7b\n      [headerName]: apiKey\n    \x7d;\n  \x7d\n\n  /**\n   * Get Basic authentication headers\n   * @returns \x7bObject\x7d Basic auth headers\n   */\n  getBasicHeaders() \x7b\n    const username = this.config.username;\n    const password = this.config.password;\n    \n    if (!username || !password) \x7b\n      throw new Error(\x27Username and password are required for Basic authentication\x27);\n    \x7d\n    \n    const credentials = Buffer.from(`$\x7busername\x7d:$\x7bpassword\x7d`).toString(\x27base64\x27);\n    return \x7b\n      \x27Authorization\x27: `Basic $\x7bcredentials\x7d`\n    \x7d;\n  \x7d\n\n  /**\n   * Get OAuth2 headers\n   * @returns \x7bObject\x7d OAuth2 headers\n   */\n  getOAuth2Headers() \x7b\n    const accessToken = this.config.accessToken;\n    if (!accessToken) \x7b\n      throw new Error(\x27OAuth2 access token is required but not provided\x27);\n    \x7d\n    return \x7b\n      \x27Authorization\x27: `Bearer $\x7baccessToken\x7d`\n    \x7d;\n  \x7d\n\x7d\n\nmodule.exports = AuthHandler;"

/-- `generateRequestHandler()` (nodeGenerator.js:288-344): the constant request module whose retry loop is modelled by `makeRequest`. -/
def generateRequestHandler  : String :=
  "/**\n * Request Handler\n * Handles HTTP requests with retry logic and proper error handling\n */\nclass RequestHandler \x7b\n  constructor(config) \x7b\n    this.config = config;\n  \x7d\n\n  /**\n   * Make HTTP request with retry logic\n   * @param \x7bObject\x7d config - Axios request config\n   * @returns \x7bPromise<Object>\x7d Response data\n   */\n  async makeRequest(config) \x7b\n    const maxRetries = this.config.maxRetries || 3;\n    let lastError;\n\n    for (let attempt = 1; attempt <= maxRetries; attempt++) \x7b\n      try \x7b\n        const response = await this.config.client(config);\n        return response.data;\n      \x7d catch (error) \x7b\n        lastError = error;\n        \n        // Don\x27t retry on client errors (4xx) except 429 (rate limit)\n        if (error.response && error.response.status >= 400 && error.response.status < 500 && error.response.status !== 429) \x7b\n          throw error;\n        \x7d\n        \n        // Don\x27t retry on server errors (5xx) if it\x27s the last attempt\n        if (attempt === maxRetries) \x7b\n          throw error;\n        \x7d\n        \n        // Wait before retrying (exponential backoff)\n        const delay = Math.min(1000 * Math.pow(2, attempt - 1), 10000);\n        await this.sleep(delay);\n      \x7d\n    \x7d\n\n    throw lastError;\n  \x7d\n\n  /**\n   * Sleep for specified milliseconds\n   * @param \x7bnumber\x7d ms - Milliseconds to sleep\n   * @returns \x7bPromise<void>\x7d\n   */\n  sleep(ms) \x7b\n    return new Promise(resolve => setTimeout(resolve, ms));\n  \x7d\n\x7d\n\nmodule.exports = RequestHandler;"

/-- `generateErrorHandler()` (nodeGenerator.js:349-410). -/
def generateErrorHandler  : String :=
  "/**\n * Error Handler\n * Handles and formats API errors consistently\n */\nclass ErrorHandler \x7b\n  /**\n   * Handle API errors and throw formatted exceptions\n   * @param \x7bError\x7d error - Axios error\n   * @throws \x7bApiError\x7d Formatted API error\n   */\n  handleError(error) \x7b\n    if (error.response) \x7b\n      // Server responded with error status\n      const \x7b status, statusText, data \x7d = error.response;\n      throw new ApiError(\n        status,\n        statusText,\n        data,\n        error.request,\n        error.config\n      );\n    \x7d else if (error.request) \x7b\n      // Request was made but no response received\n      throw new ApiError(\n        0,\n        \x27No response received\x27,\n        null,\n        error.request,\n        error.config\n      );\n    \x7d else \x7b\n      // Something else happened\n      throw new ApiError(\n        0,\n        error.message,\n        null,\n        null,\n        error.config\n      );\n    \x7d\n  \x7d\n\x7d\n\n/**\n * Custom API Error class\n */\nclass ApiError extends Error \x7b\n  constructor(status, message, data, request, config) \x7b\n    super(message);\n    this.name = \x27ApiError\x27;\n    this.status = status;\n    this.data = data;\n    this.request = request;\n    this.config = config;\n    this.timestamp = new Date().toISOString();\n  \x7d\n\x7d\n\nmodule.exports = ErrorHandler;\nmodule.exports.ApiError = ApiError;"

/-- `generateConfig()` (nodeGenerator.js:415-453). -/
def generateConfig  : String :=
  "require(\x27dotenv\x27).config();\n\n/**\n * Configuration Manager\n * Manages API client configuration with environment variable support\n */\nclass Config \x7b\n  constructor(config = \x7b\x7d) \x7b\n    this.config = \x7b\n      baseUrl: config.baseUrl || process.env.API_BASE_URL || \x27\x27,\n      timeout: config.timeout || parseInt(process.env.API_TIMEOUT) || 30000,\n      maxRetries: config.maxRetries || parseInt(process.env.API_MAX_RETRIES) || 3,\n      \n      // Authentication\n      authType: config.authType || process.env.API_AUTH_TYPE || \x27none\x27,\n      apiKey: config.apiKey || process.env.API_KEY,\n      bearerToken: config.bearerToken || process.env.API_BEARER_TOKEN,\n      username: config.username || process.env.API_USERNAME,\n      password: config.password || process.env.API_PASSWORD,\n      accessToken: config.accessToken || process.env.API_ACCESS_TOKEN,\n      authHeaderName: config.authHeaderName || process.env.API_AUTH_HEADER_NAME\n    \x7d;\n  \x7d\n\n  // Getters for common properties\n  get baseUrl() \x7b return this.config.baseUrl; \x7d\n  get timeout() \x7b return this.config.timeout; \x7d\n  get maxRetries() \x7b return this.config.maxRetries; \x7d\n  get authType() \x7b return this.config.authType; \x7d\n  get apiKey() \x7b return this.config.apiKey; \x7d\n  get bearerToken() \x7b return this.config.bearerToken; \x7d\n  get username() \x7b return this.config.username; \x7d\n  get password() \x7b return this.config.password; \x7d\n  get accessToken() \x7b return this.config.accessToken; \x7d\n  get authHeaderName() \x7b return this.config.authHeaderName; \x7d\n\x7d\n\nmodule.exports = Config;"

/-- `generateEndpointTest(endpoint)` (nodeGenerator.js:488-507). -/
def generateEndpointTest (e : Endpoint) : String :=
  "  describe(\x27" ++
  (e.operationId) ++
  "\x27, () => \x7b\n    test(\x27should make " ++
  (e.method) ++
  " request to " ++
  (e.path) ++
  "\x27, async () => \x7b\n      const mockResponse = \x7b data: \x7b success: true \x7d \x7d;\n      client.requestHandler.makeRequest = jest.fn().mockResolvedValue(mockResponse);\n      \n      const result = await client." ++
  (e.operationId) ++
  "();\n      \n      expect(client.requestHandler.makeRequest).toHaveBeenCalledWith(\n        expect.objectContaining(\x7b\n          method: \x27" ++
  (e.method) ++
  "\x27,\n          url: \x27" ++
  (e.path) ++
  "\x27\n        \x7d)\n      );\n      expect(result).toEqual(mockResponse);\n    \x7d);\n  \x7d);"

/-- `generateTests(parsedData)` (nodeGenerator.js:459-483). -/
def generateTests (m : ApiData) : String :=
  "const ApiClient = require(\x27../src/ApiClient\x27);\n\ndescribe(\x27" ++
  (m.title) ++
  " API Client\x27, () => \x7b\n  let client;\n\n  beforeEach(() => \x7b\n    client = new ApiClient(\x7b\n      baseUrl: \x27https://api.example.com\x27,\n      apiKey: \x27test-api-key\x27\n    \x7d);\n  \x7d);\n\n  describe(\x27Configuration\x27, () => \x7b\n    test(\x27should initialize with correct configuration\x27, () => \x7b\n      expect(client.config.baseUrl).toBe(\x27https://api.example.com\x27);\n      expect(client.config.apiKey).toBe(\x27test-api-key\x27);\n    \x7d);\n  \x7d);\n\n" ++
  (String.intercalate "\n\n" (m.endpoints.map generateEndpointTest)) ++
  "\n\x7d);"

/-- The per-endpoint block of `generateExampleUsage` (nodeGenerator.js:536-543). -/
def exampleBlock (e : Endpoint) : String :=
  "    // Example: " ++
  (e.method) ++
  " " ++
  (e.path) ++
  "\n    try \x7b\n      console.log(\x27\\n📡 Testing " ++
  (e.operationId) ++
  "...\x27);\n      const " ++
  (e.operationId) ++
  "Result = await client." ++
  (e.operationId) ++
  "();\n      console.log(\x27✅ " ++
  (e.operationId) ++
  " result:\x27, JSON.stringify(" ++
  (e.operationId) ++
  "Result, null, 2));\n    \x7d catch (error) \x7b\n      console.error(\x27❌ " ++
  (e.operationId) ++
  " failed:\x27, error.message);\n    \x7d"

/-- `generateExampleUsage(parsedData)` (nodeGenerator.js:512-558). -/
def generateExampleUsage (m : ApiData) : String :=
  "require(\x27dotenv\x27).config();\nconst ApiClient = require(\x27../src/ApiClient\x27);\n\n/**\n * Example usage of " ++
  (m.title) ++
  " API Client\n */\nasync function main() \x7b\n  try \x7b\n    // Initialize the API client\n    const client = new ApiClient(\x7b\n      baseUrl: process.env.API_BASE_URL || \x27https://api.example.com\x27,\n      apiKey: process.env.API_KEY,\n      timeout: 30000\n    \x7d);\n\n    console.log(\x27🚀 " ++
  (m.title) ++
  " API Client initialized\x27);\n\n    // Test connection\n    const isConnected = await client.testConnection();\n    console.log(\x27🔗 Connection test:\x27, isConnected ? \x27✅ Success\x27 : \x27❌ Failed\x27);\n\n" ++
  (String.intercalate "\n\n" ((m.endpoints.take 2).map exampleBlock)) ++
  "\n\n    console.log(\x27\\n🎉 Example completed successfully!\x27);\n\n  \x7d catch (error) \x7b\n    console.error(\x27💥 Example failed:\x27, error.message);\n    process.exit(1);\n  \x7d\n\x7d\n\n// Run the example\nif (require.main === module) \x7b\n  main();\n\x7d\n\nmodule.exports = \x7b main \x7d;"
/-- `generateEnvExample(authMethod)` (nodeGenerator.js:564-607). -/
def generateEnvExample (am : AuthMethod) : String :=
  let envContent :=
    "# " ++
    (if am.type = "none" then "No authentication required"
     else jsUpper am.type ++ " Authentication") ++
    "\n\n# API Configuration\nAPI_BASE_URL=https://api.example.com\nAPI_TIMEOUT=30000\nAPI_MAX_RETRIES=3\n\n"
  envContent ++
    (match am.type with
     | "bearer" =>
       "# Bearer Token Authentication\nAPI_AUTH_TYPE=bearer\nAPI_BEARER_TOKEN=your-bearer-token-here\n"
     | "apiKey" =>
       "# API Key Authentication\nAPI_AUTH_TYPE=apiKey\nAPI_KEY=your-api-key-here\nAPI_AUTH_HEADER_NAME=X-API-Key\n"
     | "basic" =>
       "# Basic Authentication\nAPI_AUTH_TYPE=basic\nAPI_USERNAME=your-username\nAPI_PASSWORD=your-password\n"
     | "oauth2" =>
       "# OAuth 2.0 Authentication\nAPI_AUTH_TYPE=oauth2\nAPI_ACCESS_TOKEN=your-access-token-here\n"
     | _ => "")

/-- `generateNodeCode(parsedData, fileName)` (nodeGenerator.js:7-40): the
artifact map in insertion order; `fileName` is never read. -/
def generateNodeCode (m : ApiData) (_fileName : String) : List (String × String) :=
  [("package.json", generatePackageJson m.title),
   ("src/ApiClient.js", generateApiClient m),
   ("src/auth/AuthHandler.js", generateAuthHandler m.authMethod),
   ("src/utils/RequestHandler.js", generateRequestHandler),
   ("src/utils/ErrorHandler.js", generateErrorHandler),
   ("src/config/Config.js", generateConfig),
   ("tests/ApiClient.test.js", generateTests m),
   ("examples/basic-usage.js", generateExampleUsage m),
   (".env.example", generateEnvExample m.authMethod)]

end NodeGen

/-! ### Go emitter (`server/generators/goGenerator.js`) -/

namespace GoGen

/-- The `parameters` array built by `generateMethodParameters(params,
queryParams, hasBody)` of the Go emitter: path parameters in order, then
query parameters, then `body interface{}` when a body applies. -/
def methodParameterList (params queryParams : List Param) (hasBody : Bool) :
    List String :=
  params.map (fun p => p.name ++ " string") ++
  queryParams.map (fun p => p.name ++ " string") ++
  (if hasBody then ["body interface\x7b\x7d"] else [])

/-- `generateMethodParameters(params, queryParams, hasBody)` of the Go
emitter: the built array joined with `", "`. -/
def generateMethodParameters (params queryParams : List Param) (hasBody : Bool) :
    String :=
  String.intercalate ", " (methodParameterList params queryParams hasBody)

/-- The declared parameter list of a generated Go client method. -/
def declaredParams (e : Endpoint) : List String :=
  methodParameterList (pathParamsOf e) (queryParamsOf e) (hasBodyOf e)

/-- `generateEndpointMethod(endpoint)` of the Go emitter. -/
def generateEndpointMethod (e : Endpoint) : String :=
  let params := pathParamsOf e
  let queryParams := queryParamsOf e
  let hasBody := hasBodyOf e
  let methodSignature :=
    "// " ++ e.operationId ++ " " ++
    jsOrS (some e.summary) (jsOrS (some e.description) (e.method ++ " " ++ e.path)) ++
    "\n// " ++ (if e.description ≠ "" then e.description else "") ++
    "\nfunc (c *ApiClient) " ++ jsCapFirst e.operationId ++ "()"
  let methodSignature := methodSignature ++
    (if params.length > 0 ∨ queryParams.length > 0 ∨ hasBody then
      "(" ++ generateMethodParameters params queryParams hasBody ++ ")"
     else "")
  let methodSignature := methodSignature ++ " (*ApiResponse, error) \x7b"
  let urlBuilding :=
    "\turl := \"" ++ e.path ++ "\"" ++
    String.join (params.map fun p =>
      "\n\turl = strings.ReplaceAll(url, \"\x7b" ++ p.name ++ "\x7d\", " ++ p.name ++ ")")
  let queryBuilding :=
    if queryParams.length > 0 then
      "\n\tqueryParams := make(map[string]string)" ++
      String.join (queryParams.map fun p =>
        "\n\tif " ++ p.name ++ " != \"\" \x7b" ++
        "\n\t\tqueryParams[\"" ++ p.name ++ "\"] = " ++ p.name ++
        "\n\t\x7d") ++
      "\n\tif len(queryParams) > 0 \x7b" ++
      "\n\t\turl += \"?\" + buildQueryString(queryParams)" ++
      "\n\t\x7d"
    else ""
  let bodyBuilding :=
    if hasBody then
      "\n\tvar requestBody []byte" ++
      "\n\tvar err error" ++
      "\n\tif body != nil \x7b" ++
      "\n\t\trequestBody, err = json.Marshal(body)" ++
      "\n\t\tif err != nil \x7b" ++
      "\n\t\t\treturn nil, fmt.Errorf(\"failed to marshal request body: %w\", err)" ++
      "\n\t\t\x7d" ++
      "\n\t\x7d"
    else ""
  methodSignature ++ "\n" ++ urlBuilding ++ queryBuilding ++ bodyBuilding ++
    "\n\n\treturn c.requestHandler.MakeRequest(c.httpClient, \"" ++ e.method ++
    "\", url, requestBody, c.authHandler.GetAuthHeaders())\n\x7d"
/-- `generateGoMod(title)` of the Go emitter. -/
def generateGoMod (title : String) : String :=
  "module " ++
  (sanitizeDash title) ++
  "-integration\n\ngo 1.19\n\nrequire (\n\tgithub.com/joho/godotenv v1.4.0\n)\n\nrequire (\n\tgithub.com/stretchr/testify v1.8.1 // indirect\n\tgolang.org/x/net v0.5.0 // indirect\n)"

/-- `generateApiClient(parsedData)` of the Go emitter. -/
def generateApiClient (m : ApiData) : String :=
  "package main\n\nimport (\n\t\"bytes\"\n\t\"encoding/json\"\n\t\"fmt\"\n\t\"io\"\n\t\"net/http\"\n\t\"time\"\n)\n\n// ApiClient represents the " ++
  (m.title) ++
  " API client\ntype ApiClient struct \x7b\n\tconfig       *Config\n\tauthHandler  *AuthHandler\n\trequestHandler *RequestHandler\n\thttpClient   *http.Client\n\x7d\n\n// NewApiClient creates a new API client instance\nfunc NewApiClient(config *Config) *ApiClient \x7b\n\tif config == nil \x7b\n\t\tconfig = NewConfig()\n\t\x7d\n\n\tclient := &ApiClient\x7b\n\t\tconfig:       config,\n\t\tauthHandler:  NewAuthHandler(config),\n\t\trequestHandler: NewRequestHandler(config),\n\t\thttpClient: &http.Client\x7b\n\t\t\tTimeout: time.Duration(config.Timeout) * time.Millisecond,\n\t\t\x7d,\n\t\x7d\n\n\treturn client\n\x7d\n\n" ++
  (String.intercalate "\n\n" (m.endpoints.map generateEndpointMethod)) ++
  "\n\n// TestConnection tests the connection to the API\nfunc (c *ApiClient) TestConnection() bool \x7b\n\tresp, err := c.requestHandler.MakeRequest(c.httpClient, \"GET\", \"/\", nil, c.authHandler.GetAuthHeaders())\n\tif err != nil \x7b\n\t\treturn false\n\t\x7d\n\treturn resp.StatusCode == 200\n\x7d\n\n// GetConfig returns the current configuration\nfunc (c *ApiClient) GetConfig() *Config \x7b\n\treturn c.config\n\x7d"

/-- `generateAuthHandler(authMethod)` of the Go emitter; the argument is unused by the template. -/
def generateAuthHandler (_authMethod : AuthMethod) : String :=
  "package main\n\nimport (\n\t\"encoding/base64\"\n\t\"fmt\"\n)\n\n// AuthHandler handles authentication for API requests\ntype AuthHandler struct \x7b\n\tconfig *Config\n\x7d\n\n// NewAuthHandler creates a new authentication handler\nfunc NewAuthHandler(config *Config) *AuthHandler \x7b\n\treturn &AuthHandler\x7b\n\t\tconfig: config,\n\t\x7d\n\x7d\n\n// GetAuthHeaders returns authentication headers based on configured auth method\nfunc (a *AuthHandler) GetAuthHeaders() map[string]string \x7b\n\theaders := make(map[string]string)\n\n\tswitch a.config.AuthType \x7b\n\tcase \"bearer\":\n\t\treturn a.getBearerHeaders()\n\tcase \"apiKey\":\n\t\treturn a.getApiKeyHeaders()\n\tcase \"basic\":\n\t\treturn a.getBasicHeaders()\n\tcase \"oauth2\":\n\t\treturn a.getOAuth2Headers()\n\tdefault:\n\t\treturn headers\n\t\x7d\n\x7d\n\n// getBearerHeaders returns Bearer token headers\nfunc (a *AuthHandler) getBearerHeaders() map[string]string \x7b\n\theaders := make(map[string]string)\n\ttoken := a.config.ApiKey\n\tif token == \"\" \x7b\n\t\ttoken = a.config.BearerToken\n\t\x7d\n\n\tif token == \"\" \x7b\n\t\tpanic(\"Bearer token is required but not provided\")\n\t\x7d\n\n\theaders[\"Authorization\"] = \"Bearer \" + token\n\treturn headers\n\x7d\n\n// getApiKeyHeaders returns API Key headers\nfunc (a *AuthHandler) getApiKeyHeaders() map[string]string \x7b\n\theaders := make(map[string]string)\n\tapiKey := a.config.ApiKey\n\n\tif apiKey == \"\" \x7b\n\t\tpanic(\"API Key is required but not provided\")\n\t\x7d\n\n\theaderName := a.config.AuthHeaderName\n\tif headerName == \"\" \x7b\n\t\theaderName = \"X-API-Key\"\n\t\x7d\n\n\theaders[headerName] = apiKey\n\treturn headers\n\x7d\n\n// getBasicHeaders returns Basic authentication headers\nfunc (a *AuthHandler) getBasicHeaders() map[string]string \x7b\n\theaders := make(map[string]string)\n\tusername := a.config.Username\n\tpassword := a.config.Password\n\n\tif username == \"\" || password == \"\" \x7b\n\t\tpanic(\"Username and password are required for Basic authentication\")\n\t\x7d\n\n\tcredentials := username + \":\" + password\n\tencodedCredentials := base64.StdEncoding.EncodeToString([]byte(credentials))\n\theaders[\"Authorization\"] = \"Basic \" + encodedCredentials\n\treturn headers\n\x7d\n\n// getOAuth2Headers returns OAuth2 headers\nfunc (a *AuthHandler) getOAuth2Headers() map[string]string \x7b\n\theaders := make(map[string]string)\n\taccessToken := a.config.AccessToken\n\n\tif accessToken == \"\" \x7b\n\t\tpanic(\"OAuth2 access token is required but not provided\")\n\t\x7d\n\n\theaders[\"Authorization\"] = \"Bearer \" + accessToken\n\treturn headers\n\x7d"

/-- `generateRequestHandler()` of the Go emitter: the constant request module whose retry loop is modelled by `makeRequest`. -/
def generateRequestHandler  : String :=
  "package main\n\nimport (\n\t\"bytes\"\n\t\"fmt\"\n\t\"io\"\n\t\"net/http\"\n\t\"strings\"\n\t\"time\"\n)\n\n// RequestHandler handles HTTP requests with retry logic\ntype RequestHandler struct \x7b\n\tconfig *Config\n\x7d\n\n// NewRequestHandler creates a new request handler\nfunc NewRequestHandler(config *Config) *RequestHandler \x7b\n\treturn &RequestHandler\x7b\n\t\tconfig: config,\n\t\x7d\n\x7d\n\n// MakeRequest makes an HTTP request with retry logic\nfunc (r *RequestHandler) MakeRequest(client *http.Client, method, url string, body []byte, headers map[string]string) (*ApiResponse, error) \x7b\n\tmaxRetries := r.config.MaxRetries\n\tvar lastError error\n\n\tfor attempt := 1; attempt <= maxRetries; attempt++ \x7b\n\t\tresp, err := r.executeRequest(client, method, url, body, headers)\n\t\tif err == nil \x7b\n\t\t\treturn resp, nil\n\t\t\x7d\n\n\t\tlastError = err\n\n\t\t// Don\x27t retry on client errors (4xx) except 429 (rate limit)\n\t\tif apiErr, ok := err.(*ApiError); ok \x7b\n\t\t\tif apiErr.StatusCode >= 400 && apiErr.StatusCode < 500 && apiErr.StatusCode != 429 \x7b\n\t\t\t\treturn nil, err\n\t\t\t\x7d\n\t\t\x7d\n\n\t\t// Don\x27t retry on server errors (5xx) if it\x27s the last attempt\n\t\tif attempt == maxRetries \x7b\n\t\t\treturn nil, err\n\t\t\x7d\n\n\t\t// Wait before retrying (exponential backoff)\n\t\tdelay := time.Duration(min(1000*int64(1<<(attempt-1)), 10000)) * time.Millisecond\n\t\ttime.Sleep(delay)\n\t\x7d\n\n\treturn nil, lastError\n\x7d\n\n// executeRequest executes a single HTTP request\nfunc (r *RequestHandler) executeRequest(client *http.Client, method, url string, body []byte, headers map[string]string) (*ApiResponse, error) \x7b\n\tfullURL := r.config.BaseURL + url\n\n\tvar req *http.Request\n\tvar err error\n\n\tif body != nil && method != \"GET\" && method != \"DELETE\" \x7b\n\t\treq, err = http.NewRequest(method, fullURL, bytes.NewBuffer(body))\n\t\x7d else \x7b\n\t\treq, err = http.NewRequest(method, fullURL, nil)\n\t\x7d\n\n\tif err != nil \x7b\n\t\treturn nil, fmt.Errorf(\"failed to create request: %w\", err)\n\t\x7d\n\n\t// Add default headers\n\treq.Header.Set(\"Content-Type\", \"application/json\")\n\n\t// Add custom headers\n\tfor key, value := range headers \x7b\n\t\treq.Header.Set(key, value)\n\t\x7d\n\n\tresp, err := client.Do(req)\n\tif err != nil \x7b\n\t\treturn nil, fmt.Errorf(\"request failed: %w\", err)\n\t\x7d\n\tdefer resp.Body.Close()\n\n\trespBody, err := io.ReadAll(resp.Body)\n\tif err != nil \x7b\n\t\treturn nil, fmt.Errorf(\"failed to read response body: %w\", err)\n\t\x7d\n\n\tif !isSuccessStatus(resp.StatusCode) \x7b\n\t\treturn nil, &ApiError\x7b\n\t\t\tStatusCode: resp.StatusCode,\n\t\t\tMessage:    resp.Status,\n\t\t\tBody:       string(respBody),\n\t\t\x7d\n\t\x7d\n\n\treturn &ApiResponse\x7b\n\t\tStatusCode:    resp.StatusCode,\n\t\tStatusMessage: resp.Status,\n\t\tBody:          string(respBody),\n\t\x7d, nil\n\x7d\n\n// isSuccessStatus checks if the status code indicates success\nfunc isSuccessStatus(statusCode int) bool \x7b\n\treturn statusCode >= 200 && statusCode < 300\n\x7d\n\n// min returns the minimum of two int64 values\nfunc min(a, b int64) int64 \x7b\n\tif a < b \x7b\n\t\treturn a\n\t\x7d\n\treturn b\n\x7d\n\n// buildQueryString builds a query string from a map\nfunc buildQueryString(params map[string]string) string \x7b\n\tvar pairs []string\n\tfor key, value := range params \x7b\n\t\tpairs = append(pairs, key+\"=\"+value)\n\t\x7d\n\treturn strings.Join(pairs, \"&\")\n\x7d"

/-- `generateErrorHandler()` of the Go emitter. -/
def generateErrorHandler  : String :=
  "package main\n\nimport \"fmt\"\n\n// ApiError represents an API error\ntype ApiError struct \x7b\n\tStatusCode int\n\tMessage    string\n\tBody       string\n\x7d\n\n// Error implements the error interface\nfunc (e *ApiError) Error() string \x7b\n\treturn fmt.Sprintf(\"API Error %d: %s - %s\", e.StatusCode, e.Message, e.Body)\n\x7d\n\n// GetStatusCode returns the HTTP status code\nfunc (e *ApiError) GetStatusCode() int \x7b\n\treturn e.StatusCode\n\x7d\n\n// GetBody returns the response body\nfunc (e *ApiError) GetBody() string \x7b\n\treturn e.Body\n\x7d"

/-- `generateConfig()` of the Go emitter. -/
def generateConfig  : String :=
  "package main\n\nimport (\n\t\"os\"\n\t\"strconv\"\n\n\t\"github.com/joho/godotenv\"\n)\n\n// Config represents the API client configuration\ntype Config struct \x7b\n\tBaseURL        string\n\tTimeout        int\n\tMaxRetries     int\n\tAuthType       string\n\tApiKey         string\n\tBearerToken    string\n\tUsername       string\n\tPassword       string\n\tAccessToken    string\n\tAuthHeaderName string\n\x7d\n\n// NewConfig creates a new configuration instance\nfunc NewConfig() *Config \x7b\n\t// Load environment variables\n\tgodotenv.Load()\n\n\tconfig := &Config\x7b\n\t\tBaseURL:        getEnv(\"API_BASE_URL\", \"\"),\n\t\tTimeout:        getEnvAsInt(\"API_TIMEOUT\", 30000),\n\t\tMaxRetries:     getEnvAsInt(\"API_MAX_RETRIES\", 3),\n\t\tAuthType:       getEnv(\"API_AUTH_TYPE\", \"none\"),\n\t\tApiKey:         getEnv(\"API_KEY\", \"\"),\n\t\tBearerToken:    getEnv(\"API_BEARER_TOKEN\", \"\"),\n\t\tUsername:       getEnv(\"API_USERNAME\", \"\"),\n\t\tPassword:       getEnv(\"API_PASSWORD\", \"\"),\n\t\tAccessToken:    getEnv(\"API_ACCESS_TOKEN\", \"\"),\n\t\tAuthHeaderName: getEnv(\"API_AUTH_HEADER_NAME\", \"\"),\n\t\x7d\n\n\t// Set defaults\n\tif config.Timeout <= 0 \x7b\n\t\tconfig.Timeout = 30000\n\t\x7d\n\tif config.MaxRetries <= 0 \x7b\n\t\tconfig.MaxRetries = 3\n\t\x7d\n\tif config.AuthType == \"\" \x7b\n\t\tconfig.AuthType = \"none\"\n\t\x7d\n\n\treturn config\n\x7d\n\n// getEnv gets an environment variable with a default value\nfunc getEnv(key, defaultValue string) string \x7b\n\tif value := os.Getenv(key); value != \"\" \x7b\n\t\treturn value\n\t\x7d\n\treturn defaultValue\n\x7d\n\n// getEnvAsInt gets an environment variable as an integer with a default value\nfunc getEnvAsInt(key string, defaultValue int) int \x7b\n\tif value := os.Getenv(key); value != \"\" \x7b\n\t\tif intValue, err := strconv.Atoi(value); err == nil \x7b\n\t\t\treturn intValue\n\t\t\x7d\n\t\x7d\n\treturn defaultValue\n\x7d"

/-- `generateModels()` of the Go emitter. -/
def generateModels  : String :=
  "package main\n\nimport (\n\t\"encoding/json\"\n\t\"fmt\"\n)\n\n// ApiResponse represents an API response\ntype ApiResponse struct \x7b\n\tStatusCode    int    `json:\"statusCode\"`\n\tStatusMessage string `json:\"statusMessage\"`\n\tBody          string `json:\"body\"`\n\x7d\n\n// GetJsonBody returns the response body as a map\nfunc (r *ApiResponse) GetJsonBody() (map[string]interface\x7b\x7d, error) \x7b\n\tvar result map[string]interface\x7b\x7d\n\terr := json.Unmarshal([]byte(r.Body), &result)\n\treturn result, err\n\x7d\n\n// String implements the Stringer interface\nfunc (r *ApiResponse) String() string \x7b\n\treturn fmt.Sprintf(\"ApiResponse\x7bStatusCode=%d, StatusMessage=\"%s\", Body=\"%s\"\x7d\", \n\t\tr.StatusCode, r.StatusMessage, r.Body)\n\x7d"

/-- `generateEndpointTest(endpoint)` of the Go emitter. -/
def generateEndpointTest (e : Endpoint) : String :=
  "func Test" ++
  (jsCapFirst e.operationId) ++
  "(t *testing.T) \x7b\n\tclient := NewApiClient(nil)\n\tif client == nil \x7b\n\t\tt.Error(\"Expected client to be created\")\n\t\x7d\n\t// Add more specific tests based on the endpoint requirements\n\x7d"

/-- `generateTests(parsedData)` of the Go emitter. -/
def generateTests (m : ApiData) : String :=
  "package main\n\nimport (\n\t\"testing\"\n)\n\nfunc TestNewApiClient(t *testing.T) \x7b\n\tclient := NewApiClient(nil)\n\tif client == nil \x7b\n\t\tt.Error(\"Expected client to be created\")\n\t\x7d\n\n\tconfig := client.GetConfig()\n\tif config == nil \x7b\n\t\tt.Error(\"Expected config to be set\")\n\t\x7d\n\n\tif config.AuthType != \"none\" \x7b\n\t\tt.Errorf(\"Expected auth type to be \x27none\x27, got \x27%s\x27\", config.AuthType)\n\t\x7d\n\x7d\n\nfunc TestConfig(t *testing.T) \x7b\n\tconfig := NewConfig()\n\tif config == nil \x7b\n\t\tt.Error(\"Expected config to be created\")\n\t\x7d\n\n\tif config.Timeout <= 0 \x7b\n\t\tt.Error(\"Expected timeout to be positive\")\n\t\x7d\n\n\tif config.MaxRetries <= 0 \x7b\n\t\tt.Error(\"Expected max retries to be positive\")\n\t\x7d\n\x7d\n\n" ++
  (String.intercalate "\n\n" (m.endpoints.map generateEndpointTest)) ++
  "\n\nfunc TestErrorHandling(t *testing.T) \x7b\n\t// Test error handling with invalid configuration\n\tconfig := &Config\x7b\n\t\tBaseURL: \"invalid-url\",\n\t\x7d\n\tclient := NewApiClient(config)\n\t\n\tif client.TestConnection() \x7b\n\t\tt.Error(\"Expected connection test to fail with invalid URL\")\n\t\x7d\n\x7d"

/-- The text of `generateExampleUsage(parsedData)` of the Go emitter around
the per-endpoint blocks; reaching a block at all throws (see
`exampleBlock`), so this text is only produced for an endpoint-free
model. -/
def generateExampleUsageText (m : ApiData) (blocks : List String) : String :=
  "package main\n\nimport (\n\t\"fmt\"\n\t\"log\"\n)\n\nfunc main() \x7b\n\t// Initialize the API client\n\tclient := NewApiClient(nil)\n\t\n\tfmt.Println(\"üöÄ " ++
  (m.title) ++
  " API Client initialized\")\n\t\n\t// Test connection\n\tisConnected := client.TestConnection()\n\tif isConnected \x7b\n\t\tfmt.Println(\"üîó Connection test: ‚úÖ Success\")\n\t\x7d else \x7b\n\t\tfmt.Println(\"üîó Connection test: ‚ùå Failed\")\n\t\tfmt.Println(\"‚ùå Cannot connect to API. Please check your configuration.\")\n\t\treturn\n\t\x7d\n\n" ++
  (String.intercalate "\n\n" blocks) ++
  "\n\n\tfmt.Println(\"\\nüéâ Example completed successfully!\")\n\x7d"
/-- The per-endpoint block of the Go emitter's `generateExampleUsage`
interpolates `client.${endpoint.operationId.charAt(0).toUpperCase() +
operationId.slice(1)}()` in which `operationId` is an unbound identifier —
evaluating the block throws `ReferenceError: operationId is not defined`
for every endpoint. -/
def exampleBlock (_e : Endpoint) : Except String String :=
  .error "operationId is not defined"

/-- `generateExampleUsage(parsedData)` of the Go emitter: building the
per-endpoint blocks of `endpoints.slice(0, 2)` throws as soon as there is
at least one endpoint. -/
def generateExampleUsage (m : ApiData) : Except String String := do
  let blocks ← (m.endpoints.take 2).mapM exampleBlock
  .ok (generateExampleUsageText m blocks)

/-- `generateEnvExample(authMethod)` of the Go emitter (textually identical
to the Node emitter's). -/
def generateEnvExample (am : AuthMethod) : String :=
  let envContent :=
    "# " ++
    (if am.type = "none" then "No authentication required"
     else jsUpper am.type ++ " Authentication") ++
    "\n\n# API Configuration\nAPI_BASE_URL=https://api.example.com\nAPI_TIMEOUT=30000\nAPI_MAX_RETRIES=3\n\n"
  envContent ++
    (match am.type with
     | "bearer" =>
       "# Bearer Token Authentication\nAPI_AUTH_TYPE=bearer\nAPI_BEARER_TOKEN=your-bearer-token-here\n"
     | "apiKey" =>
       "# API Key Authentication\nAPI_AUTH_TYPE=apiKey\nAPI_KEY=your-api-key-here\nAPI_AUTH_HEADER_NAME=X-API-Key\n"
     | "basic" =>
       "# Basic Authentication\nAPI_AUTH_TYPE=basic\nAPI_USERNAME=your-username\nAPI_PASSWORD=your-password\n"
     | "oauth2" =>
       "# OAuth 2.0 Authentication\nAPI_AUTH_TYPE=oauth2\nAPI_ACCESS_TOKEN=your-access-token-here\n"
     | _ => "")

/-- `generateGoCode(parsedData, fileName)` of the Go emitter: the artifact
map in insertion order; `fileName` is never read.  Building
`example/main.go` throws a `ReferenceError` whenever the model has at
least one endpoint (see `exampleBlock`), in which case no artifact map is
returned at all. -/
def generateGoCode (m : ApiData) (_fileName : String) :
    Except String (List (String × String)) := do
  let ex ← generateExampleUsage m
  .ok [("go.mod", generateGoMod m.title),
       ("client.go", generateApiClient m),
       ("auth.go", generateAuthHandler m.authMethod),
       ("request.go", generateRequestHandler),
       ("errors.go", generateErrorHandler),
       ("config.go", generateConfig),
       ("models.go", generateModels),
       ("client_test.go", generateTests m),
       ("example/main.go", ex),
       (".env.example", generateEnvExample m.authMethod)]

end GoGen

/-! ### Java emitter (the Java generator file) -/

namespace JavaGen

/-- The `parameters` array built by `generateMethodParameters` of the Java
emitter. -/
def methodParameterList (params queryParams : List Param) (hasBody : Bool) :
    List String :=
  params.map (fun p => "String " ++ p.name) ++
  queryParams.map (fun p => "String " ++ p.name) ++
  (if hasBody then ["Object body"] else [])

/-- `generateMethodParameters(params, queryParams, hasBody)` of the Java
emitter. -/
def generateMethodParameters (params queryParams : List Param) (hasBody : Bool) :
    String :=
  String.intercalate ", " (methodParameterList params queryParams hasBody)

/-- The parameter list `generateMethodParameters` renders for an endpoint.
The emitted Java method declares it only when the first `()` of the
signature text is the method's own: the source splices the list with
`methodSignature.replace('()', ...)`, which rewrites the first
occurrence, so an earlier `()` inside the doc comment's free text
(summary/description) hijacks the splice and leaves the method's declared
list empty. -/
def declaredParams (e : Endpoint) : List String :=
  methodParameterList (pathParamsOf e) (queryParamsOf e) (hasBodyOf e)

/-- `generateEndpointMethod(endpoint)` of the Java emitter.  When the
endpoint has any parameter or a body, the parameter list is inserted by
`String.replace('()', ...)`, which rewrites the first occurrence of `()` in
the signature text. -/
def generateEndpointMethod (e : Endpoint) : String :=
  let params := pathParamsOf e
  let queryParams := queryParamsOf e
  let hasBody := hasBodyOf e
  let methodSignature :=
    "    /**\n     * " ++
    jsOrS (some e.summary) (jsOrS (some e.description) (e.method ++ " " ++ e.path)) ++
    "\n     * " ++
    (if e.description ≠ "" then "\n     * " ++ e.description else "") ++
    "\n     * @return ApiResponse API response\n     * @throws Exception if request fails\n     */\n    public ApiResponse " ++
    e.operationId ++ "() throws Exception \x7b"
  let methodSignature :=
    if params.length > 0 ∨ queryParams.length > 0 ∨ hasBody then
      jsReplaceFirst methodSignature "()"
        ("(" ++ generateMethodParameters params queryParams hasBody ++ ")")
    else methodSignature
  let urlBuilding :=
    "        String url = \"" ++ e.path ++ "\";" ++
    String.join (params.map fun p =>
      "\n        url = url.replace(\"\x7b" ++ p.name ++ "\x7d\", " ++ p.name ++ ");")
  let queryBuilding :=
    if queryParams.length > 0 then
      "\n        StringBuilder queryString = new StringBuilder();" ++
      String.join (queryParams.enum.map fun ip =>
        (if ip.1 = 0 then "\n        if (" ++ ip.2.name ++ " != null) \x7b"
         else "\n        \x7d else if (" ++ ip.2.name ++ " != null) \x7b") ++
        "\n            queryString.append(\"" ++ ip.2.name ++ "=\").append(" ++
        ip.2.name ++ ");") ++
      "\n        \x7d" ++
      "\n        if (queryString.length() > 0) \x7b" ++
      "\n            url += \"?\" + queryString.toString();" ++
      "\n        \x7d"
    else ""
  let bodyBuilding :=
    if hasBody then
      "\n        String requestBody = null;" ++
      "\n        if (body != null) \x7b" ++
      "\n            requestBody = objectMapper.writeValueAsString(body);" ++
      "\n        \x7d"
    else ""
  methodSignature ++ "\n" ++ urlBuilding ++ queryBuilding ++ bodyBuilding ++
    "\n\n        return requestHandler.makeRequest(httpClient, \"" ++ e.method ++
    "\", url, requestBody, authHandler.getAuthHeaders());\n    \x7d"
/-- `generatePomXml(title)` of the Java emitter. -/
def generatePomXml (title : String) : String :=
  "<?xml version=\"1.0\" encoding=\"UTF-8\"?>\n<project xmlns=\"http://maven.apache.org/POM/4.0.0\"\n         xmlns:xsi=\"http://www.w3.org/2001/XMLSchema-instance\"\n         xsi:schemaLocation=\"http://maven.apache.org/POM/4.0.0 \n         http://maven.apache.org/xsd/maven-4.0.0.xsd\">\n    <modelVersion>4.0.0</modelVersion>\n\n    <groupId>com.example</groupId>\n    <artifactId>" ++
  (sanitizeDash title) ++
  "-integration</artifactId>\n    <version>1.0.0</version>\n    <packaging>jar</packaging>\n\n    <name>" ++
  (title) ++
  " API Integration</name>\n    <description>Auto-generated integration client for " ++
  (title) ++
  "</description>\n\n    <properties>\n        <maven.compiler.source>11</maven.compiler.source>\n        <maven.compiler.target>11</maven.compiler.target>\n        <project.build.sourceEncoding>UTF-8</project.build.sourceEncoding>\n    </properties>\n\n    <dependencies>\n        <!-- HTTP Client -->\n        <dependency>\n            <groupId>com.squareup.okhttp3</groupId>\n            <artifactId>okhttp</artifactId>\n            <version>4.9.3</version>\n        </dependency>\n\n        <!-- JSON Processing -->\n        <dependency>\n            <groupId>com.fasterxml.jackson.core</groupId>\n            <artifactId>jackson-databind</artifactId>\n            <version>2.13.0</version>\n        </dependency>\n\n        <!-- Logging -->\n        <dependency>\n            <groupId>org.slf4j</groupId>\n            <artifactId>slf4j-api</artifactId>\n            <version>1.7.32</version>\n        </dependency>\n\n        <!-- Testing -->\n        <dependency>\n            <groupId>org.junit.jupiter</groupId>\n            <artifactId>junit-jupiter</artifactId>\n            <version>5.8.2</version>\n            <scope>test</scope>\n        </dependency>\n\n        <dependency>\n            <groupId>org.mockito</groupId>\n            <artifactId>mockito-core</artifactId>\n            <version>4.2.0</version>\n            <scope>test</scope>\n        </dependency>\n    </dependencies>\n\n    <build>\n        <plugins>\n            <plugin>\n                <groupId>org.apache.maven.plugins</groupId>\n                <artifactId>maven-compiler-plugin</artifactId>\n                <version>3.8.1</version>\n                <configuration>\n                    <source>11</source>\n                    <target>11</target>\n                </configuration>\n            </plugin>\n\n            <plugin>\n                <groupId>org.apache.maven.plugins</groupId>\n                <artifactId>maven-surefire-plugin</artifactId>\n                <version>2.22.2</version>\n            </plugin>\n        </plugins>\n    </build>\n</project>"

/-- `generateApiClient(parsedData)` of the Java emitter. -/
def generateApiClient (m : ApiData) : String :=
  "package com.example;\n\nimport com.example.auth.AuthHandler;\nimport com.example.config.Config;\nimport com.example.models.ApiResponse;\nimport com.example.utils.RequestHandler;\nimport com.example.utils.ErrorHandler;\nimport com.fasterxml.jackson.databind.ObjectMapper;\nimport okhttp3.OkHttpClient;\nimport java.util.concurrent.TimeUnit;\n\n/**\n * " ++
  (m.title) ++
  " API Client\n * Auto-generated integration client for " ++
  (m.title) ++
  "\n */\npublic class ApiClient \x7b\n    private final Config config;\n    private final AuthHandler authHandler;\n    private final RequestHandler requestHandler;\n    private final ErrorHandler errorHandler;\n    private final OkHttpClient httpClient;\n    private final ObjectMapper objectMapper;\n\n    public ApiClient() \x7b\n        this(new Config());\n    \x7d\n\n    public ApiClient(Config config) \x7b\n        this.config = config;\n        this.authHandler = new AuthHandler(config);\n        this.requestHandler = new RequestHandler(config);\n        this.errorHandler = new ErrorHandler();\n        this.objectMapper = new ObjectMapper();\n        \n        this.httpClient = new OkHttpClient.Builder()\n            .connectTimeout(config.getTimeout(), TimeUnit.MILLISECONDS)\n            .readTimeout(config.getTimeout(), TimeUnit.MILLISECONDS)\n            .writeTimeout(config.getTimeout(), TimeUnit.MILLISECONDS)\n            .build();\n    \x7d\n\n" ++
  (String.intercalate "\n\n" (m.endpoints.map generateEndpointMethod)) ++
  "\n\n    /**\n     * Test connection to the API\n     * @return boolean Connection status\n     */\n    public boolean testConnection() \x7b\n        try \x7b\n            ApiResponse response = requestHandler.makeRequest(httpClient, \"GET\", \"/\", null, null);\n            return response.getStatusCode() == 200;\n        \x7d catch (Exception e) \x7b\n            return false;\n        \x7d\n    \x7d\n\n    /**\n     * Get client configuration\n     * @return Config Current configuration\n     */\n    public Config getConfig() \x7b\n        return config;\n    \x7d\n\n    /**\n     * Close HTTP client resources\n     */\n    public void close() \x7b\n        if (httpClient != null) \x7b\n            httpClient.dispatcher().executorService().shutdown();\n            httpClient.connectionPool().evictAll();\n        \x7d\n    \x7d\n\x7d"

/-- `generateAuthHandler(authMethod)` of the Java emitter; the argument is unused by the template. -/
def generateAuthHandler (_authMethod : AuthMethod) : String :=
  "package com.example.auth;\n\nimport com.example.config.Config;\nimport java.util.HashMap;\nimport java.util.Map;\nimport java.util.Base64;\n\n/**\n * Authentication Handler\n * Handles different types of authentication for API requests\n */\npublic class AuthHandler \x7b\n    private final Config config;\n\n    public AuthHandler(Config config) \x7b\n        this.config = config;\n    \x7d\n\n    /**\n     * Get authentication headers based on configured auth method\n     * @return Map<String, String> Authentication headers\n     */\n    public Map<String, String> getAuthHeaders() \x7b\n        String authType = config.getAuthType();\n        \n        switch (authType) \x7b\n            case \"bearer\":\n                return getBearerHeaders();\n            case \"apiKey\":\n                return getApiKeyHeaders();\n            case \"basic\":\n                return getBasicHeaders();\n            case \"oauth2\":\n                return getOAuth2Headers();\n            default:\n                return new HashMap<>();\n        \x7d\n    \x7d\n\n    /**\n     * Get Bearer token headers\n     * @return Map<String, String> Bearer token headers\n     */\n    private Map<String, String> getBearerHeaders() \x7b\n        Map<String, String> headers = new HashMap<>();\n        String token = config.getApiKey() != null ? config.getApiKey() : config.getBearerToken();\n        \n        if (token == null || token.isEmpty()) \x7b\n            throw new RuntimeException(\"Bearer token is required but not provided\");\n        \x7d\n        \n        headers.put(\"Authorization\", \"Bearer \" + token);\n        return headers;\n    \x7d\n\n    /**\n     * Get API Key headers\n     * @return Map<String, String> API Key headers\n     */\n    private Map<String, String> getApiKeyHeaders() \x7b\n        Map<String, String> headers = new HashMap<>();\n        String apiKey = config.getApiKey();\n        \n        if (apiKey == null || apiKey.isEmpty()) \x7b\n            throw new RuntimeException(\"API Key is required but not provided\");\n        \x7d\n        \n        String headerName = config.getAuthHeaderName() != null ? config.getAuthHeaderName() : \"X-API-Key\";\n        headers.put(headerName, apiKey);\n        return headers;\n    \x7d\n\n    /**\n     * Get Basic authentication headers\n     * @return Map<String, String> Basic auth headers\n     */\n    private Map<String, String> getBasicHeaders() \x7b\n        Map<String, String> headers = new HashMap<>();\n        String username = config.getUsername();\n        String password = config.getPassword();\n        \n        if (username == null || password == null || username.isEmpty() || password.isEmpty()) \x7b\n            throw new RuntimeException(\"Username and password are required for Basic authentication\");\n        \x7d\n        \n        String credentials = username + \":\" + password;\n        String encodedCredentials = Base64.getEncoder().encodeToString(credentials.getBytes());\n        headers.put(\"Authorization\", \"Basic \" + encodedCredentials);\n        return headers;\n    \x7d\n\n    /**\n     * Get OAuth2 headers\n     * @return Map<String, String> OAuth2 headers\n     */\n    private Map<String, String> getOAuth2Headers() \x7b\n        Map<String, String> headers = new HashMap<>();\n        String accessToken = config.getAccessToken();\n        \n        if (accessToken == null || accessToken.isEmpty()) \x7b\n            throw new RuntimeException(\"OAuth2 access token is required but not provided\");\n        \x7d\n        \n        headers.put(\"Authorization\", \"Bearer \" + accessToken);\n        return headers;\n    \x7d\n\x7d"

/-- `generateRequestHandler()` of the Java emitter: the constant request module whose retry loop is modelled by `makeRequest`. -/
def generateRequestHandler  : String :=
  "package com.example.utils;\n\nimport com.example.config.Config;\nimport com.example.models.ApiResponse;\nimport okhttp3.*;\nimport java.io.IOException;\nimport java.util.Map;\nimport java.util.concurrent.TimeUnit;\n\n/**\n * Request Handler\n * Handles HTTP requests with retry logic and proper error handling\n */\npublic class RequestHandler \x7b\n    private final Config config;\n\n    public RequestHandler(Config config) \x7b\n        this.config = config;\n    \x7d\n\n    /**\n     * Make HTTP request with retry logic\n     * @param client OkHttpClient instance\n     * @param method HTTP method\n     * @param url Request URL\n     * @param body Request body\n     * @param headers Request headers\n     * @return ApiResponse Response data\n     * @throws Exception if request fails\n     */\n    public ApiResponse makeRequest(OkHttpClient client, String method, String url, \n                                 String body, Map<String, String> headers) throws Exception \x7b\n        int maxRetries = config.getMaxRetries();\n        Exception lastException = null;\n\n        for (int attempt = 1; attempt <= maxRetries; attempt++) \x7b\n            try \x7b\n                return executeRequest(client, method, url, body, headers);\n            \x7d catch (Exception e) \x7b\n                lastException = e;\n                \n                // Don\x27t retry on client errors (4xx) except 429 (rate limit)\n                if (e instanceof ApiException) \x7b\n                    ApiException apiException = (ApiException) e;\n                    if (apiException.getStatusCode() >= 400 && apiException.getStatusCode() < 500 \n                        && apiException.getStatusCode() != 429) \x7b\n                        throw e;\n                    \x7d\n                \x7d\n                \n                // Don\x27t retry on server errors (5xx) if it\x27s the last attempt\n                if (attempt == maxRetries) \x7b\n                    throw e;\n                \x7d\n                \n                // Wait before retrying (exponential backoff)\n                long delay = Math.min(1000L * (long) Math.pow(2, attempt - 1), 10000L);\n                Thread.sleep(delay);\n            \x7d\n        \x7d\n\n        throw lastException;\n    \x7d\n\n    /**\n     * Execute single HTTP request\n     * @param client OkHttpClient instance\n     * @param method HTTP method\n     * @param url Request URL\n     * @param body Request body\n     * @param headers Request headers\n     * @return ApiResponse Response data\n     * @throws Exception if request fails\n     */\n    private ApiResponse executeRequest(OkHttpClient client, String method, String url, \n                                     String body, Map<String, String> headers) throws Exception \x7b\n        Request.Builder requestBuilder = new Request.Builder()\n            .url(config.getBaseUrl() + url);\n\n        // Add headers\n        if (headers != null) \x7b\n            for (Map.Entry<String, String> entry : headers.entrySet()) \x7b\n                requestBuilder.addHeader(entry.getKey(), entry.getValue());\n            \x7d\n        \x7d\n\n        // Add request body\n        if (body != null && !method.equals(\"GET\") && !method.equals(\"DELETE\")) \x7b\n            RequestBody requestBody = RequestBody.create(body, MediaType.get(\"application/json\"));\n            requestBuilder.method(method, requestBody);\n        \x7d else \x7b\n            requestBuilder.method(method, null);\n        \x7d\n\n        Request request = requestBuilder.build();\n\n        try (Response response = client.newCall(request).execute()) \x7b\n            String responseBody = response.body() != null ? response.body().string() : \"\";\n            \n            if (!response.isSuccessful()) \x7b\n                throw new ApiException(response.code(), response.message(), responseBody);\n            \x7d\n            \n            return new ApiResponse(response.code(), response.message(), responseBody);\n        \x7d catch (IOException e) \x7b\n            throw new RuntimeException(\"Request failed: \" + e.getMessage(), e);\n        \x7d\n    \x7d\n\x7d"

/-- `generateErrorHandler()` of the Java emitter. -/
def generateErrorHandler  : String :=
  "package com.example.utils;\n\n/**\n * Error Handler\n * Handles and formats API errors consistently\n */\npublic class ErrorHandler \x7b\n    \n    /**\n     * Custom API Exception\n     */\n    public static class ApiException extends RuntimeException \x7b\n        private final int statusCode;\n        private final String responseBody;\n\n        public ApiException(int statusCode, String message, String responseBody) \x7b\n            super(message);\n            this.statusCode = statusCode;\n            this.responseBody = responseBody;\n        \x7d\n\n        public int getStatusCode() \x7b\n            return statusCode;\n        \x7d\n\n        public String getResponseBody() \x7b\n            return responseBody;\n        \x7d\n\n        @Override\n        public String toString() \x7b\n            return String.format(\"ApiException\x7bstatusCode=%d, message=\x27%s\x27, responseBody=\x27%s\x27\x7d\", \n                               statusCode, getMessage(), responseBody);\n        \x7d\n    \x7d\n\x7d"

/-- `generateConfig()` of the Java emitter. -/
def generateConfig  : String :=
  "package com.example.config;\n\nimport java.io.IOException;\nimport java.io.InputStream;\nimport java.util.Properties;\n\n/**\n * Configuration Manager\n * Manages API client configuration with properties file support\n */\npublic class Config \x7b\n    private String baseUrl;\n    private int timeout;\n    private int maxRetries;\n    private String authType;\n    private String apiKey;\n    private String bearerToken;\n    private String username;\n    private String password;\n    private String accessToken;\n    private String authHeaderName;\n\n    public Config() \x7b\n        loadProperties();\n        setDefaults();\n    \x7d\n\n    /**\n     * Load configuration from properties file\n     */\n    private void loadProperties() \x7b\n        Properties props = new Properties();\n        try (InputStream input = getClass().getClassLoader().getResourceAsStream(\"application.properties\")) \x7b\n            if (input != null) \x7b\n                props.load(input);\n                \n                this.baseUrl = props.getProperty(\"api.baseUrl\", \"\");\n                this.timeout = Integer.parseInt(props.getProperty(\"api.timeout\", \"30000\"));\n                this.maxRetries = Integer.parseInt(props.getProperty(\"api.maxRetries\", \"3\"));\n                this.authType = props.getProperty(\"api.authType\", \"none\");\n                this.apiKey = props.getProperty(\"api.apiKey\");\n                this.bearerToken = props.getProperty(\"api.bearerToken\");\n                this.username = props.getProperty(\"api.username\");\n                this.password = props.getProperty(\"api.password\");\n                this.accessToken = props.getProperty(\"api.accessToken\");\n                this.authHeaderName = props.getProperty(\"api.authHeaderName\");\n            \x7d\n        \x7d catch (IOException e) \x7b\n            // Use defaults if properties file not found\n        \x7d\n    \x7d\n\n    /**\n     * Set default values\n     */\n    private void setDefaults() \x7b\n        if (this.timeout <= 0) this.timeout = 30000;\n        if (this.maxRetries <= 0) this.maxRetries = 3;\n        if (this.authType == null) this.authType = \"none\";\n    \x7d\n\n    // Getters\n    public String getBaseUrl() \x7b return baseUrl; \x7d\n    public int getTimeout() \x7b return timeout; \x7d\n    public int getMaxRetries() \x7b return maxRetries; \x7d\n    public String getAuthType() \x7b return authType; \x7d\n    public String getApiKey() \x7b return apiKey; \x7d\n    public String getBearerToken() \x7b return bearerToken; \x7d\n    public String getUsername() \x7b return username; \x7d\n    public String getPassword() \x7b return password; \x7d\n    public String getAccessToken() \x7b return accessToken; \x7d\n    public String getAuthHeaderName() \x7b return authHeaderName; \x7d\n\n    // Setters\n    public void setBaseUrl(String baseUrl) \x7b this.baseUrl = baseUrl; \x7d\n    public void setTimeout(int timeout) \x7b this.timeout = timeout; \x7d\n    public void setMaxRetries(int maxRetries) \x7b this.maxRetries = maxRetries; \x7d\n    public void setAuthType(String authType) \x7b this.authType = authType; \x7d\n    public void setApiKey(String apiKey) \x7b this.apiKey = apiKey; \x7d\n    public void setBearerToken(String bearerToken) \x7b this.bearerToken = bearerToken; \x7d\n    public void setUsername(String username) \x7b this.username = username; \x7d\n    public void setPassword(String password) \x7b this.password = password; \x7d\n    public void setAccessToken(String accessToken) \x7b this.accessToken = accessToken; \x7d\n    public void setAuthHeaderName(String authHeaderName) \x7b this.authHeaderName = authHeaderName; \x7d\n\x7d"

/-- `generateApiResponse()` of the Java emitter. -/
def generateApiResponse  : String :=
  "package com.example.models;\n\n/**\n * API Response Model\n * Represents a standard API response\n */\npublic class ApiResponse \x7b\n    private final int statusCode;\n    private final String statusMessage;\n    private final String body;\n\n    public ApiResponse(int statusCode, String statusMessage, String body) \x7b\n        this.statusCode = statusCode;\n        this.statusMessage = statusMessage;\n        this.body = body;\n    \x7d\n\n    public int getStatusCode() \x7b\n        return statusCode;\n    \x7d\n\n    public String getStatusMessage() \x7b\n        return statusMessage;\n    \x7d\n\n    public String getBody() \x7b\n        return body;\n    \x7d\n\n    @Override\n    public String toString() \x7b\n        return String.format(\"ApiResponse\x7bstatusCode=%d, statusMessage=\x27%s\x27, body=\x27%s\x27\x7d\", \n                           statusCode, statusMessage, body);\n    \x7d\n\x7d"

/-- `generateEndpointTest(endpoint)` of the Java emitter. -/
def generateEndpointTest (e : Endpoint) : String :=
  "    @Test\n    void test" ++
  (jsCapFirst e.operationId) ++
  "() \x7b\n        // This is a basic test structure\n        // In a real implementation, you would mock the HTTP client\n        assertNotNull(apiClient);\n        // Add more specific tests based on the endpoint requirements\n    \x7d"

/-- `generateTests(parsedData)` of the Java emitter. -/
def generateTests (m : ApiData) : String :=
  "package com.example;\n\nimport com.example.models.ApiResponse;\nimport org.junit.jupiter.api.BeforeEach;\nimport org.junit.jupiter.api.Test;\nimport org.junit.jupiter.api.extension.ExtendWith;\nimport org.mockito.Mock;\nimport org.mockito.junit.jupiter.MockitoExtension;\nimport static org.junit.jupiter.api.Assertions.*;\nimport static org.mockito.Mockito.*;\n\n@ExtendWith(MockitoExtension.class)\nclass ApiClientTest \x7b\n    \n    private ApiClient apiClient;\n    \n    @BeforeEach\n    void setUp() \x7b\n        apiClient = new ApiClient();\n    \x7d\n\n    @Test\n    void testConfiguration() \x7b\n        Config config = apiClient.getConfig();\n        assertNotNull(config);\n        assertEquals(\"none\", config.getAuthType());\n    \x7d\n\n" ++
  (String.intercalate "\n\n" (m.endpoints.map generateEndpointTest)) ++
  "\n\n    @Test\n    void testErrorHandling() \x7b\n        // Test error handling with invalid configuration\n        Config config = new Config();\n        config.setBaseUrl(\"invalid-url\");\n        ApiClient client = new ApiClient(config);\n        \n        assertFalse(client.testConnection());\n    \x7d\n\x7d"

/-- The per-endpoint block of the Java emitter's `generateExampleUsage`. -/
def exampleBlock (e : Endpoint) : String :=
  "            // Example: " ++
  (e.method) ++
  " " ++
  (e.path) ++
  "\n            try \x7b\n                System.out.println(\"\\nüì° Testing " ++
  (e.operationId) ++
  "...\");\n                ApiResponse " ++
  (e.operationId) ++
  "Result = client." ++
  (e.operationId) ++
  "();\n                System.out.println(\"‚úÖ " ++
  (e.operationId) ++
  " result: \" + " ++
  (e.operationId) ++
  "Result);\n            \x7d catch (Exception e) \x7b\n                System.err.println(\"‚ùå " ++
  (e.operationId) ++
  " failed: \" + e.getMessage());\n            \x7d"

/-- `generateExampleUsage(parsedData)` of the Java emitter. -/
def generateExampleUsage (m : ApiData) : String :=
  "package com.example;\n\nimport com.example.models.ApiResponse;\n\n/**\n * Example usage of " ++
  (m.title) ++
  " API Client\n */\npublic class ExampleUsage \x7b\n    \n    public static void main(String[] args) \x7b\n        try \x7b\n            // Initialize the API client\n            ApiClient client = new ApiClient();\n            \n            System.out.println(\"üöÄ " ++
  (m.title) ++
  " API Client initialized\");\n            \n            // Test connection\n            boolean isConnected = client.testConnection();\n            System.out.println(\"üîó Connection test: \" + (isConnected ? \"‚úÖ Success\" : \"‚ùå Failed\"));\n            \n            if (!isConnected) \x7b\n                System.err.println(\"‚ùå Cannot connect to API. Please check your configuration.\");\n                return;\n            \x7d\n\n" ++
  (String.intercalate "\n\n" ((m.endpoints.take 2).map exampleBlock)) ++
  "\n\n            System.out.println(\"\\nüéâ Example completed successfully!\");\n            \n            // Clean up resources\n            client.close();\n            \n        \x7d catch (Exception e) \x7b\n            System.err.println(\"üí• Example failed: \" + e.getMessage());\n            e.printStackTrace();\n            System.exit(1);\n        \x7d\n    \x7d\n\x7d"
/-- `generateApplicationProperties(authMethod)` of the Java emitter. -/
def generateApplicationProperties (am : AuthMethod) : String :=
  let properties :=
    "# " ++
    (if am.type = "none" then "No authentication required"
     else jsUpper am.type ++ " Authentication") ++
    "\n\n# API Configuration\napi.baseUrl=https://api.example.com\napi.timeout=30000\napi.maxRetries=3\n\n"
  properties ++
    (match am.type with
     | "bearer" =>
       "# Bearer Token Authentication\napi.authType=bearer\napi.bearerToken=your-bearer-token-here\n"
     | "apiKey" =>
       "# API Key Authentication\napi.authType=apiKey\napi.apiKey=your-api-key-here\napi.authHeaderName=X-API-Key\n"
     | "basic" =>
       "# Basic Authentication\napi.authType=basic\napi.username=your-username\napi.password=your-password\n"
     | "oauth2" =>
       "# OAuth 2.0 Authentication\napi.authType=oauth2\napi.accessToken=your-access-token-here\n"
     | _ => "")

/-- `generateJavaCode(parsedData, fileName)` of the Java emitter: the
artifact map in insertion order; `fileName` is never read. -/
def generateJavaCode (m : ApiData) (_fileName : String) : List (String × String) :=
  [("pom.xml", generatePomXml m.title),
   ("src/main/java/com/example/ApiClient.java", generateApiClient m),
   ("src/main/java/com/example/auth/AuthHandler.java", generateAuthHandler m.authMethod),
   ("src/main/java/com/example/utils/RequestHandler.java", generateRequestHandler),
   ("src/main/java/com/example/utils/ErrorHandler.java", generateErrorHandler),
   ("src/main/java/com/example/config/Config.java", generateConfig),
   ("src/main/java/com/example/models/ApiResponse.java", generateApiResponse),
   ("src/test/java/com/example/ApiClientTest.java", generateTests m),
   ("src/main/java/com/example/ExampleUsage.java", generateExampleUsage m),
   ("src/main/resources/application.properties", generateApplicationProperties m.authMethod)]

end JavaGen

/-! ### PHP emitter (the PHP generator file) -/

namespace PhpGen

/-- The `parameters` array built by `generateMethodParameters` of the PHP
emitter. -/
def methodParameterList (params queryParams : List Param) (hasBody : Bool) :
    List String :=
  params.map (fun p => "?string $" ++ p.name ++ " = null") ++
  queryParams.map (fun p => "?string $" ++ p.name ++ " = null") ++
  (if hasBody then ["?array $body = null"] else [])

/-- `generateMethodParameters(params, queryParams, hasBody)` of the PHP
emitter. -/
def generateMethodParameters (params queryParams : List Param) (hasBody : Bool) :
    String :=
  String.intercalate ", " (methodParameterList params queryParams hasBody)

/-- The parameter list `generateMethodParameters` renders for an endpoint;
the PHP emitter appends it in parentheses directly after the `()` already
present in the signature text. -/
def declaredParams (e : Endpoint) : List String :=
  methodParameterList (pathParamsOf e) (queryParamsOf e) (hasBodyOf e)

/-- `generateEndpointMethod(endpoint)` of the PHP emitter. -/
def generateEndpointMethod (e : Endpoint) : String :=
  let params := pathParamsOf e
  let queryParams := queryParamsOf e
  let hasBody := hasBodyOf e
  let methodSignature :=
    "    /**\n     * " ++
    jsOrS (some e.summary) (jsOrS (some e.description) (e.method ++ " " ++ e.path)) ++
    "\n     * " ++
    (if e.description ≠ "" then "\n     * " ++ e.description else "") ++
    "\n     * @return ApiResponse API response\n     * @throws \\Exception if request fails\n     */\n    public function " ++
    e.operationId ++ "()"
  let methodSignature := methodSignature ++
    (if params.length > 0 ∨ queryParams.length > 0 ∨ hasBody then
      "(" ++ generateMethodParameters params queryParams hasBody ++ ")"
     else "")
  let methodSignature := methodSignature ++ ": ApiResponse"
  let urlBuilding :=
    "        $url = \x27" ++ e.path ++ "\x27;" ++
    String.join (params.map fun p =>
      "\n        $url = str_replace(\x27\x7b" ++ p.name ++ "\x7d\x27, $" ++
      p.name ++ ", $url);")
  let queryBuilding :=
    if queryParams.length > 0 then
      "\n        $queryParams = [];" ++
      String.join (queryParams.map fun p =>
        "\n        if ($" ++ p.name ++ " !== null) \x7b" ++
        "\n            $queryParams[\x27" ++ p.name ++ "\x27] = $" ++ p.name ++ ";" ++
        "\n        \x7d") ++
      "\n        if (!empty($queryParams)) \x7b" ++
      "\n            $url .= \x27?\x27 . http_build_query($queryParams);" ++
      "\n        \x7d"
    else ""
  let bodyBuilding :=
    if hasBody then
      "\n        $requestBody = null;" ++
      "\n        if ($body !== null) \x7b" ++
      "\n            $requestBody = json_encode($body);" ++
      "\n        \x7d"
    else ""
  methodSignature ++ "\n    \x7b\n" ++ urlBuilding ++ queryBuilding ++ bodyBuilding ++
    "\n\n        return $this->requestHandler->makeRequest(\n            $this->httpClient,\n            \x27" ++
    e.method ++
    "\x27,\n            $url,\n            $requestBody,\n            $this->authHandler->getAuthHeaders()\n        );\n    \x7d"
/-- `generateComposerJson(title)` of the PHP emitter. -/
def generateComposerJson (title : String) : String :=
  "\x7b\n    \"name\": \"example/" ++
  (sanitizeDash title) ++
  "-integration\",\n    \"description\": \"Auto-generated integration client for " ++
  (title) ++
  "\",\n    \"type\": \"library\",\n    \"license\": \"MIT\",\n    \"authors\": [\n        \x7b\n            \"name\": \"API Code Generator\",\n            \"email\": \"generator@example.com\"\n        \x7d\n    ],\n    \"require\": \x7b\n        \"php\": \">=7.4\",\n        \"guzzlehttp/guzzle\": \"^7.0\",\n        \"vlucas/phpdotenv\": \"^5.0\"\n    \x7d,\n    \"require-dev\": \x7b\n        \"phpunit/phpunit\": \"^9.0\",\n        \"mockery/mockery\": \"^1.0\"\n    \x7d,\n    \"autoload\": \x7b\n        \"psr-4\": \x7b\n            \"Example\\\\\": \"src/\"\n        \x7d\n    \x7d,\n    \"autoload-dev\": \x7b\n        \"psr-4\": \x7b\n            \"Tests\\\\\": \"tests/\"\n        \x7d\n    \x7d,\n    \"scripts\": \x7b\n        \"test\": \"phpunit\",\n        \"test:coverage\": \"phpunit --coverage-html coverage\"\n    \x7d\n\x7d"

/-- `generateApiClient(parsedData)` of the PHP emitter. -/
def generateApiClient (m : ApiData) : String :=
  "<?php\n\nnamespace Example;\n\nuse Example\\Auth\\AuthHandler;\nuse Example\\Config\\Config;\nuse Example\\Models\\ApiResponse;\nuse Example\\Utils\\RequestHandler;\nuse Example\\Utils\\ErrorHandler;\nuse GuzzleHttp\\Client;\nuse GuzzleHttp\\Exception\\GuzzleException;\n\n/**\n * " ++
  (m.title) ++
  " API Client\n * Auto-generated integration client for " ++
  (m.title) ++
  "\n */\nclass ApiClient\n\x7b\n    private Config $config;\n    private AuthHandler $authHandler;\n    private RequestHandler $requestHandler;\n    private ErrorHandler $errorHandler;\n    private Client $httpClient;\n\n    public function __construct(array $config = [])\n    \x7b\n        $this->config = new Config($config);\n        $this->authHandler = new AuthHandler($this->config);\n        $this->requestHandler = new RequestHandler($this->config);\n        $this->errorHandler = new ErrorHandler();\n        \n        $this->httpClient = new Client([\n            \x27base_uri\x27 => $this->config->getBaseUrl(),\n            \x27timeout\x27 => $this->config->getTimeout(),\n            \x27headers\x27 => [\n                \x27Content-Type\x27 => \x27application/json\x27,\n                \x27User-Agent\x27 => \x27" ++
  (m.title) ++
  "-Integration/1.0.0\x27\n            ]\n        ]);\n    \x7d\n\n" ++
  (String.intercalate "\n\n" (m.endpoints.map generateEndpointMethod)) ++
  "\n\n    /**\n     * Test connection to the API\n     * @return bool Connection status\n     */\n    public function testConnection(): bool\n    \x7b\n        try \x7b\n            $response = $this->requestHandler->makeRequest(\n                $this->httpClient,\n                \x27GET\x27,\n                \x27/\x27,\n                null,\n                $this->authHandler->getAuthHeaders()\n            );\n            return $response->getStatusCode() === 200;\n        \x7d catch (\\Exception $e) \x7b\n            return false;\n        \x7d\n    \x7d\n\n    /**\n     * Get client configuration\n     * @return Config Current configuration\n     */\n    public function getConfig(): Config\n    \x7b\n        return $this->config;\n    \x7d\n\x7d"

/-- `generateAuthHandler(authMethod)` of the PHP emitter; the argument is unused by the template. -/
def generateAuthHandler (_authMethod : AuthMethod) : String :=
  "<?php\n\nnamespace Example\\Auth;\n\nuse Example\\Config\\Config;\n\n/**\n * Authentication Handler\n * Handles different types of authentication for API requests\n */\nclass AuthHandler\n\x7b\n    private Config $config;\n\n    public function __construct(Config $config)\n    \x7b\n        $this->config = $config;\n    \x7d\n\n    /**\n     * Get authentication headers based on configured auth method\n     * @return array Authentication headers\n     */\n    public function getAuthHeaders(): array\n    \x7b\n        $authType = $this->config->getAuthType();\n        \n        switch ($authType) \x7b\n            case \x27bearer\x27:\n                return $this->getBearerHeaders();\n            case \x27apiKey\x27:\n                return $this->getApiKeyHeaders();\n            case \x27basic\x27:\n                return $this->getBasicHeaders();\n            case \x27oauth2\x27:\n                return $this->getOAuth2Headers();\n            default:\n                return [];\n        \x7d\n    \x7d\n\n    /**\n     * Get Bearer token headers\n     * @return array Bearer token headers\n     */\n    private function getBearerHeaders(): array\n    \x7b\n        $token = $this->config->getApiKey() ?: $this->config->getBearerToken();\n        \n        if (empty($token)) \x7b\n            throw new \\RuntimeException(\x27Bearer token is required but not provided\x27);\n        \x7d\n        \n        return [\n            \x27Authorization\x27 => \x27Bearer \x27 . $token\n        ];\n    \x7d\n\n    /**\n     * Get API Key headers\n     * @return array API Key headers\n     */\n    private function getApiKeyHeaders(): array\n    \x7b\n        $apiKey = $this->config->getApiKey();\n        \n        if (empty($apiKey)) \x7b\n            throw new \\RuntimeException(\x27API Key is required but not provided\x27);\n        \x7d\n        \n        $headerName = $this->config->getAuthHeaderName() ?: \x27X-API-Key\x27;\n        return [\n            $headerName => $apiKey\n        ];\n    \x7d\n\n    /**\n     * Get Basic authentication headers\n     * @return array Basic auth headers\n     */\n    private function getBasicHeaders(): array\n    \x7b\n        $username = $this->config->getUsername();\n        $password = $this->config->getPassword();\n        \n        if (empty($username) || empty($password)) \x7b\n            throw new \\RuntimeException(\x27Username and password are required for Basic authentication\x27);\n        \x7d\n        \n        $credentials = base64_encode($username . \x27:\x27 . $password);\n        return [\n            \x27Authorization\x27 => \x27Basic \x27 . $credentials\n        ];\n    \x7d\n\n    /**\n     * Get OAuth2 headers\n     * @return array OAuth2 headers\n     */\n    private function getOAuth2Headers(): array\n    \x7b\n        $accessToken = $this->config->getAccessToken();\n        \n        if (empty($accessToken)) \x7b\n            throw new \\RuntimeException(\x27OAuth2 access token is required but not provided\x27);\n        \x7d\n        \n        return [\n            \x27Authorization\x27 => \x27Bearer \x27 . $accessToken\n        ];\n    \x7d\n\x7d"

/-- `generateRequestHandler()` of the PHP emitter: the constant request module whose retry loop is modelled by `makeRequest`. -/
def generateRequestHandler  : String :=
  "<?php\n\nnamespace Example\\Utils;\n\nuse Example\\Config\\Config;\nuse Example\\Models\\ApiResponse;\nuse GuzzleHttp\\Client;\nuse GuzzleHttp\\Exception\\GuzzleException;\n\n/**\n * Request Handler\n * Handles HTTP requests with retry logic and proper error handling\n */\nclass RequestHandler\n\x7b\n    private Config $config;\n\n    public function __construct(Config $config)\n    \x7b\n        $this->config = $config;\n    \x7d\n\n    /**\n     * Make HTTP request with retry logic\n     * @param Client $client Guzzle HTTP client\n     * @param string $method HTTP method\n     * @param string $url Request URL\n     * @param string|null $body Request body\n     * @param array $headers Request headers\n     * @return ApiResponse Response data\n     * @throws \\Exception if request fails\n     */\n    public function makeRequest(Client $client, string $method, string $url, \n                              ?string $body, array $headers): ApiResponse\n    \x7b\n        $maxRetries = $this->config->getMaxRetries();\n        $lastException = null;\n\n        for ($attempt = 1; $attempt <= $maxRetries; $attempt++) \x7b\n            try \x7b\n                return $this->executeRequest($client, $method, $url, $body, $headers);\n            \x7d catch (\\Exception $e) \x7b\n                $lastException = $e;\n                \n                // Don\x27t retry on client errors (4xx) except 429 (rate limit)\n                if ($e instanceof ApiException) \x7b\n                    $apiException = $e;\n                    if ($apiException->getStatusCode() >= 400 && $apiException->getStatusCode() < 500 \n                        && $apiException->getStatusCode() !== 429) \x7b\n                        throw $e;\n                    \x7d\n                \x7d\n                \n                // Don\x27t retry on server errors (5xx) if it\x27s the last attempt\n                if ($attempt === $maxRetries) \x7b\n                    throw $e;\n                \x7d\n                \n                // Wait before retrying (exponential backoff)\n                $delay = min(1000 * pow(2, $attempt - 1), 10000);\n                usleep($delay * 1000);\n            \x7d\n        \x7d\n\n        throw $lastException;\n    \x7d\n\n    /**\n     * Execute single HTTP request\n     * @param Client $client Guzzle HTTP client\n     * @param string $method HTTP method\n     * @param string $url Request URL\n     * @param string|null $body Request body\n     * @param array $headers Request headers\n     * @return ApiResponse Response data\n     * @throws \\Exception if request fails\n     */\n    private function executeRequest(Client $client, string $method, string $url, \n                                  ?string $body, array $headers): ApiResponse\n    \x7b\n        $options = [\n            \x27headers\x27 => array_merge([\n                \x27Content-Type\x27 => \x27application/json\x27\n            ], $headers)\n        ];\n\n        if ($body !== null && !in_array($method, [\x27GET\x27, \x27DELETE\x27])) \x7b\n            $options[\x27body\x27] = $body;\n        \x7d\n\n        try \x7b\n            $response = $client->request($method, $url, $options);\n            $responseBody = $response->getBody()->getContents();\n            \n            return new ApiResponse(\n                $response->getStatusCode(),\n                $response->getReasonPhrase(),\n                $responseBody\n            );\n        \x7d catch (GuzzleException $e) \x7b\n            if ($e->hasResponse()) \x7b\n                $response = $e->getResponse();\n                throw new ApiException(\n                    $response->getStatusCode(),\n                    $response->getReasonPhrase(),\n                    $response->getBody()->getContents()\n                );\n            \x7d\n            throw new \\RuntimeException(\x27Request failed: \x27 . $e->getMessage(), 0, $e);\n        \x7d\n    \x7d\n\x7d"

/-- `generateErrorHandler()` of the PHP emitter. -/
def generateErrorHandler  : String :=
  "<?php\n\nnamespace Example\\Utils;\n\n/**\n * Error Handler\n * Handles and formats API errors consistently\n */\nclass ErrorHandler\n\x7b\n    /**\n     * Custom API Exception\n     */\n    public static class ApiException extends \\RuntimeException\n    \x7b\n        private int $statusCode;\n        private string $responseBody;\n\n        public function __construct(int $statusCode, string $message, string $responseBody)\n        \x7b\n            parent::__construct($message);\n            $this->statusCode = $statusCode;\n            $this->responseBody = $responseBody;\n        \x7d\n\n        public function getStatusCode(): int\n        \x7b\n            return $this->statusCode;\n        \x7d\n\n        public function getResponseBody(): string\n        \x7b\n            return $this->responseBody;\n        \x7d\n\n        public function __toString(): string\n        \x7b\n            return sprintf(\n                \x27ApiException\x7bstatusCode=%d, message=\"%s\", responseBody=\"%s\"\x7d\x27,\n                $this->statusCode,\n                $this->getMessage(),\n                $this->responseBody\n            );\n        \x7d\n    \x7d\n\x7d"

/-- `generateConfig()` of the PHP emitter. -/
def generateConfig  : String :=
  "<?php\n\nnamespace Example\\Config;\n\nuse Dotenv\\Dotenv;\n\n/**\n * Configuration Manager\n * Manages API client configuration with environment variable support\n */\nclass Config\n\x7b\n    private string $baseUrl;\n    private int $timeout;\n    private int $maxRetries;\n    private string $authType;\n    private ?string $apiKey;\n    private ?string $bearerToken;\n    private ?string $username;\n    private ?string $password;\n    private ?string $accessToken;\n    private ?string $authHeaderName;\n\n    public function __construct(array $config = [])\n    \x7b\n        $this->loadEnvironmentVariables();\n        $this->loadConfig($config);\n        $this->setDefaults();\n    \x7d\n\n    /**\n     * Load environment variables\n     */\n    private function loadEnvironmentVariables(): void\n    \x7b\n        if (file_exists(\x27.env\x27)) \x7b\n            $dotenv = Dotenv::createImmutable(\x27.\x27);\n            $dotenv->load();\n        \x7d\n    \x7d\n\n    /**\n     * Load configuration from array\n     */\n    private function loadConfig(array $config): void\n    \x7b\n        $this->baseUrl = $config[\x27baseUrl\x27] ?? $_ENV[\x27API_BASE_URL\x27] ?? \x27\x27;\n        $this->timeout = (int) ($config[\x27timeout\x27] ?? $_ENV[\x27API_TIMEOUT\x27] ?? 30000);\n        $this->maxRetries = (int) ($config[\x27maxRetries\x27] ?? $_ENV[\x27API_MAX_RETRIES\x27] ?? 3);\n        $this->authType = $config[\x27authType\x27] ?? $_ENV[\x27API_AUTH_TYPE\x27] ?? \x27none\x27;\n        $this->apiKey = $config[\x27apiKey\x27] ?? $_ENV[\x27API_KEY\x27] ?? null;\n        $this->bearerToken = $config[\x27bearerToken\x27] ?? $_ENV[\x27API_BEARER_TOKEN\x27] ?? null;\n        $this->username = $config[\x27username\x27] ?? $_ENV[\x27API_USERNAME\x27] ?? null;\n        $this->password = $config[\x27password\x27] ?? $_ENV[\x27API_PASSWORD\x27] ?? null;\n        $this->accessToken = $config[\x27accessToken\x27] ?? $_ENV[\x27API_ACCESS_TOKEN\x27] ?? null;\n        $this->authHeaderName = $config[\x27authHeaderName\x27] ?? $_ENV[\x27API_AUTH_HEADER_NAME\x27] ?? null;\n    \x7d\n\n    /**\n     * Set default values\n     */\n    private function setDefaults(): void\n    \x7b\n        if ($this->timeout <= 0) $this->timeout = 30000;\n        if ($this->maxRetries <= 0) $this->maxRetries = 3;\n        if (empty($this->authType)) $this->authType = \x27none\x27;\n    \x7d\n\n    // Getters\n    public function getBaseUrl(): string \x7b return $this->baseUrl; \x7d\n    public function getTimeout(): int \x7b return $this->timeout; \x7d\n    public function getMaxRetries(): int \x7b return $this->maxRetries; \x7d\n    public function getAuthType(): string \x7b return $this->authType; \x7d\n    public function getApiKey(): ?string \x7b return $this->apiKey; \x7d\n    public function getBearerToken(): ?string \x7b return $this->bearerToken; \x7d\n    public function getUsername(): ?string \x7b return $this->username; \x7d\n    public function getPassword(): ?string \x7b return $this->password; \x7d\n    public function getAccessToken(): ?string \x7b return $this->accessToken; \x7d\n    public function getAuthHeaderName(): ?string \x7b return $this->authHeaderName; \x7d\n\n    // Setters\n    public function setBaseUrl(string $baseUrl): void \x7b $this->baseUrl = $baseUrl; \x7d\n    public function setTimeout(int $timeout): void \x7b $this->timeout = $timeout; \x7d\n    public function setMaxRetries(int $maxRetries): void \x7b $this->maxRetries = $maxRetries; \x7d\n    public function setAuthType(string $authType): void \x7b $this->authType = $authType; \x7d\n    public function setApiKey(?string $apiKey): void \x7b $this->apiKey = $apiKey; \x7d\n    public function setBearerToken(?string $bearerToken): void \x7b $this->bearerToken = $bearerToken; \x7d\n    public function setUsername(?string $username): void \x7b $this->username = $username; \x7d\n    public function setPassword(?string $password): void \x7b $this->password = $password; \x7d\n    public function setAccessToken(?string $accessToken): void \x7b $this->accessToken = $accessToken; \x7d\n    public function setAuthHeaderName(?string $authHeaderName): void \x7b $this->authHeaderName = $authHeaderName; \x7d\n\x7d"

/-- `generateApiResponse()` of the PHP emitter. -/
def generateApiResponse  : String :=
  "<?php\n\nnamespace Example\\Models;\n\n/**\n * API Response Model\n * Represents a standard API response\n */\nclass ApiResponse\n\x7b\n    private int $statusCode;\n    private string $statusMessage;\n    private string $body;\n\n    public function __construct(int $statusCode, string $statusMessage, string $body)\n    \x7b\n        $this->statusCode = $statusCode;\n        $this->statusMessage = $statusMessage;\n        $this->body = $body;\n    \x7d\n\n    public function getStatusCode(): int\n    \x7b\n        return $this->statusCode;\n    \x7d\n\n    public function getStatusMessage(): string\n    \x7b\n        return $this->statusMessage;\n    \x7d\n\n    public function getBody(): string\n    \x7b\n        return $this->body;\n    \x7d\n\n    public function getJsonBody(): array\n    \x7b\n        return json_decode($this->body, true) ?? [];\n    \x7d\n\n    public function __toString(): string\n    \x7b\n        return sprintf(\n            \x27ApiResponse\x7bstatusCode=%d, statusMessage=\"%s\", body=\"%s\"\x7d\x27,\n            $this->statusCode,\n            $this->statusMessage,\n            $this->body\n        );\n    \x7d\n\x7d"

/-- `generateEndpointTest(endpoint)` of the PHP emitter. -/
def generateEndpointTest (e : Endpoint) : String :=
  "    public function test" ++
  (jsCapFirst e.operationId) ++
  "()\n    \x7b\n        // This is a basic test structure\n        // In a real implementation, you would mock the HTTP client\n        $this->assertInstanceOf(ApiClient::class, $this->apiClient);\n        // Add more specific tests based on the endpoint requirements\n    \x7d"

/-- `generateTests(parsedData)` of the PHP emitter. -/
def generateTests (m : ApiData) : String :=
  "<?php\n\nnamespace Tests;\n\nuse Example\\ApiClient;\nuse Example\\Config\\Config;\nuse Example\\Models\\ApiResponse;\nuse PHPUnit\\Framework\\TestCase;\nuse Mockery;\n\nclass ApiClientTest extends TestCase\n\x7b\n    private ApiClient $apiClient;\n    \n    protected function setUp(): void\n    \x7b\n        $this->apiClient = new ApiClient();\n    \x7d\n\n    protected function tearDown(): void\n    \x7b\n        Mockery::close();\n    \x7d\n\n    public function testConfiguration()\n    \x7b\n        $config = $this->apiClient->getConfig();\n        $this->assertInstanceOf(Config::class, $config);\n        $this->assertEquals(\x27none\x27, $config->getAuthType());\n    \x7d\n\n" ++
  (String.intercalate "\n\n" (m.endpoints.map generateEndpointTest)) ++
  "\n\n    public function testErrorHandling()\n    \x7b\n        // Test error handling with invalid configuration\n        $config = new Config([\x27baseUrl\x27 => \x27invalid-url\x27]);\n        $client = new ApiClient($config);\n        \n        $this->assertFalse($client->testConnection());\n    \x7d\n\x7d"

/-- The per-endpoint block of the PHP emitter's `generateExampleUsage`. -/
def exampleBlock (e : Endpoint) : String :=
  "        // Example: " ++
  (e.method) ++
  " " ++
  (e.path) ++
  "\n        try \x7b\n            echo \"\\nðŸ“¡ Testing " ++
  (e.operationId) ++
  "...\\n\";\n            $" ++
  (e.operationId) ++
  "Result = $client->" ++
  (e.operationId) ++
  "();\n            echo \"âœ… " ++
  (e.operationId) ++
  " result: \" . $" ++
  (e.operationId) ++
  "Result . \"\\n\";\n        \x7d catch (Exception $e) \x7b\n            echo \"âŒ " ++
  (e.operationId) ++
  " failed: \" . $e->getMessage() . \"\\n\";\n        \x7d"

/-- `generateExampleUsage(parsedData)` of the PHP emitter. -/
def generateExampleUsage (m : ApiData) : String :=
  "<?php\n\nrequire_once __DIR__ . \x27/../vendor/autoload.php\x27;\n\nuse Example\\ApiClient;\nuse Example\\Models\\ApiResponse;\n\n/**\n * Example usage of " ++
  (m.title) ++
  " API Client\n */\nfunction main()\n\x7b\n    try \x7b\n        // Initialize the API client\n        $client = new ApiClient();\n        \n        echo \"ðŸš€ " ++
  (m.title) ++
  " API Client initialized\\n\";\n        \n        // Test connection\n        $isConnected = $client->testConnection();\n        echo \"ðŸ”— Connection test: \" . ($isConnected ? \"âœ… Success\" : \"âŒ Failed\") . \"\\n\";\n        \n        if (!$isConnected) \x7b\n            echo \"âŒ Cannot connect to API. Please check your configuration.\\n\";\n            return;\n        \x7d\n\n" ++
  (String.intercalate "\n\n" ((m.endpoints.take 2).map exampleBlock)) ++
  "\n\n        echo \"\\nðŸŽ‰ Example completed successfully!\\n\";\n        \n    \x7d catch (Exception $e) \x7b\n        echo \"ðŸ’¥ Example failed: \" . $e->getMessage() . \"\\n\";\n        exit(1);\n    \x7d\n\x7d\n\n// Run the example\nif (php_sapi_name() === \x27cli\x27) \x7b\n    main();\n\x7d"
/-- `generateEnvExample(authMethod)` of the PHP emitter (textually
identical to the Node emitter's). -/
def generateEnvExample (am : AuthMethod) : String :=
  let envContent :=
    "# " ++
    (if am.type = "none" then "No authentication required"
     else jsUpper am.type ++ " Authentication") ++
    "\n\n# API Configuration\nAPI_BASE_URL=https://api.example.com\nAPI_TIMEOUT=30000\nAPI_MAX_RETRIES=3\n\n"
  envContent ++
    (match am.type with
     | "bearer" =>
       "# Bearer Token Authentication\nAPI_AUTH_TYPE=bearer\nAPI_BEARER_TOKEN=your-bearer-token-here\n"
     | "apiKey" =>
       "# API Key Authentication\nAPI_AUTH_TYPE=apiKey\nAPI_KEY=your-api-key-here\nAPI_AUTH_HEADER_NAME=X-API-Key\n"
     | "basic" =>
       "# Basic Authentication\nAPI_AUTH_TYPE=basic\nAPI_USERNAME=your-username\nAPI_PASSWORD=your-password\n"
     | "oauth2" =>
       "# OAuth 2.0 Authentication\nAPI_AUTH_TYPE=oauth2\nAPI_ACCESS_TOKEN=your-access-token-here\n"
     | _ => "")

/-- `generatePhpCode(parsedData, fileName)` of the PHP emitter: the
artifact map in insertion order; `fileName` is never read. -/
def generatePhpCode (m : ApiData) (_fileName : String) : List (String × String) :=
  [("composer.json", generateComposerJson m.title),
   ("src/ApiClient.php", generateApiClient m),
   ("src/Auth/AuthHandler.php", generateAuthHandler m.authMethod),
   ("src/Utils/RequestHandler.php", generateRequestHandler),
   ("src/Utils/ErrorHandler.php", generateErrorHandler),
   ("src/Config/Config.php", generateConfig),
   ("src/Models/ApiResponse.php", generateApiResponse),
   ("tests/ApiClientTest.php", generateTests m),
   ("examples/basic-usage.php", generateExampleUsage m),
   (".env.example", generateEnvExample m.authMethod)]

end PhpGen

/-- Modelled from the spec: the generate entry point `generate(model,
target) -> Map<filePath, fileText>` with its per-target dispatch lives in
the HTTP server file, which is not among the sources; the spec fixes the
supported target set (Node.js, Java, PHP, Go) and the dispatch to the four
emitters, which are in the sources and embedded above.  The Go emitter's
result is an `Except` because building its example file can throw. -/
def generate (m : ApiData) (target : String) (fileName : String) :
    Option (Except String (List (String × String))) :=
  match target with
  | "node.js" => some (.ok (NodeGen.generateNodeCode m fileName))
  | "java" => some (.ok (JavaGen.generateJavaCode m fileName))
  | "php" => some (.ok (PhpGen.generatePhpCode m fileName))
  | "go" => some (GoGen.generateGoCode m fileName)
  | _ => none

/-! ## Auxiliary definitions for the claim theorems -/

/-- Is an attempt outcome a failure the emitted loop would retry
(any failure except a 4xx other than 429)? -/
def retryableFailure (o : AttemptOutcome) : Bool :=
  match o with
  | .success _ => false
  | .failure st _ => !nonRetryableStatus st

/-- What `makeRequest` surfaces for a given final-attempt outcome. -/
def surfaced (o : AttemptOutcome) : RetryResult :=
  match o with
  | .success d => .ok d
  | .failure st m => .err st m

/-- Modelled from the spec: `authMethod` derivation by scanning the declared
security schemes in the fixed priority order http-bearer, http-basic,
apiKey, oauth2 and returning the first match (spec §4.1); rendering of a
matched scheme reuses `Swagger.renderScheme` so that only the scan order is
compared. -/
def specPriorityAuthMethod (schemes : List (String × SwScheme)) : AuthMethod :=
  match schemes.find? (fun p => p.2.type = "http" ∧ p.2.scheme = some "bearer") with
  | some p => (Swagger.renderScheme p.2).getD noAuth
  | none =>
    match schemes.find? (fun p => p.2.type = "http" ∧ p.2.scheme = some "basic") with
    | some p => (Swagger.renderScheme p.2).getD noAuth
    | none =>
      match schemes.find? (fun p => p.2.type = "apiKey") with
      | some p => (Swagger.renderScheme p.2).getD noAuth
      | none =>
        match schemes.find? (fun p => p.2.type = "oauth2") with
        | some p => (Swagger.renderScheme p.2).getD noAuth
        | none => noAuth

/-- Placeholder endpoint used with `Option.getD` when naming a parser's
output in closed statements. -/
def fallbackEndpoint : Endpoint :=
  ⟨"", "", "", "", "", "", [], none, [], [], []⟩

/-- Placeholder parameter for `List.getD`. -/
def fallbackParam : Param :=
  ⟨"", "", false, "", "", none, none, none⟩

/-- A typical endpoint with one path and one query parameter. -/
def sampleEndpoint : Endpoint :=
  ⟨"GET", "/pets/\x7bid\x7d", "https://api.example.com/pets/\x7bid\x7d", "Get a pet", "",
   "getPet",
   [⟨"id", "path", true, "string", "", none, none, none⟩,
    ⟨"verbose", "query", false, "string", "", none, none, none⟩],
   none, [], [], []⟩

/-- A one-endpoint canonical model. -/
def mA : ApiData :=
  ⟨"https://api.example.com", noAuth, [sampleEndpoint], "Pets", "1.0.0", "a"⟩

/-- The same model as `mA` except for `version` and `description`, the two
fields no emitter reads. -/
def mB : ApiData :=
  ⟨"https://api.example.com", noAuth, [sampleEndpoint], "Pets", "9.9.9", "b"⟩

/-- HTML input whose single code block carries the URL-shaped token
`http://[`, which the WHATWG URL constructor rejects. -/
def c2FailingDoc : HtmlDoc :=
  ⟨[⟨"code", "", [], "http://[", [], none⟩]⟩

/-- A persistent-500 attempt oracle. -/
def failing500 : Nat → AttemptOutcome :=
  fun _ => .failure (some 500) "Internal Server Error"

/-- Security schemes declaring an oauth2 scheme before an http-bearer
scheme. -/
def c4Schemes : List (String × SwScheme) :=
  [("legacyOAuth", ⟨"oauth2", none, none, none, none⟩),
   ("mainAuth", ⟨"http", some "bearer", none, none, none⟩)]

/-- Swagger document carrying `c4Schemes`. -/
def c4Doc : SwDoc := ⟨none, none, some c4Schemes, none, none, none⟩

/-- A Swagger operation with `operationId` and no declared parameters. -/
def c6Op : SwOperation :=
  ⟨none, none, some "getPet", some [], none, none, none, none⟩

/-- Swagger document whose path key `pets/{id}` lacks the leading slash and
declares no path parameter. -/
def c6Doc : SwDoc :=
  ⟨none, none, none, some [("pets/\x7bid\x7d", [("get", c6Op)])], none, none⟩

/-- HTML document for the amended path-invariant witness. -/
def c6WitnessDoc : HtmlDoc :=
  ⟨[⟨"code", "", [], "GET pets/latest", [], none⟩]⟩

/-- The endpoint the heuristic parser extracts from `c6WitnessDoc`. -/
def c6WitnessEndpoint : Endpoint :=
  (Html.extractEndpoints c6WitnessDoc).getD 0 fallbackEndpoint

/-- HTML document in which three candidate elements yield `GET /a`,
`GET /a` (a duplicate) and `POST /a`. -/
def c7Doc : HtmlDoc :=
  ⟨[⟨"h2", "", [], "GET /a", [], none⟩,
    ⟨"code", "", [], "GET /a", [], none⟩,
    ⟨"pre", "", [], "POST /a", [], none⟩]⟩

/-- The first endpoint kept by deduplication on `c7Doc`. -/
def c7First : Endpoint :=
  (Html.extractEndpoints c7Doc).getD 0 fallbackEndpoint

/-- A collection with two folders both containing `it`, as exercised by the
Postman no-deduplication claim. -/
def twoFolderCollection (n1 n2 : Option String) (it : PMItem) : PMCollection :=
  ⟨none, none, none,
   some [some (.mk n1 none (some [some it]) none none),
         some (.mk n2 none (some [some it]) none none)]⟩

/-- A leaf request item (`GET http://x/a`). -/
def c8Item : PMItem :=
  .mk (some "r") (some ⟨some (.str "http://x/a"), some "get", none, none, none⟩)
    none none none

/-- A request item whose headers include two `authorization`-like keys and
one plain key. -/
def c9Item : PMItem :=
  .mk (some "r")
    (some ⟨some (.str "http://x/a"), some "get",
           some [⟨"Authorization", some "Bearer t", none, none⟩,
                 ⟨"X-Authorization-Id", some "v", none, none⟩,
                 ⟨"Accept", some "*", none, none⟩],
           none, none⟩)
    none none none

/-- The endpoint extracted from `c9Item`. -/
def c9Endpoint : Endpoint :=
  (Postman.extractEndpointFromRequest c9Item "").getD fallbackEndpoint

/-- The single surviving header parameter of `c9Endpoint`. -/
def c9Param : Param := c9Endpoint.parameters.getD 0 fallbackParam

/-- A request body marked required whose only media type carries no
schema. -/
def c10Body : SwRequestBody :=
  ⟨some true, some [("application/json", ⟨none, some (Json.str "sample")⟩)]⟩

/-- The endpoint extracted from `c8Item` under folder `F1`. -/
def c8E1 : Endpoint :=
  (Postman.extractEndpointFromRequest c8Item (jsOrS (some "F1") "unnamed")).getD
    fallbackEndpoint

/-- A collection holding the single request item `c8Item` at top level. -/
def c6PMColl : PMCollection :=
  ⟨none, none, none, some [some c8Item]⟩

/-- The endpoint the Postman normalizer extracts from `c6PMColl`. -/
def c6PMEndpoint : Endpoint :=
  (Postman.extractEndpointFromRequest c8Item "").getD fallbackEndpoint

/-- An endpoint with no parameters and no body. -/
def c1Endpoint : Endpoint :=
  ⟨"GET", "/pets", "", "", "", "listPets", [], none, [], [], []⟩

/-- The Node method text up to (not including) the declared parameter list
`(options = {}) {` of the signature `async ${operationId}(options = {}) {`. -/
def NodeGen.sigPrefix (e : Endpoint) : String :=
  "  /**\n   * " ++
  jsOrS (some e.summary) (jsOrS (some e.description) (e.method ++ " " ++ e.path)) ++
  "\n   * @param \x7bObject\x7d options - Request options\n   * @returns \x7bPromise<Object>\x7d API response\n   */\n  async " ++
  e.operationId

/-- The Node method text after the declared parameter list. -/
def NodeGen.methodRest (e : Endpoint) : String :=
  (if (pathParamsOf e).length > 0 then
    "\n    const \x7b " ++ String.intercalate ", " ((pathParamsOf e).map (·.name)) ++
    ", ...restOptions \x7d = options;"
   else "") ++
  (if (queryParamsOf e).length > 0 then
    "\n    const \x7b " ++ String.intercalate ", " ((queryParamsOf e).map (·.name)) ++
    ", ...requestOptions \x7d = restOptions || options;"
   else if (pathParamsOf e).length > 0 then
    "\n    const requestOptions = restOptions;"
   else "") ++
  "\n" ++
  ("    let url = \x27" ++ e.path ++ "\x27;" ++
   String.join ((pathParamsOf e).map fun p =>
     "\n    url = url.replace(\x27\x7b" ++ p.name ++ "\x7d\x27, " ++ p.name ++ ");")) ++
  (if (queryParamsOf e).length > 0 then
    "\n    const queryParams = \x7b\x7d;" ++
    String.join ((queryParamsOf e).map fun p =>
      "\n    if (" ++ p.name ++ " !== undefined) queryParams." ++ p.name ++
      " = " ++ p.name ++ ";")
   else "") ++
  ("\n    const config = \x7b\n      method: \x27" ++ e.method ++
   "\x27,\n      url,\n      " ++
   (if (queryParamsOf e).length > 0 then "params: queryParams," else "") ++
   "\n      ...requestOptions\n    \x7d;" ++
   (if hasBodyOf e then
     "\n    \n    if (options.body) \x7b\n      config.data = options.body;\n    \x7d"
    else "")) ++
  "\n\n    return this.requestHandler.makeRequest(config);\n  \x7d"

/-- The Go method text up to (not including) the constant `()` of
`func (c *ApiClient) ${OperationId}()`. -/
def GoGen.sigPrefix (e : Endpoint) : String :=
  "// " ++ e.operationId ++ " " ++
  jsOrS (some e.summary) (jsOrS (some e.description) (e.method ++ " " ++ e.path)) ++
  "\n// " ++ (if e.description ≠ "" then e.description else "") ++
  "\nfunc (c *ApiClient) " ++ jsCapFirst e.operationId

/-- The Go method text after the appended parameter list. -/
def GoGen.methodRest (e : Endpoint) : String :=
  " (*ApiResponse, error) \x7b" ++ "\n" ++
  ("\turl := \"" ++ e.path ++ "\"" ++
   String.join ((pathParamsOf e).map fun p =>
     "\n\turl = strings.ReplaceAll(url, \"\x7b" ++ p.name ++ "\x7d\", " ++ p.name ++ ")")) ++
  (if (queryParamsOf e).length > 0 then
    "\n\tqueryParams := make(map[string]string)" ++
    String.join ((queryParamsOf e).map fun p =>
      "\n\tif " ++ p.name ++ " != \"\" \x7b" ++
      "\n\t\tqueryParams[\"" ++ p.name ++ "\"] = " ++ p.name ++
      "\n\t\x7d") ++
    "\n\tif len(queryParams) > 0 \x7b" ++
    "\n\t\turl += \"?\" + buildQueryString(queryParams)" ++
    "\n\t\x7d"
   else "") ++
  (if hasBodyOf e then
    "\n\tvar requestBody []byte" ++
    "\n\tvar err error" ++
    "\n\tif body != nil \x7b" ++
    "\n\t\trequestBody, err = json.Marshal(body)" ++
    "\n\t\tif err != nil \x7b" ++
    "\n\t\t\treturn nil, fmt.Errorf(\"failed to marshal request body: %w\", err)" ++
    "\n\t\t\x7d" ++
    "\n\t\x7d"
   else "") ++
  "\n\n\treturn c.requestHandler.MakeRequest(c.httpClient, \"" ++ e.method ++
  "\", url, requestBody, c.authHandler.GetAuthHeaders())\n\x7d"

/-- The Java method text up to (not including) the `()` of
`public ApiResponse ${operationId}() throws Exception {`: the doc
comment (whose first line is the free text `summary || description ||
method + path`) and the method head. -/
def JavaGen.sigPrefix (e : Endpoint) : String :=
  "    /**\n     * " ++
  jsOrS (some e.summary) (jsOrS (some e.description) (e.method ++ " " ++ e.path)) ++
  "\n     * " ++
  (if e.description ≠ "" then "\n     * " ++ e.description else "") ++
  "\n     * @return ApiResponse API response\n     * @throws Exception if request fails\n     */\n    public ApiResponse " ++
  e.operationId

/-- The Java method text after the spliced parameter list. -/
def JavaGen.methodRest (e : Endpoint) : String :=
  " throws Exception \x7b" ++ "\n" ++
  ("        String url = \"" ++ e.path ++ "\";" ++
   String.join ((pathParamsOf e).map fun p =>
     "\n        url = url.replace(\"\x7b" ++ p.name ++ "\x7d\", " ++ p.name ++ ");")) ++
  (if (queryParamsOf e).length > 0 then
    "\n        StringBuilder queryString = new StringBuilder();" ++
    String.join ((queryParamsOf e).enum.map fun ip =>
      (if ip.1 = 0 then "\n        if (" ++ ip.2.name ++ " != null) \x7b"
       else "\n        \x7d else if (" ++ ip.2.name ++ " != null) \x7b") ++
      "\n            queryString.append(\"" ++ ip.2.name ++ "=\").append(" ++
      ip.2.name ++ ");") ++
    "\n        \x7d" ++
    "\n        if (queryString.length() > 0) \x7b" ++
    "\n            url += \"?\" + queryString.toString();" ++
    "\n        \x7d"
   else "") ++
  (if hasBodyOf e then
    "\n        String requestBody = null;" ++
    "\n        if (body != null) \x7b" ++
    "\n            requestBody = objectMapper.writeValueAsString(body);" ++
    "\n        \x7d"
   else "") ++
  "\n\n        return requestHandler.makeRequest(httpClient, \"" ++ e.method ++
  "\", url, requestBody, authHandler.getAuthHeaders());\n    \x7d"

/-- The PHP method text up to (not including) the constant `()` of
`public function ${operationId}()`. -/
def PhpGen.sigPrefix (e : Endpoint) : String :=
  "    /**\n     * " ++
  jsOrS (some e.summary) (jsOrS (some e.description) (e.method ++ " " ++ e.path)) ++
  "\n     * " ++
  (if e.description ≠ "" then "\n     * " ++ e.description else "") ++
  "\n     * @return ApiResponse API response\n     * @throws \\Exception if request fails\n     */\n    public function " ++
  e.operationId

/-- The PHP method text after the appended parameter list. -/
def PhpGen.methodRest (e : Endpoint) : String :=
  ": ApiResponse" ++ "\n    \x7b\n" ++
  ("        $url = '" ++ e.path ++ "';" ++
   String.join ((pathParamsOf e).map fun p =>
     "\n        $url = str_replace('\x7b" ++ p.name ++ "\x7d', $" ++
     p.name ++ ", $url);")) ++
  (if (queryParamsOf e).length > 0 then
    "\n        $queryParams = [];" ++
    String.join ((queryParamsOf e).map fun p =>
      "\n        if ($" ++ p.name ++ " !== null) \x7b" ++
      "\n            $queryParams['" ++ p.name ++ "'] = $" ++ p.name ++ ";" ++
      "\n        \x7d") ++
    "\n        if (!empty($queryParams)) \x7b" ++
    "\n            $url .= '?' . http_build_query($queryParams);" ++
    "\n        \x7d"
   else "") ++
  (if hasBodyOf e then
    "\n        $requestBody = null;" ++
    "\n        if ($body !== null) \x7b" ++
    "\n            $requestBody = json_encode($body);" ++
    "\n        \x7d"
   else "") ++
  "\n\n        return $this->requestHandler->makeRequest(\n            $this->httpClient,\n            '" ++
  e.method ++
  "',\n            $url,\n            $requestBody,\n            $this->authHandler->getAuthHeaders()\n        );\n    \x7d"

/-! ## Helper lemmas -/

/-- The `path.startsWith('/') ? path : '/' + path` normalization always
yields a non-empty string beginning with `/`. -/
theorem ensureSlash_ok (s : String) :
    (if jsStartsWith s "/" then s else "/" ++ s) ≠ "" ∧
    jsStartsWith (if jsStartsWith s "/" then s else "/" ++ s) "/" = true := by
  by_cases h : jsStartsWith s "/"
  · refine ⟨?_, by simp [h]⟩
    simp only [h, if_true]
    intro hs
    subst hs
    simp [jsStartsWith, listPrefixOf] at h
  · refine ⟨?_, ?_⟩ <;> simp only [h, if_false]
    · intro hs
      have := congrArg String.data hs
      simp [String.data_append] at this
    · show listPrefixOf "/".data ("/" ++ s).data = true
      have hd : ("/" ++ s).data = '/' :: s.data := by
        simp [String.data_append]
      rw [hd]
      simp [listPrefixOf]

/-- `str.replace('()', rep)` on a string assembled as `A ++ "()" ++ B`
rewrites exactly the marked occurrence when `A` contains no `()`. -/
theorem replaceFirstAux_paren (R B : List Char) :
    ∀ A : List Char, listInfixOf ['(', ')'] A = false →
      jsReplaceFirstAux ['(', ')'] R (A ++ '(' :: ')' :: B) = A ++ R ++ B := by
  intro A
  induction A with
  | nil =>
    intro _
    simp [jsReplaceFirstAux, listPrefixOf]
  | cons a as ih =>
    intro h
    simp only [listInfixOf, Bool.or_eq_false_iff] at h
    obtain ⟨hp, hi⟩ := h
    have htail := ih hi
    have htest : listPrefixOf ['(', ')'] (a :: (as ++ '(' :: ')' :: B)) = false := by
      cases as with
      | nil => simp [listPrefixOf]
      | cons a2 as' =>
        simp only [listPrefixOf, Bool.and_true, List.cons_append] at hp ⊢
        exact hp
    simp only [List.cons_append]
    rw [jsReplaceFirstAux, htest]
    simp only [Bool.false_eq_true, if_false]
    simp only [List.cons_append] at htail
    rw [htail]

/-- String-level version of `replaceFirstAux_paren`. -/
theorem jsReplaceFirst_paren (A B R : String)
    (h : listInfixOf "()".data A.data = false) :
    jsReplaceFirst (A ++ "()" ++ B) "()" R = A ++ R ++ B := by
  unfold jsReplaceFirst
  rw [if_neg (by decide : ¬ ("()" : String).data = [])]
  have hlit : ("()" : String).data = ['(', ')'] := rfl
  have hd : (A ++ "()" ++ B).data = A.data ++ '(' :: ')' :: B.data := by
    simp [String.data_append, hlit]
  rw [hlit, hd]
  have haux := replaceFirstAux_paren R.data B.data A.data (by rw [← hlit]; exact h)
  rw [haux]
  have hr : (A ++ R ++ B).data = A.data ++ R.data ++ B.data := by
    simp [String.data_append]
  rw [← hr]

/-- `extractAuthMethod`'s loop is the first recognized scheme in
declaration order. -/
theorem authLoop_eq (l : List (String × SwScheme)) :
    Swagger.authLoop l =
      ((l.findSome? fun p => Swagger.renderScheme p.2).getD noAuth) := by
  induction l with
  | nil => rfl
  | cons hd tl ih =>
    obtain ⟨n, sch⟩ := hd
    cases hrs : Swagger.renderScheme sch <;>
      simp [Swagger.authLoop, List.findSome?_cons, hrs, ih]

/-! ## Claim theorems -/

/-- C10: the OpenAPI normalizer yields no `requestBody` descriptor whenever
the first listed media type of the declared request body carries no schema,
regardless of the body's `required` flag. -/
theorem extractRequestBody_null_without_schema :
    ∀ rb : SwRequestBody,
      (jsObjGet (rb.content.getD [])
          (jsOrS ((rb.content.getD []).head?.map (·.1)) "application/json")).bind
        (·.schema) = none →
      Swagger.extractRequestBody (some rb) = none := by
  intro rb h
  simp only [Swagger.extractRequestBody]
  rw [h]

/-- Witness for C10: a body marked `required: true` with a schema-less
media type yields no descriptor. -/
theorem extractRequestBody_null_without_schema_witness :
    ((jsObjGet (c10Body.content.getD [])
        (jsOrS ((c10Body.content.getD []).head?.map (·.1)) "application/json")).bind
      (·.schema) = none) ∧
    c10Body.required = some true ∧
    Swagger.extractRequestBody (some c10Body) = none :=
  ⟨rfl, rfl, extractRequestBody_null_without_schema c10Body rfl⟩

/-- C4 (counterexample): with an oauth2 scheme declared before an
http-bearer scheme, `extractAuthMethod` returns the oauth2 variant, while
the fixed priority order of the claim would return bearer. -/
theorem extractAuthMethod_not_priority_order :
    Swagger.extractAuthMethod c4Doc = ⟨"oauth2", some "Authorization", none, none⟩ ∧
    specPriorityAuthMethod c4Schemes = ⟨"bearer", some "Authorization", none, none⟩ ∧
    Swagger.extractAuthMethod c4Doc ≠ specPriorityAuthMethod c4Schemes := by
  decide

/-- C4 (amended): `extractAuthMethod` scans the declared security schemes
in declaration order and returns the rendering of the first scheme the
switch recognizes (http-bearer, http-basic, apiKey or oauth2, with other
schemes skipped); with no recognized scheme it returns the none variant. -/
theorem extractAuthMethod_declaration_order :
    ∀ api : SwDoc,
      Swagger.extractAuthMethod api =
        (((api.securitySchemes.getD []).findSome?
            fun p => Swagger.renderScheme p.2).getD noAuth) :=
  fun _ => authLoop_eq _

/-- C2: on an input whose code block holds the URL-shaped token `http://[`,
the heuristic normalizer does not return a model — the unguarded
`new URL` inside `extractBaseUrl` throws and `parseHtmlDocs` re-throws. -/
theorem parseHtmlDocs_throws_on_invalid_url :
    Html.parseHtmlDocs c2FailingDoc =
      .error "Failed to parse HTML documentation: Invalid URL" := by
  rfl

/-- Full characterization of the emitted retry loop from attempt `a` with
`fuel = maxRetries + 1 - a` iterations allowed, for any delay
arithmetic. -/
theorem retryFrom_spec (mr : Nat) (delayOf : Nat → Int) (o : Nat → AttemptOutcome) :
    ∀ (fuel a : Nat), fuel + a = mr + 1 → 1 ≤ a → a ≤ mr →
      a ≤ (retryFrom mr delayOf o fuel a).attempts ∧
      (retryFrom mr delayOf o fuel a).attempts ≤ mr ∧
      (∀ k, a ≤ k → k < (retryFrom mr delayOf o fuel a).attempts →
        retryableFailure (o k) = true) ∧
      (retryFrom mr delayOf o fuel a).result =
        surfaced (o ((retryFrom mr delayOf o fuel a).attempts)) ∧
      (retryableFailure (o ((retryFrom mr delayOf o fuel a).attempts)) = true →
        (retryFrom mr delayOf o fuel a).attempts = mr) ∧
      (retryFrom mr delayOf o fuel a).delays =
        (List.range' (a - 1) ((retryFrom mr delayOf o fuel a).attempts - a)).map
          (fun i => delayOf (i + 1)) := by
  intro fuel
  induction fuel with
  | zero => intro a hfa h1 hle; omega
  | succ fuel ih =>
    intro a hfa h1 hle
    simp only [retryFrom]
    cases ho : o a with
    | success d =>
      dsimp only
      refine ⟨le_refl a, hle, ?_, ?_, ?_, ?_⟩
      · intro k hk1 hk2; omega
      · simp [surfaced, ho]
      · intro hr; rw [ho] at hr; simp [retryableFailure] at hr
      · simp
    | failure st m =>
      dsimp only
      by_cases hnr : nonRetryableStatus st = true
      · simp only [hnr, if_true]
        refine ⟨le_refl a, hle, ?_, ?_, ?_, ?_⟩
        · intro k hk1 hk2; omega
        · simp [surfaced, ho]
        · intro hr; rw [ho] at hr; simp [retryableFailure, hnr] at hr
        · simp
      · simp only [hnr, if_false, Bool.false_eq_true]
        by_cases hlast : a = mr
        · simp only [hlast, if_true]
          refine ⟨by omega, le_refl mr, ?_, ?_, ?_, ?_⟩
          · intro k hk1 hk2; omega
          · rw [hlast] at ho; simp [surfaced, ho]
          · intro _; trivial
          · simp
        · simp only [hlast, if_false]
          have ha1 : 1 ≤ a + 1 := by omega
          have ha2 : a + 1 ≤ mr := by omega
          have hfa2 : fuel + (a + 1) = mr + 1 := by omega
          obtain ⟨q1, q2, q3, q4, q5, q6⟩ := ih (a + 1) hfa2 ha1 ha2
          refine ⟨by omega, q2, ?_, q4, q5, ?_⟩
          · intro k hk1 hk2
            rcases Nat.eq_or_lt_of_le hk1 with heq | hlt
            · subst heq
              simp [retryableFailure, ho, hnr]
            · exact q3 k (by omega) hk2
          · have hcnt : (retryFrom mr delayOf o fuel (a + 1)).attempts - a =
                ((retryFrom mr delayOf o fuel (a + 1)).attempts - (a + 1)) + 1 := by
              omega
            rw [q6, hcnt, List.range'_succ, List.map_cons]
            rw [show a - 1 + 1 = a from by omega, show a + 1 - 1 = a from by omega]

/-- `wrap64` is the identity inside the signed 64-bit range. -/
theorem wrap64_small (z : Int) (h0 : 0 ≤ z) (h1 : z < 2 ^ 63) : wrap64 z = z := by
  unfold wrap64
  have e63 : (2 : Int) ^ 63 = 9223372036854775808 := by norm_num
  have e64 : (2 : Int) ^ 64 = 18446744073709551616 := by norm_num
  rw [e63] at h1
  rw [e63, e64]
  omega

/-- Up to attempt 54 the wrapping Go and Java delays agree with the
unbounded formula. -/
theorem delays_agree_small (a : Nat) (h1 : 1 ≤ a) (h54 : a ≤ 54) :
    goDelay a = min (1000 * 2 ^ (a - 1)) 10000 ∧
    javaDelay a = min (1000 * 2 ^ (a - 1)) 10000 := by
  have hle : a - 1 ≤ 53 := by omega
  have hpow : (2 : Int) ^ (a - 1) ≤ 2 ^ 53 :=
    pow_le_pow_right (by norm_num) hle
  have hpos : (0 : Int) < 2 ^ (a - 1) := pow_pos (by norm_num) _
  have hlt63 : (2 : Int) ^ (a - 1) < 2 ^ 63 := by
    have : (2 : Int) ^ 53 < 2 ^ 63 := by norm_num
    omega
  have hlt63m : 1000 * (2 : Int) ^ (a - 1) < 2 ^ 63 := by
    have h53 : 1000 * (2 : Int) ^ 53 < 2 ^ 63 := by norm_num
    have : 1000 * (2 : Int) ^ (a - 1) ≤ 1000 * 2 ^ 53 := by omega
    omega
  have hw1 : wrap64 ((2 : Int) ^ (a - 1)) = 2 ^ (a - 1) :=
    wrap64_small _ (by omega) hlt63
  have hw2 : wrap64 (1000 * (2 : Int) ^ (a - 1)) = 1000 * 2 ^ (a - 1) :=
    wrap64_small _ (by omega) hlt63m
  constructor
  · unfold goDelay
    rw [if_pos (by omega : a - 1 ≤ 63), hw1, hw2]
  · unfold javaDelay
    rw [if_pos (by omega : a - 1 ≤ 62), hw2]

/-- With `maxRetries ≤ 54` the Java loop never reaches a negative delay, so
it coincides with the shared loop instantiated at `javaDelay`. -/
theorem retryFromJava_eq (mr : Nat) (o : Nat → AttemptOutcome) (h54 : mr ≤ 54) :
    ∀ (fuel a : Nat), fuel + a = mr + 1 → 1 ≤ a →
      retryFromJava mr o fuel a = retryFrom mr javaDelay o fuel a := by
  intro fuel
  induction fuel with
  | zero => intro a _ _; rfl
  | succ fuel ih =>
    intro a hfa h1
    simp only [retryFromJava, retryFrom]
    cases ho : o a with
    | success d => rfl
    | failure st m =>
      dsimp only
      by_cases hnr : nonRetryableStatus st = true
      · simp only [hnr, if_true]
      · simp only [hnr, if_false, Bool.false_eq_true]
        by_cases hlast : a = mr
        · simp only [hlast, if_true]
        · simp only [hlast, if_false]
          have halt : a < mr := by omega
          have hd : 0 ≤ javaDelay a := by
            have := (delays_agree_small a h1 (by omega)).2
            rw [this]
            have : (0 : Int) < 1000 * 2 ^ (a - 1) := by positivity
            omega
          rw [if_neg (by omega : ¬ javaDelay a < 0)]
          rw [ih (a + 1) (by omega) (by omega)]

/-- C3 (amended): the retry loop of the request module emitted by every
target performs at most `maxRetries` attempts; every attempt before the
final one failed retryably (so a 4xx other than 429 is surfaced
immediately with no further attempt); the final attempt's outcome is what
the caller sees; a retryable failure ends the loop only on attempt
`maxRetries`; and the back-off delays are the module's own arithmetic
(`floatDelay` for Node and PHP, `goDelay` for Go, `javaDelay` for Java),
which agrees with `min(1000 * 2^(attempt-1), 10000)` at every attempt for
Node and PHP and up to attempt 54 for the wrapping 64-bit Go and Java
modules; with `maxRetries ≤ 54` the Java loop also never aborts in
`Thread.sleep` and equals the shared loop. -/
theorem emitted_retry_policy :
    ∀ (maxRetries : Nat) (delayOf : Nat → Int) (o : Nat → AttemptOutcome),
      1 ≤ maxRetries →
      (1 ≤ (makeRequest maxRetries delayOf o).attempts ∧
       (makeRequest maxRetries delayOf o).attempts ≤ maxRetries ∧
       (∀ k, 1 ≤ k → k < (makeRequest maxRetries delayOf o).attempts →
         retryableFailure (o k) = true) ∧
       (makeRequest maxRetries delayOf o).result =
         surfaced (o ((makeRequest maxRetries delayOf o).attempts)) ∧
       (retryableFailure (o ((makeRequest maxRetries delayOf o).attempts)) = true →
         (makeRequest maxRetries delayOf o).attempts = maxRetries) ∧
       (makeRequest maxRetries delayOf o).delays =
         (List.range ((makeRequest maxRetries delayOf o).attempts - 1)).map
           (fun i => delayOf (i + 1))) ∧
      (∀ a, 1 ≤ a → a ≤ 54 →
        goDelay a = min (1000 * 2 ^ (a - 1)) 10000 ∧
        javaDelay a = min (1000 * 2 ^ (a - 1)) 10000) ∧
      (∀ a, floatDelay a = min (1000 * 2 ^ (a - 1)) 10000) ∧
      (maxRetries ≤ 54 →
        makeRequestJava maxRetries o = makeRequest maxRetries javaDelay o) := by
  intro mr delayOf o h1
  refine ⟨?_, ?_, fun a => rfl, ?_⟩
  · have h := retryFrom_spec mr delayOf o mr 1 (by omega) (le_refl 1) h1
    simpa [makeRequest, List.range_eq_range'] using h
  · intro a ha1 ha54
    exact delays_agree_small a ha1 ha54
  · intro h54
    exact retryFromJava_eq mr o h54 mr 1 (by omega) (le_refl 1)

/-- C3 (counterexample): from attempt 55 the Go and Java modules depart
from the claimed back-off formula — the 64-bit product wraps negative —
and the Java module's `Thread.sleep` on the negative delay throws, so
with `maxRetries = 56` against persistent 500s the Java loop aborts and
surfaces neither the final attempt's failure nor any failure at all. -/
theorem emitted_retry_wrap_counterexample :
    goDelay 55 ≠ min (1000 * 2 ^ (55 - 1)) 10000 ∧
    javaDelay 55 ≠ min (1000 * 2 ^ (55 - 1)) 10000 ∧
    goDelay 55 = -432345564227567616 ∧
    javaDelay 55 = -432345564227567616 ∧
    min (1000 * 2 ^ (55 - 1)) (10000 : Int) = 10000 ∧
    (makeRequestJava 56 failing500).result = .sleepAbort ∧
    ∀ k, (makeRequestJava 56 failing500).result ≠ surfaced (failing500 k) := by
  refine ⟨by decide, by decide, by decide, by decide, by decide, by decide, ?_⟩
  intro k
  show (makeRequestJava 56 failing500).result ≠
    surfaced (.failure (some 500) "Internal Server Error")
  decide

/-- Witness for the amended C3: with `maxRetries = 3` against a persistent
500, the Go-instantiated loop performs three attempts with back-off delays
1000 ms and 2000 ms, surfaces the final failure, and the Java loop
coincides with the shared loop. -/
theorem emitted_retry_policy_witness :
    1 ≤ 3 ∧ (3 : Nat) ≤ 54 ∧
    (makeRequest 3 goDelay failing500).attempts ≤ 3 ∧
    (makeRequest 3 goDelay failing500).result =
      surfaced (failing500 ((makeRequest 3 goDelay failing500).attempts)) ∧
    (makeRequest 3 goDelay failing500).delays = [1000, 2000] ∧
    makeRequestJava 3 failing500 = makeRequest 3 javaDelay failing500 ∧
    (makeRequestJava 3 failing500).delays = [1000, 2000] :=
  ⟨by decide, by decide,
   (emitted_retry_policy 3 goDelay failing500 (by decide)).1.2.1,
   (emitted_retry_policy 3 goDelay failing500 (by decide)).1.2.2.2.1,
   by decide,
   (emitted_retry_policy 3 javaDelay failing500 (by decide)).2.2.2 (by decide),
   by decide⟩

/-- Members of the deduplication loop's output come from its input and
carry a key not yet seen. -/
theorem mem_dedupLoop (l : List Endpoint) :
    ∀ (seen : List String) (e : Endpoint), e ∈ Html.dedupLoop l seen →
      e ∈ l ∧ ¬ seen.contains (Html.dedupKey e) := by
  induction l with
  | nil => intro seen e he; simp [Html.dedupLoop] at he
  | cons x rest ih =>
    intro seen e he
    simp only [Html.dedupLoop] at he
    by_cases hx : seen.contains (Html.dedupKey x)
    · rw [if_pos hx] at he
      obtain ⟨h1, h2⟩ := ih seen e he
      exact ⟨List.mem_cons_of_mem x h1, h2⟩
    · rw [if_neg hx] at he
      rcases List.mem_cons.mp he with heq | htail
      · subst heq; exact ⟨List.mem_cons_self e rest, hx⟩
      · obtain ⟨h1, h2⟩ := ih (Html.dedupKey x :: seen) e htail
        refine ⟨List.mem_cons_of_mem x h1, ?_⟩
        intro hc
        refine h2 ?_
        simp [List.contains_cons]
        exact Or.inr (by simpa using hc)

/-- Every member of the deduplication loop's output is the first element of
the input with its key. -/
theorem dedupLoop_first_wins (l : List Endpoint) :
    ∀ (seen : List String) (e : Endpoint), e ∈ Html.dedupLoop l seen →
      l.find? (fun x => Html.dedupKey x == Html.dedupKey e) = some e := by
  induction l with
  | nil => intro seen e he; simp [Html.dedupLoop] at he
  | cons x rest ih =>
    intro seen e he
    simp only [Html.dedupLoop] at he
    by_cases hx : seen.contains (Html.dedupKey x)
    · rw [if_pos hx] at he
      have hkey : ¬ seen.contains (Html.dedupKey e) := (mem_dedupLoop rest seen e he).2
      have hne : Html.dedupKey x ≠ Html.dedupKey e := by
        intro hk; rw [hk] at hx; exact hkey hx
      rw [List.find?_cons_of_neg _ (by simpa using hne)]
      exact ih seen e he
    · rw [if_neg hx] at he
      rcases List.mem_cons.mp he with heq | htail
      · subst heq
        exact List.find?_cons_of_pos _ (by simp)
      · have hkey := (mem_dedupLoop rest (Html.dedupKey x :: seen) e htail).2
        have hne : Html.dedupKey x ≠ Html.dedupKey e := by
          intro hk
          exact hkey (by simp [List.contains_cons, hk])
        rw [List.find?_cons_of_neg _ (by simpa using hne)]
        exact ih (Html.dedupKey x :: seen) e htail

/-- The deduplication loop's output has pairwise distinct keys. -/
theorem dedupLoop_pairwise (l : List Endpoint) :
    ∀ (seen : List String),
      (Html.dedupLoop l seen).Pairwise
        (fun a b => Html.dedupKey a ≠ Html.dedupKey b) := by
  induction l with
  | nil => intro seen; simp [Html.dedupLoop]
  | cons x rest ih =>
    intro seen
    simp only [Html.dedupLoop]
    by_cases hx : seen.contains (Html.dedupKey x)
    · rw [if_pos hx]; exact ih seen
    · rw [if_neg hx]
      refine List.Pairwise.cons ?_ (ih (Html.dedupKey x :: seen))
      intro b hb hkey
      have := (mem_dedupLoop rest (Html.dedupKey x :: seen) b hb).2
      exact this (by simp [List.contains_cons, hkey])

/-- No key of the input is lost by the deduplication loop. -/
theorem dedupLoop_complete (l : List Endpoint) :
    ∀ (seen : List String) (x : Endpoint), x ∈ l →
      ¬ seen.contains (Html.dedupKey x) →
      ∃ e ∈ Html.dedupLoop l seen, Html.dedupKey e = Html.dedupKey x := by
  induction l with
  | nil => intro seen x hx _; simp at hx
  | cons y rest ih =>
    intro seen x hx hseen
    simp only [Html.dedupLoop]
    by_cases hy : seen.contains (Html.dedupKey y)
    · rw [if_pos hy]
      rcases List.mem_cons.mp hx with heq | htail
      · subst heq; exact absurd hy hseen
      · exact ih seen x htail hseen
    · rw [if_neg hy]
      rcases List.mem_cons.mp hx with heq | htail
      · subst heq
        exact ⟨x, List.mem_cons_self x _, rfl⟩
      · by_cases hk : Html.dedupKey x = Html.dedupKey y
        · exact ⟨y, List.mem_cons_self y _, hk.symm⟩
        · obtain ⟨e, he, hke⟩ := ih (Html.dedupKey y :: seen) x htail
            (by simp [List.contains_cons]; exact ⟨fun h => hk (by simpa using h), by simpa using hseen⟩)
          exact ⟨e, List.mem_cons_of_mem y he, hke⟩

/-- C7: the heuristic normalizer's endpoint list holds at most one endpoint
per (method, path) key; each kept endpoint is the first-discovered one with
its key, and every discovered key survives. -/
theorem html_dedup_first_wins :
    ∀ d : HtmlDoc,
      (Html.extractEndpoints d).Pairwise
        (fun a b => Html.dedupKey a ≠ Html.dedupKey b) ∧
      (∀ e ∈ Html.extractEndpoints d,
        (Html.discoveredEndpoints d).find?
          (fun x => Html.dedupKey x == Html.dedupKey e) = some e) ∧
      (∀ x ∈ Html.discoveredEndpoints d,
        ∃ e ∈ Html.extractEndpoints d, Html.dedupKey e = Html.dedupKey x) := by
  intro d
  refine ⟨dedupLoop_pairwise _ [], ?_, ?_⟩
  · intro e he
    exact dedupLoop_first_wins _ [] e he
  · intro x hx
    exact dedupLoop_complete _ [] x hx (by simp)

/-- Witness for C7: in `c7Doc` the duplicate `GET /a` candidates collapse
to the first discovery. -/
theorem html_dedup_first_wins_witness :
    (c7First ∈ Html.extractEndpoints c7Doc) ∧
    (Html.discoveredEndpoints c7Doc).find?
      (fun x => Html.dedupKey x == Html.dedupKey c7First) = some c7First ∧
    (Html.extractEndpoints c7Doc).length = 2 ∧
    (Html.discoveredEndpoints c7Doc).length = 3 := by
  have hmem : c7First ∈ Html.extractEndpoints c7Doc := by
    have h2 : Html.extractEndpoints c7Doc = c7First :: (Html.extractEndpoints c7Doc).tail := rfl
    rw [h2]
    exact List.mem_cons_self _ _
  exact ⟨hmem, (html_dedup_first_wins c7Doc).2.1 c7First hmem, rfl, rfl⟩

/-- C9: every header parameter the Postman normalizer keeps has a name that
does not contain `authorization` case-insensitively (such request headers
are filtered out before the parameter list is built). -/
theorem postman_header_params_exclude_authorization :
    ∀ (it : PMItem) (parentPath : String) (e : Endpoint) (par : Param),
      Postman.extractEndpointFromRequest it parentPath = some e →
      par ∈ e.parameters → par.loc = "header" →
      jsIncludes (jsLower par.name) "authorization" = false := by
  intro it parentPath e par hext hmem hloc
  obtain ⟨nm, req, kids, dsc, rsp⟩ := it
  unfold Postman.extractEndpointFromRequest at hext
  simp only [PMItem.request, PMItem.name, PMItem.description, PMItem.response] at hext
  cases req with
  | none => simp at hext
  | some r =>
    cases hu : r.url with
    | none => simp [hu] at hext
    | some url =>
      simp only [hu] at hext
      split at hext
      · simp at hext
      · rw [Option.some.injEq] at hext
        subst hext
        rcases List.mem_append.mp hmem with hq | hh
        · obtain ⟨q, _, hpar⟩ := List.mem_map.mp hq
          rw [← hpar] at hloc
          simp at hloc
        · obtain ⟨h, hfil, hpar⟩ := List.mem_map.mp hh
          obtain ⟨_, hpred⟩ := List.mem_filter.mp hfil
          have hp := of_decide_eq_true hpred
          rw [← hpar]
          have := hp.2
          simpa using this

/-- Witness for C9: from `c9Item`, whose headers are `Authorization`,
`X-Authorization-Id` and `Accept`, only `Accept` survives as a header
parameter. -/
theorem postman_header_params_exclude_authorization_witness :
    (Postman.extractEndpointFromRequest c9Item "" = some c9Endpoint) ∧
    c9Param ∈ c9Endpoint.parameters ∧ c9Param.loc = "header" ∧
    c9Param.name = "Accept" ∧ c9Endpoint.parameters.length = 1 ∧
    jsIncludes (jsLower c9Param.name) "authorization" = false := by
  have h1 : Postman.extractEndpointFromRequest c9Item "" = some c9Endpoint := rfl
  have hmem : c9Param ∈ c9Endpoint.parameters := by
    rw [show c9Endpoint.parameters = [c9Param] from rfl]
    exact List.mem_cons_self _ _
  exact ⟨h1, hmem, rfl, rfl, rfl,
    postman_header_params_exclude_authorization c9Item "" c9Endpoint c9Param h1 hmem rfl⟩

/-- `extractEndpointFromRequest` depends on `parentPath` only through the
`tags` field: success, method, path and all other fields are unchanged. -/
theorem eefr_parent (it : PMItem) (p q : String) :
    Postman.extractEndpointFromRequest it q =
      (Postman.extractEndpointFromRequest it p).map
        (fun e => { e with tags := if q ≠ "" then [q] else [] }) := by
  obtain ⟨nm, req, kids, dsc, rsp⟩ := it
  unfold Postman.extractEndpointFromRequest
  simp only [PMItem.request, PMItem.name, PMItem.description, PMItem.response]
  cases req with
  | none => rfl
  | some r =>
    cases hu : r.url with
    | none => simp [hu]
    | some url =>
      simp only [hu]
      cases url with
      | str s =>
        by_cases hs : s = "" <;> simp [hs]
      | obj raw segs qu =>
        cases raw with
        | none => simp
        | some rs =>
          by_cases hs : rs = "" <;> simp [hs]

/-- A folder name defaulted with `'unnamed'` is never empty. -/
theorem jsOrS_unnamed_ne (n : Option String) : jsOrS n "unnamed" ≠ "" := by
  cases n with
  | none => simp [jsOrS]
  | some s =>
    by_cases hs : s = "" <;> simp [jsOrS, hs]

/-- C8: the Postman normalizer performs no deduplication — a request item
placed in two different folders yields two distinct endpoint entries with
the same method and path, differing in their folder tag. -/
theorem postman_no_dedup :
    ∀ (it : PMItem) (n1 n2 : Option String) (e1 : Endpoint),
      Postman.extractEndpointFromRequest it (jsOrS n1 "unnamed") = some e1 →
      ∃ e2 : Endpoint,
        Postman.extractEndpoints (twoFolderCollection n1 n2 it) = [e1, e2] ∧
        e2.method = e1.method ∧ e2.path = e1.path ∧
        e1.tags = [jsOrS n1 "unnamed"] ∧ e2.tags = [jsOrS n2 "unnamed"] := by
  intro it n1 n2 e1 h1
  have hne1 := jsOrS_unnamed_ne n1
  have hne2 := jsOrS_unnamed_ne n2
  have h2 : Postman.extractEndpointFromRequest it (jsOrS n2 "unnamed") =
      some { e1 with tags := [jsOrS n2 "unnamed"] } := by
    rw [eefr_parent it (jsOrS n1 "unnamed") (jsOrS n2 "unnamed"), h1]
    simp [hne2]
  have htags : e1.tags = [jsOrS n1 "unnamed"] := by
    have h0 := eefr_parent it (jsOrS n1 "unnamed") (jsOrS n1 "unnamed")
    rw [h1] at h0
    simp [hne1] at h0
    exact congrArg Endpoint.tags h0
  refine ⟨{ e1 with tags := [jsOrS n2 "unnamed"] }, ?_, rfl, rfl, htags, rfl⟩
  obtain ⟨nm, req, kids, dsc, rsp⟩ := it
  cases req with
  | none =>
    rw [show Postman.extractEndpointFromRequest (.mk nm none kids dsc rsp)
        (jsOrS n1 "unnamed") = none from rfl] at h1
    simp at h1
  | some r =>
    unfold Postman.extractEndpoints twoFolderCollection
    simp only [Postman.processItems]
    simp [h1, h2]

/-- Witness for C8: `c8Item` placed in folders `F1` and `F2` appears
twice. -/
theorem postman_no_dedup_witness :
    (Postman.extractEndpointFromRequest c8Item (jsOrS (some "F1") "unnamed") =
      some c8E1) ∧
    ∃ e2 : Endpoint,
      Postman.extractEndpoints (twoFolderCollection (some "F1") (some "F2") c8Item) =
        [c8E1, e2] ∧
      e2.method = c8E1.method ∧ e2.path = c8E1.path ∧
      c8E1.tags = [jsOrS (some "F1") "unnamed"] ∧
      e2.tags = [jsOrS (some "F2") "unnamed"] :=
  ⟨rfl, postman_no_dedup c8Item (some "F1") (some "F2") c8E1 rfl⟩

/-- C1 (counterexample): for an endpoint with no parameters and no body,
the claim predicts an empty declared parameter list, but the Node emitter
declares the single parameter `options = {}`. -/
theorem declaredParams_counterexample_node :
    ¬ ((NodeGen.declaredParams c1Endpoint).length =
        (pathParamsOf c1Endpoint).length + (queryParamsOf c1Endpoint).length +
        (if hasBodyOf c1Endpoint then 1 else 0)) ∧
    NodeGen.declaredParams c1Endpoint = ["options = \x7b\x7d"] := by
  decide

/-- C1 (amended): every emitter generates exactly one client method per
endpoint, but the declared parameter list is emitter-specific.  The Node
emitter always declares the single parameter `options = {}` (its
signature text decomposes around that constant list).  The Go emitter
appends the joined list — path parameters in declaration order, then query
parameters, then one body parameter exactly when the endpoint has a
request body and its verb is neither GET nor DELETE — after the constant
`()` of its signature, and the PHP emitter appends the same-shaped list in
parentheses after the `()` of its own signature.  The Java emitter splices
the list by `replace('()', ...)` over the whole signature text, so the
emitted method declares it only when the doc comment before the method's
`()` contains no earlier `()`; under that proviso the emitted text
decomposes around the list. -/
theorem declaredParams_per_emitter :
    ∀ (m : ApiData) (e : Endpoint),
      ((m.endpoints.map NodeGen.generateEndpointMethod).length = m.endpoints.length ∧
       (m.endpoints.map GoGen.generateEndpointMethod).length = m.endpoints.length ∧
       (m.endpoints.map JavaGen.generateEndpointMethod).length = m.endpoints.length ∧
       (m.endpoints.map PhpGen.generateEndpointMethod).length = m.endpoints.length) ∧
      (GoGen.declaredParams e =
        (pathParamsOf e).map (fun p => p.name ++ " string") ++
        (queryParamsOf e).map (fun p => p.name ++ " string") ++
        (if hasBodyOf e then ["body interface\x7b\x7d"] else []) ∧
       (GoGen.declaredParams e).length =
        (pathParamsOf e).length + (queryParamsOf e).length +
        (if hasBodyOf e then 1 else 0)) ∧
      (JavaGen.declaredParams e =
        (pathParamsOf e).map (fun p => "String " ++ p.name) ++
        (queryParamsOf e).map (fun p => "String " ++ p.name) ++
        (if hasBodyOf e then ["Object body"] else []) ∧
       (JavaGen.declaredParams e).length =
        (pathParamsOf e).length + (queryParamsOf e).length +
        (if hasBodyOf e then 1 else 0)) ∧
      (PhpGen.declaredParams e =
        (pathParamsOf e).map (fun p => "?string $" ++ p.name ++ " = null") ++
        (queryParamsOf e).map (fun p => "?string $" ++ p.name ++ " = null") ++
        (if hasBodyOf e then ["?array $body = null"] else []) ∧
       (PhpGen.declaredParams e).length =
        (pathParamsOf e).length + (queryParamsOf e).length +
        (if hasBodyOf e then 1 else 0)) ∧
      (NodeGen.declaredParams e = ["options = \x7b\x7d"] ∧
       NodeGen.generateEndpointMethod e =
         NodeGen.sigPrefix e ++ "(options = \x7b\x7d) \x7b" ++ NodeGen.methodRest e) ∧
      ((pathParamsOf e).length > 0 ∨ (queryParamsOf e).length > 0 ∨ hasBodyOf e = true →
        GoGen.generateEndpointMethod e =
          GoGen.sigPrefix e ++ "()" ++
          ("(" ++ GoGen.generateMethodParameters (pathParamsOf e) (queryParamsOf e)
              (hasBodyOf e) ++ ")") ++
          GoGen.methodRest e) ∧
      ((pathParamsOf e).length > 0 ∨ (queryParamsOf e).length > 0 ∨ hasBodyOf e = true →
        PhpGen.generateEndpointMethod e =
          PhpGen.sigPrefix e ++ "()" ++
          ("(" ++ PhpGen.generateMethodParameters (pathParamsOf e) (queryParamsOf e)
              (hasBodyOf e) ++ ")") ++
          PhpGen.methodRest e) ∧
      (listInfixOf "()".data (JavaGen.sigPrefix e).data = false →
       (pathParamsOf e).length > 0 ∨ (queryParamsOf e).length > 0 ∨ hasBodyOf e = true →
        JavaGen.generateEndpointMethod e =
          JavaGen.sigPrefix e ++
          ("(" ++ JavaGen.generateMethodParameters (pathParamsOf e) (queryParamsOf e)
              (hasBodyOf e) ++ ")") ++
          JavaGen.methodRest e) := by
  intro m e
  refine ⟨⟨by simp, by simp, by simp, by simp⟩, ⟨rfl, ?_⟩, ⟨rfl, ?_⟩, ⟨rfl, ?_⟩,
    ⟨rfl, ?_⟩, ?_, ?_, ?_⟩
  · by_cases hb : hasBodyOf e <;>
      simp [GoGen.declaredParams, GoGen.methodParameterList, hb] <;> omega
  · by_cases hb : hasBodyOf e <;>
      simp [JavaGen.declaredParams, JavaGen.methodParameterList, hb] <;> omega
  · by_cases hb : hasBodyOf e <;>
      simp [PhpGen.declaredParams, PhpGen.methodParameterList, hb] <;> omega
  · simp only [NodeGen.generateEndpointMethod, NodeGen.sigPrefix, NodeGen.methodRest,
      String.append_assoc]
  · intro hcond
    simp only [GoGen.generateEndpointMethod, GoGen.sigPrefix, GoGen.methodRest]
    rw [if_pos hcond]
    simp only [String.append_assoc]
  · intro hcond
    simp only [PhpGen.generateEndpointMethod, PhpGen.sigPrefix, PhpGen.methodRest]
    rw [if_pos hcond]
    simp only [String.append_assoc]
  · intro hJ hcond
    simp only [JavaGen.generateEndpointMethod]
    rw [if_pos hcond]
    have hfold : "    /**\n     * " ++
        jsOrS (some e.summary) (jsOrS (some e.description) (e.method ++ " " ++ e.path)) ++
        "\n     * " ++
        (if e.description ≠ "" then "\n     * " ++ e.description else "") ++
        "\n     * @return ApiResponse API response\n     * @throws Exception if request fails\n     */\n    public ApiResponse " ++
        e.operationId ++ "() throws Exception \x7b" =
        JavaGen.sigPrefix e ++ "()" ++ " throws Exception \x7b" := by
      simp only [JavaGen.sigPrefix, String.append_assoc]
      rw [show ("()" : String) ++ " throws Exception \x7b" = "() throws Exception \x7b" from
        rfl]
    rw [hfold]
    rw [jsReplaceFirst_paren (JavaGen.sigPrefix e) " throws Exception \x7b"
      ("(" ++ JavaGen.generateMethodParameters (pathParamsOf e) (queryParamsOf e)
        (hasBodyOf e) ++ ")") hJ]
    simp only [JavaGen.methodRest, String.append_assoc]

/-- Witness for C1: the decompositions at `sampleEndpoint`, which has a
path parameter, a query parameter, and no `()` in its doc text. -/
theorem declaredParams_per_emitter_witness :
    ((pathParamsOf sampleEndpoint).length > 0 ∨
      (queryParamsOf sampleEndpoint).length > 0 ∨ hasBodyOf sampleEndpoint = true) ∧
    listInfixOf "()".data (JavaGen.sigPrefix sampleEndpoint).data = false ∧
    GoGen.generateEndpointMethod sampleEndpoint =
      GoGen.sigPrefix sampleEndpoint ++ "()" ++
      ("(" ++ GoGen.generateMethodParameters (pathParamsOf sampleEndpoint)
          (queryParamsOf sampleEndpoint) (hasBodyOf sampleEndpoint) ++ ")") ++
      GoGen.methodRest sampleEndpoint ∧
    PhpGen.generateEndpointMethod sampleEndpoint =
      PhpGen.sigPrefix sampleEndpoint ++ "()" ++
      ("(" ++ PhpGen.generateMethodParameters (pathParamsOf sampleEndpoint)
          (queryParamsOf sampleEndpoint) (hasBodyOf sampleEndpoint) ++ ")") ++
      PhpGen.methodRest sampleEndpoint ∧
    JavaGen.generateEndpointMethod sampleEndpoint =
      JavaGen.sigPrefix sampleEndpoint ++
      ("(" ++ JavaGen.generateMethodParameters (pathParamsOf sampleEndpoint)
          (queryParamsOf sampleEndpoint) (hasBodyOf sampleEndpoint) ++ ")") ++
      JavaGen.methodRest sampleEndpoint :=
  ⟨by decide, by decide,
   (declaredParams_per_emitter mA sampleEndpoint).2.2.2.2.2.1 (by decide),
   (declaredParams_per_emitter mA sampleEndpoint).2.2.2.2.2.2.1 (by decide),
   (declaredParams_per_emitter mA sampleEndpoint).2.2.2.2.2.2.2 (by decide)
     (by decide)⟩

/-- C5: every emitter's output is a pure function of the four model fields
it reads (`baseUrl`, `authMethod`, `endpoints`, `title`) — in particular
two invocations with identical inputs are byte-identical, independently of
`version`, `description` and the `fileName` argument; the artifact path
keys are fixed per target; and the Go emitter, instead of returning an
artifact map, deterministically throws `ReferenceError: operationId is not
defined` for any model with at least one endpoint (here `mA`), because its
example template reads the unbound identifier `operationId`. -/
theorem generate_deterministic_and_go_throws :
    (∀ (m1 m2 : ApiData) (f1 f2 : String),
      m1.baseUrl = m2.baseUrl → m1.authMethod = m2.authMethod →
      m1.endpoints = m2.endpoints → m1.title = m2.title →
      NodeGen.generateNodeCode m1 f1 = NodeGen.generateNodeCode m2 f2 ∧
      JavaGen.generateJavaCode m1 f1 = JavaGen.generateJavaCode m2 f2 ∧
      PhpGen.generatePhpCode m1 f1 = PhpGen.generatePhpCode m2 f2 ∧
      GoGen.generateGoCode m1 f1 = GoGen.generateGoCode m2 f2) ∧
    (∀ (m : ApiData) (f : String),
      (NodeGen.generateNodeCode m f).map Prod.fst =
        ["package.json", "src/ApiClient.js", "src/auth/AuthHandler.js",
         "src/utils/RequestHandler.js", "src/utils/ErrorHandler.js",
         "src/config/Config.js", "tests/ApiClient.test.js",
         "examples/basic-usage.js", ".env.example"] ∧
      (JavaGen.generateJavaCode m f).map Prod.fst =
        ["pom.xml", "src/main/java/com/example/ApiClient.java",
         "src/main/java/com/example/auth/AuthHandler.java",
         "src/main/java/com/example/utils/RequestHandler.java",
         "src/main/java/com/example/utils/ErrorHandler.java",
         "src/main/java/com/example/config/Config.java",
         "src/main/java/com/example/models/ApiResponse.java",
         "src/test/java/com/example/ApiClientTest.java",
         "src/main/java/com/example/ExampleUsage.java",
         "src/main/resources/application.properties"] ∧
      (PhpGen.generatePhpCode m f).map Prod.fst =
        ["composer.json", "src/ApiClient.php", "src/Auth/AuthHandler.php",
         "src/Utils/RequestHandler.php", "src/Utils/ErrorHandler.php",
         "src/Config/Config.php", "src/Models/ApiResponse.php",
         "tests/ApiClientTest.php", "examples/basic-usage.php", ".env.example"]) ∧
    GoGen.generateGoCode mA "petstore.json" = .error "operationId is not defined" := by
  refine ⟨?_, ?_, ?_⟩
  · intro m1 m2 f1 f2 h1 h2 h3 h4
    refine ⟨?_, ?_, ?_, ?_⟩
    · simp only [NodeGen.generateNodeCode, NodeGen.generatePackageJson,
        NodeGen.generateApiClient, NodeGen.generateAuthHandler, NodeGen.generateTests,
        NodeGen.generateExampleUsage, NodeGen.generateEnvExample, h1, h2, h3, h4]
    · simp only [JavaGen.generateJavaCode, JavaGen.generatePomXml,
        JavaGen.generateApiClient, JavaGen.generateAuthHandler, JavaGen.generateTests,
        JavaGen.generateExampleUsage, JavaGen.generateApplicationProperties,
        h1, h2, h3, h4]
    · simp only [PhpGen.generatePhpCode, PhpGen.generateComposerJson,
        PhpGen.generateApiClient, PhpGen.generateAuthHandler, PhpGen.generateTests,
        PhpGen.generateExampleUsage, PhpGen.generateEnvExample, h1, h2, h3, h4]
    · simp only [GoGen.generateGoCode, GoGen.generateGoMod, GoGen.generateApiClient,
        GoGen.generateAuthHandler, GoGen.generateTests, GoGen.generateExampleUsage,
        GoGen.generateExampleUsageText, GoGen.generateEnvExample, h1, h2, h3, h4]
  · intro m f
    exact ⟨rfl, rfl, rfl⟩
  · rfl

/-- Witness for C5: two models identical in the four read fields but
different in `version` and `description`, generated under different file
names, give byte-identical artifact maps. -/
theorem generate_deterministic_witness :
    (mA.baseUrl = mB.baseUrl ∧ mA.authMethod = mB.authMethod ∧
     mA.endpoints = mB.endpoints ∧ mA.title = mB.title ∧ mA.version ≠ mB.version) ∧
    NodeGen.generateNodeCode mA "a.json" = NodeGen.generateNodeCode mB "b.json" ∧
    PhpGen.generatePhpCode mA "a.json" = PhpGen.generatePhpCode mB "b.json" :=
  ⟨⟨rfl, rfl, rfl, rfl, by decide⟩,
   (generate_deterministic_and_go_throws.1 mA mB "a.json" "b.json" rfl rfl rfl rfl).1,
   (generate_deterministic_and_go_throws.1 mA mB "a.json" "b.json" rfl rfl rfl rfl).2.2.1⟩

/-- Dropping as many elements as `takeWhile` keeps is `dropWhile`. -/
theorem drop_takeWhile_length {α : Type} (p : α → Bool) (l : List α) :
    l.drop (l.takeWhile p).length = l.dropWhile p := by
  induction l with
  | nil => rfl
  | cons x xs ih =>
    by_cases hx : p x
    · simp [List.takeWhile_cons, List.dropWhile_cons, hx, ih]
    · simp [List.takeWhile_cons, List.dropWhile_cons, hx]

/-- The first element surviving `dropWhile` fails the predicate. -/
theorem dropWhile_head_false {α : Type} (p : α → Bool) (l : List α)
    (x : α) (xs : List α) (h : l.dropWhile p = x :: xs) : p x = false := by
  induction l with
  | nil => simp at h
  | cons y ys ih =>
    by_cases hy : p y
    · rw [List.dropWhile_cons_of_pos hy] at h
      exact ih h
    · rw [List.dropWhile_cons_of_neg hy] at h
      cases h
      simpa using hy

/-- A non-empty `takeWhile` starts with a head of the list satisfying the
predicate. -/
theorem takeWhile_cons_inv {α : Type} (p : α → Bool) (l : List α)
    (x : α) (xs : List α) (h : l.takeWhile p = x :: xs) :
    p x = true ∧ ∃ l', l = x :: l' := by
  induction l with
  | nil => simp at h
  | cons y ys _ =>
    by_cases hy : p y
    · rw [List.takeWhile_cons_of_pos hy] at h
      obtain ⟨h1, h2⟩ := List.cons.injEq y (List.takeWhile p ys) x xs ▸ h
      exact ⟨h1 ▸ hy, ys, by rw [h1]⟩
    · rw [List.takeWhile_cons_of_neg hy] at h
      simp at h

/-- A character whose JS lower-casing is a lower-case letter is a letter. -/
theorem jsLowerChar_isAlpha (c : Char) (h : (jsLowerChar c).isAlpha = true) :
    c.isAlpha = true := by
  unfold jsLowerChar at h
  split at h <;> simp_all <;> decide

/-- A character whose JS lower-casing is a letter is a scheme character. -/
theorem jsLowerChar_schemeChar (c : Char) (h : (jsLowerChar c).isAlpha = true) :
    (c.isAlphanum || c = '+' || c = '-' || c = '.') = true := by
  unfold jsLowerChar at h
  split at h <;> simp_all [Char.isAlphanum] <;> decide

/-- Only `:` lower-cases to `:`. -/
theorem jsLowerChar_colon (c : Char) (h : jsLowerChar c = ':') : c = ':' := by
  unfold jsLowerChar at h
  split at h <;> simp_all

/-- Only `/` lower-cases to `/`. -/
theorem jsLowerChar_slash (c : Char) (h : jsLowerChar c = '/') : c = '/' := by
  unfold jsLowerChar at h
  split at h <;> simp_all

/-- Destructure a case-insensitive `http://` prefix. -/
theorem ci_http_destruct (cs : List Char)
    (h : listPrefixOfCI "http://".data cs = true) :
    ∃ c0 c1 c2 c3 c4 c5 c6 rest, cs = c0::c1::c2::c3::c4::c5::c6::rest ∧
      jsLowerChar c0 = 'h' ∧ jsLowerChar c1 = 't' ∧ jsLowerChar c2 = 't' ∧
      jsLowerChar c3 = 'p' ∧ c4 = ':' ∧ c5 = '/' ∧ c6 = '/' := by
  unfold listPrefixOfCI at h
  rcases cs with _|⟨c0,_|⟨c1,_|⟨c2,_|⟨c3,_|⟨c4,_|⟨c5,_|⟨c6,rest⟩⟩⟩⟩⟩⟩⟩ <;>
    simp [listPrefixOf] at h
  obtain ⟨h0, h1, h2, h3, h4, h5, h6⟩ := h
  exact ⟨c0, c1, c2, c3, c4, c5, c6, rest, rfl, h0.symm, h1.symm, h2.symm,
    h3.symm, jsLowerChar_colon c4 h4.symm, jsLowerChar_slash c5 h5.symm,
    jsLowerChar_slash c6 h6.symm⟩

/-- Destructure a case-insensitive `https://` prefix. -/
theorem ci_https_destruct (cs : List Char)
    (h : listPrefixOfCI "https://".data cs = true) :
    ∃ c0 c1 c2 c3 c4 c5 c6 c7 rest, cs = c0::c1::c2::c3::c4::c5::c6::c7::rest ∧
      jsLowerChar c0 = 'h' ∧ jsLowerChar c1 = 't' ∧ jsLowerChar c2 = 't' ∧
      jsLowerChar c3 = 'p' ∧ jsLowerChar c4 = 's' ∧ c5 = ':' ∧ c6 = '/' ∧
      c7 = '/' := by
  unfold listPrefixOfCI at h
  rcases cs with _|⟨c0,_|⟨c1,_|⟨c2,_|⟨c3,_|⟨c4,_|⟨c5,_|⟨c6,_|⟨c7,rest⟩⟩⟩⟩⟩⟩⟩⟩ <;>
    simp [listPrefixOf] at h
  obtain ⟨h0, h1, h2, h3, h4, h5, h6, h7⟩ := h
  exact ⟨c0, c1, c2, c3, c4, c5, c6, c7, rest, rfl, h0.symm, h1.symm, h2.symm,
    h3.symm, h4.symm, jsLowerChar_colon c5 h5.symm, jsLowerChar_slash c6 h6.symm,
    jsLowerChar_slash c7 h7.symm⟩


/-- A string starting with `/` is non-empty. -/
theorem startsWith_slash_ne_empty (s : String) (h : jsStartsWith s "/" = true) :
    s ≠ "" := by
  intro he
  subst he
  exact absurd h (by decide)

/-- The pathname a special-scheme URL parse builds is non-empty and starts
with `/`. -/
theorem pathname_of_body (body : List Char) :
    (let rest := body.drop
        ((body.takeWhile (fun c => c ≠ '/' && c ≠ '?' && c ≠ '#' && c ≠ '\\')).length)
     let path := rest.takeWhile (fun c => c ≠ '?' && c ≠ '#')
     let pathname : String :=
       match path with
       | [] => "/"
       | _ => ⟨path.map (fun c => if c = '\\' then '/' else c)⟩
     pathname ≠ "" ∧ jsStartsWith pathname "/" = true) := by
  rw [drop_takeWhile_length]
  generalize hQ : body.dropWhile
      (fun c => c ≠ '/' && c ≠ '?' && c ≠ '#' && c ≠ '\\') = q
  cases q with
  | nil =>
    show ("/" : String) ≠ "" ∧ jsStartsWith "/" "/" = true
    exact ⟨by decide, by decide⟩
  | cons x xs =>
    dsimp only
    have hfa : (fun c : Char => c ≠ '/' && c ≠ '?' && c ≠ '#' && c ≠ '\\') x = false :=
      dropWhile_head_false _ body x xs hQ
    by_cases hx : (fun c : Char => c ≠ '?' && c ≠ '#') x = true
    · have htw : List.takeWhile (fun c : Char => c ≠ '?' && c ≠ '#') (x :: xs) =
          x :: List.takeWhile (fun c : Char => c ≠ '?' && c ≠ '#') xs :=
        List.takeWhile_cons_of_pos hx
      rw [htw]
      have hp0 : x = '/' ∨ x = '\\' := by
        simp only [Bool.and_eq_false_iff] at hfa
        simp only [Bool.and_eq_true, decide_eq_true_eq] at hx
        rcases hfa with ((e1 | e2) | e3) | e4
        · left
          simpa using e1
        · exact absurd (by simpa using e2) hx.1
        · exact absurd (by simpa using e3) hx.2
        · right
          simpa using e4
      have hfx : (if x = '\\' then '/' else x) = '/' := by
        rcases hp0 with hp | hp <;> rw [hp] <;> decide
      have hsw : listPrefixOf ['/']
          ((x :: List.takeWhile (fun c : Char => c ≠ '?' && c ≠ '#') xs).map
            (fun c => if c = '\\' then '/' else c)) = true := by
        simp [listPrefixOf, hfx]
      refine ⟨?_, ?_⟩
      · show (⟨(x :: List.takeWhile (fun c : Char => c ≠ '?' && c ≠ '#') xs).map
            (fun c => if c = '\\' then '/' else c)⟩ : String) ≠ ""
        intro he
        have hsw2 : jsStartsWith
            (⟨(x :: List.takeWhile (fun c : Char => c ≠ '?' && c ≠ '#') xs).map
              (fun c => if c = '\\' then '/' else c)⟩ : String) "/" = true := hsw
        rw [he] at hsw2
        exact absurd hsw2 (by decide)
      · show jsStartsWith
            (⟨(x :: List.takeWhile (fun c : Char => c ≠ '?' && c ≠ '#') xs).map
              (fun c => if c = '\\' then '/' else c)⟩ : String) "/" = true
        exact hsw
    · have htw : List.takeWhile (fun c : Char => c ≠ '?' && c ≠ '#') (x :: xs) = [] :=
        List.takeWhile_cons_of_neg (by simpa using hx)
      rw [htw]
      show ("/" : String) ≠ "" ∧ jsStartsWith "/" "/" = true
      exact ⟨by decide, by decide⟩

/-- A successful parse of a URL string with a case-insensitive `http://` or
`https://` prefix yields a pathname that is non-empty and starts with
`/`. -/
theorem jsURL_pathname_of_http_prefix (s : String) (u : UrlRec)
    (hpre : listPrefixOfCI "http://".data s.data = true ∨
            listPrefixOfCI "https://".data s.data = true)
    (h : jsURL s = some u) :
    u.pathname ≠ "" ∧ jsStartsWith u.pathname "/" = true := by
  unfold jsURL at h
  rcases hpre with hp | hp
  · obtain ⟨c0, c1, c2, c3, c4, c5, c6, rest, hs, h0, h1, h2, h3, h4, h5, h6⟩ :=
      ci_http_destruct s.data hp
    subst h4; subst h5; subst h6
    rw [hs] at h
    have hA : c0.isAlpha = true := jsLowerChar_isAlpha c0 (by rw [h0]; decide)
    have hS1 : (fun d : Char => d.isAlphanum || d = '+' || d = '-' || d = '.') c1 = true :=
      jsLowerChar_schemeChar c1 (by rw [h1]; decide)
    have hS2 : (fun d : Char => d.isAlphanum || d = '+' || d = '-' || d = '.') c2 = true :=
      jsLowerChar_schemeChar c2 (by rw [h2]; decide)
    have hS3 : (fun d : Char => d.isAlphanum || d = '+' || d = '-' || d = '.') c3 = true :=
      jsLowerChar_schemeChar c3 (by rw [h3]; decide)
    have hrun : List.takeWhile (fun d : Char => d.isAlphanum || d = '+' || d = '-' || d = '.')
        (c1 :: c2 :: c3 :: ':' :: '/' :: '/' :: rest) = [c1, c2, c3] := by
      have e1 : List.takeWhile (fun d : Char => d.isAlphanum || d = '+' || d = '-' || d = '.')
          (c1 :: c2 :: c3 :: ':' :: '/' :: '/' :: rest) =
          c1 :: List.takeWhile (fun d : Char => d.isAlphanum || d = '+' || d = '-' || d = '.')
            (c2 :: c3 :: ':' :: '/' :: '/' :: rest) :=
        List.takeWhile_cons_of_pos hS1
      have e2 : List.takeWhile (fun d : Char => d.isAlphanum || d = '+' || d = '-' || d = '.')
          (c2 :: c3 :: ':' :: '/' :: '/' :: rest) =
          c2 :: List.takeWhile (fun d : Char => d.isAlphanum || d = '+' || d = '-' || d = '.')
            (c3 :: ':' :: '/' :: '/' :: rest) :=
        List.takeWhile_cons_of_pos hS2
      have e3 : List.takeWhile (fun d : Char => d.isAlphanum || d = '+' || d = '-' || d = '.')
          (c3 :: ':' :: '/' :: '/' :: rest) =
          c3 :: List.takeWhile (fun d : Char => d.isAlphanum || d = '+' || d = '-' || d = '.')
            (':' :: '/' :: '/' :: rest) :=
        List.takeWhile_cons_of_pos hS3
      have e4 : List.takeWhile (fun d : Char => d.isAlphanum || d = '+' || d = '-' || d = '.')
          (':' :: '/' :: '/' :: rest) = [] :=
        List.takeWhile_cons_of_neg (by decide)
      rw [e1, e2, e3, e4]
    have hps : parseScheme (c0 :: c1 :: c2 :: c3 :: ':' :: '/' :: '/' :: rest) =
        some (⟨[c0, c1, c2, c3]⟩, '/' :: '/' :: rest) := by
      simp only [parseScheme]
      rw [if_pos hA]
      rw [hrun]
      rfl
    have hm : [c0, c1, c2, c3].map jsLowerChar = ['h', 't', 't', 'p'] := by
      simp [h0, h1, h2, h3]
    have hlow : jsLower ⟨[c0, c1, c2, c3]⟩ = "http" := by
      show (⟨[c0, c1, c2, c3].map jsLowerChar⟩ : String) = "http"
      rw [hm]
    have d1 : (fun c : Char => c = '/' || c = '\\') '/' = true := by decide
    have hdw : List.dropWhile (fun c : Char => c = '/' || c = '\\') ('/' :: '/' :: rest) =
        List.dropWhile (fun c : Char => c = '/' || c = '\\') rest := by
      have w1 : List.dropWhile (fun c : Char => c = '/' || c = '\\') ('/' :: '/' :: rest) =
          List.dropWhile (fun c : Char => c = '/' || c = '\\') ('/' :: rest) :=
        List.dropWhile_cons_of_pos d1
      have w2 : List.dropWhile (fun c : Char => c = '/' || c = '\\') ('/' :: rest) =
          List.dropWhile (fun c : Char => c = '/' || c = '\\') rest :=
        List.dropWhile_cons_of_pos d1
      rw [w1, w2]
    simp only [hps] at h
    rw [if_pos (Or.inl hlow)] at h
    rw [hlow] at h
    rw [hdw] at h
    split at h
    · simp at h
    · rw [Option.some.injEq] at h
      rw [← h]
      exact pathname_of_body (List.dropWhile (fun c : Char => c = '/' || c = '\\') rest)
  · obtain ⟨c0, c1, c2, c3, c4, c5, c6, c7, rest, hs, h0, h1, h2, h3, h4, h5, h6, h7⟩ :=
      ci_https_destruct s.data hp
    subst h5; subst h6; subst h7
    rw [hs] at h
    have hA : c0.isAlpha = true := jsLowerChar_isAlpha c0 (by rw [h0]; decide)
    have hS1 : (fun d : Char => d.isAlphanum || d = '+' || d = '-' || d = '.') c1 = true :=
      jsLowerChar_schemeChar c1 (by rw [h1]; decide)
    have hS2 : (fun d : Char => d.isAlphanum || d = '+' || d = '-' || d = '.') c2 = true :=
      jsLowerChar_schemeChar c2 (by rw [h2]; decide)
    have hS3 : (fun d : Char => d.isAlphanum || d = '+' || d = '-' || d = '.') c3 = true :=
      jsLowerChar_schemeChar c3 (by rw [h3]; decide)
    have hS4 : (fun d : Char => d.isAlphanum || d = '+' || d = '-' || d = '.') c4 = true :=
      jsLowerChar_schemeChar c4 (by rw [h4]; decide)
    have hrun : List.takeWhile (fun d : Char => d.isAlphanum || d = '+' || d = '-' || d = '.')
        (c1 :: c2 :: c3 :: c4 :: ':' :: '/' :: '/' :: rest) = [c1, c2, c3, c4] := by
      have e1 : List.takeWhile (fun d : Char => d.isAlphanum || d = '+' || d = '-' || d = '.')
          (c1 :: c2 :: c3 :: c4 :: ':' :: '/' :: '/' :: rest) =
          c1 :: List.takeWhile (fun d : Char => d.isAlphanum || d = '+' || d = '-' || d = '.')
            (c2 :: c3 :: c4 :: ':' :: '/' :: '/' :: rest) :=
        List.takeWhile_cons_of_pos hS1
      have e2 : List.takeWhile (fun d : Char => d.isAlphanum || d = '+' || d = '-' || d = '.')
          (c2 :: c3 :: c4 :: ':' :: '/' :: '/' :: rest) =
          c2 :: List.takeWhile (fun d : Char => d.isAlphanum || d = '+' || d = '-' || d = '.')
            (c3 :: c4 :: ':' :: '/' :: '/' :: rest) :=
        List.takeWhile_cons_of_pos hS2
      have e3 : List.takeWhile (fun d : Char => d.isAlphanum || d = '+' || d = '-' || d = '.')
          (c3 :: c4 :: ':' :: '/' :: '/' :: rest) =
          c3 :: List.takeWhile (fun d : Char => d.isAlphanum || d = '+' || d = '-' || d = '.')
            (c4 :: ':' :: '/' :: '/' :: rest) :=
        List.takeWhile_cons_of_pos hS3
      have e4 : List.takeWhile (fun d : Char => d.isAlphanum || d = '+' || d = '-' || d = '.')
          (c4 :: ':' :: '/' :: '/' :: rest) =
          c4 :: List.takeWhile (fun d : Char => d.isAlphanum || d = '+' || d = '-' || d = '.')
            (':' :: '/' :: '/' :: rest) :=
        List.takeWhile_cons_of_pos hS4
      have e5 : List.takeWhile (fun d : Char => d.isAlphanum || d = '+' || d = '-' || d = '.')
          (':' :: '/' :: '/' :: rest) = [] :=
        List.takeWhile_cons_of_neg (by decide)
      rw [e1, e2, e3, e4, e5]
    have hps : parseScheme (c0 :: c1 :: c2 :: c3 :: c4 :: ':' :: '/' :: '/' :: rest) =
        some (⟨[c0, c1, c2, c3, c4]⟩, '/' :: '/' :: rest) := by
      simp only [parseScheme]
      rw [if_pos hA]
      rw [hrun]
      rfl
    have hm : [c0, c1, c2, c3, c4].map jsLowerChar = ['h', 't', 't', 'p', 's'] := by
      simp [h0, h1, h2, h3, h4]
    have hlow : jsLower ⟨[c0, c1, c2, c3, c4]⟩ = "https" := by
      show (⟨[c0, c1, c2, c3, c4].map jsLowerChar⟩ : String) = "https"
      rw [hm]
    have d1 : (fun c : Char => c = '/' || c = '\\') '/' = true := by decide
    have hdw : List.dropWhile (fun c : Char => c = '/' || c = '\\') ('/' :: '/' :: rest) =
        List.dropWhile (fun c : Char => c = '/' || c = '\\') rest := by
      have w1 : List.dropWhile (fun c : Char => c = '/' || c = '\\') ('/' :: '/' :: rest) =
          List.dropWhile (fun c : Char => c = '/' || c = '\\') ('/' :: rest) :=
        List.dropWhile_cons_of_pos d1
      have w2 : List.dropWhile (fun c : Char => c = '/' || c = '\\') ('/' :: rest) =
          List.dropWhile (fun c : Char => c = '/' || c = '\\') rest :=
        List.dropWhile_cons_of_pos d1
      rw [w1, w2]
    simp only [hps] at h
    rw [if_pos (Or.inr hlow)] at h
    rw [hlow] at h
    rw [hdw] at h
    split at h
    · simp at h
    · rw [Option.some.injEq] at h
      rw [← h]
      exact pathname_of_body (List.dropWhile (fun c : Char => c = '/' || c = '\\') rest)

/-- A prefix of `l` is a prefix of `l.take n ++ t` when it fits in `n`. -/
theorem listPrefixOf_take_append (p : List Char) :
    ∀ (l t : List Char) (n : Nat), p.length ≤ n → listPrefixOf p l = true →
      listPrefixOf p (l.take n ++ t) = true := by
  induction p with
  | nil => intro l t n _ _; simp [listPrefixOf]
  | cons a as ih =>
    intro l t n hlen h
    cases l with
    | nil => simp [listPrefixOf] at h
    | cons b bs =>
      cases n with
      | zero => simp at hlen
      | succ m =>
        simp only [listPrefixOf, Bool.and_eq_true, decide_eq_true_eq] at h
        simp only [List.take_succ_cons, List.cons_append, listPrefixOf,
          Bool.and_eq_true, decide_eq_true_eq]
        exact ⟨h.1, ih bs t m (by simpa using hlen) h.2⟩

/-- Case-insensitive version of `listPrefixOf_take_append`. -/
theorem listPrefixOfCI_take_append (p l t : List Char) (n : Nat)
    (hlen : p.length ≤ n) (h : listPrefixOfCI p l = true) :
    listPrefixOfCI p (l.take n ++ t) = true := by
  unfold listPrefixOfCI at h ⊢
  rw [List.map_append, List.map_take]
  exact listPrefixOf_take_append _ _ _ n (by simpa using hlen) h

/-- Any match of the URL pattern starts (case-insensitively) with
`http://` or `https://`. -/
theorem scanUrl_scheme (m : String) :
    ∀ cs : List Char, Html.scanUrl cs = some m →
      listPrefixOfCI "http://".data m.data = true ∨
      listPrefixOfCI "https://".data m.data = true := by
  intro cs
  induction cs with
  | nil => intro h; simp [Html.scanUrl] at h
  | cons c cs ih =>
    intro h
    simp only [Html.scanUrl] at h
    cases hu : Html.urlAnchored (c :: cs) with
    | none =>
      rw [hu] at h
      exact ih h
    | some mm =>
      rw [hu] at h
      rw [Option.some.injEq] at h
      subst h
      unfold Html.urlAnchored at hu
      split at hu
      · -- https prefix
        rename_i h8
        dsimp only at hu
        split at hu
        · exact absurd hu (by simp)
        · rw [Option.some.injEq] at hu
          subst hu
          right
          exact listPrefixOfCI_take_append _ _ _ 8 (by decide) h8
      · -- not an https prefix: split the match on the remaining if
        dsimp only at hu
        split at hu
        · exact absurd hu (by simp)
        · rename_i n heq
          split at heq
          · rename_i h7
            rw [Option.some.injEq] at heq
            subst heq
            split at hu
            · exact absurd hu (by simp)
            · rw [Option.some.injEq] at hu
              subst hu
              left
              exact listPrefixOfCI_take_append _ _ _ 7 (by decide) h7
          · exact absurd heq (by simp)

/-- Every endpoint built by `parseEndpointFromText` carries a non-empty
path starting with `/`. -/
theorem parseEndpointFromText_path (t : String) (el : HtmlElement)
    (e : Endpoint) (h : Html.parseEndpointFromText t el = some e) :
    e.path ≠ "" ∧ jsStartsWith e.path "/" = true := by
  unfold Html.parseEndpointFromText at h
  split at h
  · rw [Option.some.injEq] at h
    rw [← h]
    exact ensureSlash_ok (Html.cleanPath _)
  · split at h
    · rename_i u hscan
      split at h
      · rename_i ur hurl
        rw [Option.some.injEq] at h
        rw [← h]
        exact jsURL_pathname_of_http_prefix u ur (scanUrl_scheme u t.data hscan) hurl
      · exact absurd h (by simp)
    · exact absurd h (by simp)

/-- Every endpoint the HTML parser returns carries a non-empty path
starting with `/`. -/
theorem html_extract_paths (d : HtmlDoc) (e : Endpoint)
    (he : e ∈ Html.extractEndpoints d) :
    e.path ≠ "" ∧ jsStartsWith e.path "/" = true := by
  have hd := (mem_dedupLoop (Html.discoveredEndpoints d) [] e he).1
  rw [Html.discoveredEndpoints, List.mem_filterMap] at hd
  obtain ⟨el, _, hpe⟩ := hd
  exact parseEndpointFromText_path _ el e hpe

/-- Every endpoint built by `extractEndpointFromRequest` carries a
non-empty path starting with `/`. -/
theorem postman_eefr_path (item : PMItem) (pp : String) (e : Endpoint)
    (h : Postman.extractEndpointFromRequest item pp = some e) :
    e.path ≠ "" ∧ jsStartsWith e.path "/" = true := by
  obtain ⟨nm, req, kids, dsc, rsp⟩ := item
  unfold Postman.extractEndpointFromRequest at h
  simp only [PMItem.request, PMItem.name, PMItem.description, PMItem.response] at h
  cases req with
  | none => simp at h
  | some r =>
    dsimp only at h
    cases hu : r.url with
    | none =>
      rw [hu] at h
      simp at h
    | some url =>
      rw [hu] at h
      cases url with
      | str s =>
        by_cases hs : s = ""
        · simp [hs] at h
        · simp [hs] at h
          subst h
          exact ensureSlash_ok _
      | obj raw segs q =>
        cases raw with
        | none => simp at h
        | some rs =>
          by_cases hrs : rs = ""
          · simp [hrs] at h
          · simp [hrs] at h
            subst h
            exact ensureSlash_ok _

/-- Every endpoint produced by the Postman item walk carries a non-empty
path starting with `/`. -/
theorem processItems_path (items : List (Option PMItem)) (pp : String) :
    ∀ e : Endpoint, e ∈ Postman.processItems items pp →
      e.path ≠ "" ∧ jsStartsWith e.path "/" = true := by
  induction items, pp using Postman.processItems.induct with
  | case1 q =>
    intro e he
    simp [Postman.processItems] at he
  | case2 rest q ih =>
    intro e he
    simp only [Postman.processItems] at he
    exact ih e he
  | case3 nm kids desc resp rest q val ih =>
    intro e he
    simp only [Postman.processItems] at he
    rw [List.mem_append] at he
    rcases he with hl | hr
    · cases heefr : Postman.extractEndpointFromRequest (.mk nm (some val) kids desc resp) q with
      | none =>
        rw [heefr] at hl
        simp at hl
      | some e2 =>
        rw [heefr] at hl
        simp at hl
        subst hl
        exact postman_eefr_path _ q e heefr
    · exact ih e hr
  | case4 nm desc resp rest q children fp ih1 ih2 =>
    intro e he
    simp only [Postman.processItems] at he
    rw [List.mem_append] at he
    rcases he with hl | hr
    · exact ih1 e hl
    · exact ih2 e hr
  | case5 nm desc resp rest q ih =>
    intro e he
    simp only [Postman.processItems] at he
    exact ih e he

/-- Every endpoint the Postman parser returns carries a non-empty path
starting with `/`. -/
theorem postman_extract_paths (c : PMCollection) (e : Endpoint)
    (he : e ∈ Postman.extractEndpoints c) :
    e.path ≠ "" ∧ jsStartsWith e.path "/" = true := by
  unfold Postman.extractEndpoints at he
  split at he
  · simp at he
  · exact processItems_path _ _ e he

/-- C6 (counterexample): the OpenAPI normalizer copies path keys verbatim,
so for `c6Doc` the extracted endpoint's path `pets/\x7bid\x7d` neither starts
with `/` nor has a matching `path` parameter for its placeholder, refuting
the claimed invariant for the Swagger normalizer. -/
theorem swagger_path_invariant_counterexample :
    ¬ ∀ e ∈ Swagger.extractEndpoints c6Doc,
        e.path ≠ "" ∧ jsStartsWith e.path "/" = true ∧
        ∀ nm ∈ Html.scanBrace e.path.data,
          ∃ p ∈ e.parameters, p.name = nm ∧ p.loc = "path" := by
  decide

/-- C6 (amended): every endpoint produced by the Postman normalizer and
every endpoint produced by the HTML normalizer has a non-empty `path`
beginning with `/` (both parsers prepend the slash where it is missing; the
HTML parser's URL branch takes the pathname of a parsed `http(s)` URL,
which always starts with `/`).  The OpenAPI normalizer enjoys no such
invariant, and the placeholder/parameter correspondence is enforced by no
parser. -/
theorem postman_html_path_invariant (c : PMCollection) (d : HtmlDoc)
    (e f : Endpoint) (hc : e ∈ Postman.extractEndpoints c)
    (hd : f ∈ Html.extractEndpoints d) :
    (e.path ≠ "" ∧ jsStartsWith e.path "/" = true) ∧
    (f.path ≠ "" ∧ jsStartsWith f.path "/" = true) :=
  ⟨postman_extract_paths c e hc, html_extract_paths d f hd⟩

/-- Witness for the amended C6: concrete endpoints of `c6PMColl` (Postman)
and `c6WitnessDoc` (HTML) have slash-prefixed non-empty paths. -/
theorem postman_html_path_invariant_witness :
    (c6PMEndpoint ∈ Postman.extractEndpoints c6PMColl) ∧
    (c6WitnessEndpoint ∈ Html.extractEndpoints c6WitnessDoc) ∧
    ((c6PMEndpoint.path ≠ "" ∧ jsStartsWith c6PMEndpoint.path "/" = true) ∧
     (c6WitnessEndpoint.path ≠ "" ∧ jsStartsWith c6WitnessEndpoint.path "/" = true)) := by
  have heefr : Postman.extractEndpointFromRequest
      (.mk (some "r")
        (some ⟨some (.str "http://x/a"), some "get", none, none, none⟩)
        none none none) "" = some c6PMEndpoint := rfl
  have hlist : Postman.extractEndpoints c6PMColl = [c6PMEndpoint] := by
    simp [Postman.extractEndpoints, c6PMColl, c8Item, Postman.processItems, heefr]
  have h1 : c6PMEndpoint ∈ Postman.extractEndpoints c6PMColl := by
    rw [hlist]
    exact List.mem_cons_self _ _
  have h2 : c6WitnessEndpoint ∈ Html.extractEndpoints c6WitnessDoc := by
    have hh : Html.extractEndpoints c6WitnessDoc =
        c6WitnessEndpoint :: (Html.extractEndpoints c6WitnessDoc).tail := rfl
    rw [hh]
    exact List.mem_cons_self _ _
  exact ⟨h1, h2, postman_html_path_invariant c6PMColl c6WitnessDoc
    c6PMEndpoint c6WitnessEndpoint h1 h2⟩
